import Mathlib

/-!
# Command-line option reading of `fastqpreprocessing/src/input_options.cpp`

A shallow embedding of the three option readers `read_options_tagsort`,
`read_options_fastqprocess` and `read_options_fastq_slideseq`, followed by the
theorems that settle the claims of the specification against them.

Conventions of the embedding.

* C strings and `std::string` are `String`; character-level work goes through
  `String.data`.
* `int` fields are `Int`.  The `double` field `bam_size` is a `double`: a number,
  an infinity or NaN, compared as C compares them, so that a comparison with NaN
  is false.  The numbers are the rationals, which include every finite double.
* `getopt_long` (glibc, default permuting mode, `opterr` nonzero) is modelled by
  `getopt_long`, which lists the successive return values of the calls the
  `while` loop makes.
* The process is observed through what it wrote on standard output and standard
  error and through how the function was left (`Status`).
-/

namespace InputOptions

/-! ## Observable behaviour -/

/-- How the option reader was left. -/
inductive Status
  | returned
  | exited (code : Int)
  | aborted
  deriving DecidableEq, Repr

/-- One write on an output stream: a piece of text, or one call
`_print_file_info(files, label)`. -/
inductive Output
  | text (s : String)
  | file_info (files : List String) (label : String)
  deriving DecidableEq, Repr

/-- The state a reader has built so far: the option record and both streams. -/
structure World (α : Type) where
  options : α
  stdout : List Output
  stderr : List Output
  deriving DecidableEq, Repr

/-- A finished call of a reader. -/
structure Run (α : Type) where
  options : α
  stdout : List Output
  stderr : List Output
  status : Status
  deriving DecidableEq, Repr

/-- Leave the function with the given status. -/
def World.finish {α : Type} (w : World α) (s : Status) : Run α :=
  { options := w.options, stdout := w.stdout, stderr := w.stderr, status := s }

/-- Text written by `printf` or `std::cout <<`. -/
def World.print {α : Type} (w : World α) (s : String) : World α :=
  { w with stdout := w.stdout ++ [Output.text s] }

/-- Text written by `std::cerr <<`, or by `getopt_long` itself. -/
def World.eprint {α : Type} (w : World α) (s : String) : World α :=
  { w with stderr := w.stderr ++ [Output.text s] }

/-- Modelled from the spec: `error_message` is declared outside this source
file; section 7 of the specification has validation errors of the tagsort
command written to standard output. -/
def World.error_message {α : Type} (w : World α) (msg : String) : World α :=
  w.print msg

/-! ## `getopt_long` -/

/-- One row of a `struct option` table.  `has_arg` is `true` for
`required_argument` and `false` for `no_argument`; every row of this file has a
null `flag`, so `getopt_long` returns `val` for it. -/
structure LongOption where
  name : String
  has_arg : Bool
  val : Char
  deriving DecidableEq, Repr, Inhabited

/-- What one call of `getopt_long` gives the loop: the returned character `c`,
`optarg`, the row stored through `&option_index` when a long option matched, and
the diagnostic the call wrote on standard error, if any. -/
structure GetoptReturn where
  c : Char
  optarg : Option String
  longindex : Option Nat
  diag : Option String
  deriving DecidableEq, Repr

/-- The outcome of scanning one element of `argv`: the returns it produced, and
the option still waiting for the next element as its value, with the diagnostic
to print when there is no next element. -/
structure Scan where
  rets : List GetoptReturn
  pending : Option (Char × Option Nat × String)
  deriving Repr

/-- The return for an error: `getopt_long` printed `diag` and returns `?`. -/
def GetoptReturn.error (diag : String) : GetoptReturn :=
  { c := '?', optarg := none, longindex := none, diag := some diag }

/-- Look the character `c` up in `optstring`, as `strchr` does: `none` when it is
absent, otherwise whether a colon follows it. -/
def strchr_colon : List Char → Char → Option Bool
  | [], _ => none
  | x :: rest, c => if x = c then some (rest.head? = some ':') else strchr_colon rest c

/-- A short option character is valid when it occurs in `optstring` and is
neither `:` nor `;`. -/
def short_option (optstring : List Char) (c : Char) : Option Bool :=
  if c = ':' ∨ c = ';' then none else strchr_colon optstring c

/-- Scan the characters of one `-xyz` element. -/
def scan_short (prog : String) (optstring : List Char) : List Char → Scan
  | [] => { rets := [], pending := none }
  | c :: cs =>
    match short_option optstring c with
    | none =>
      let s := scan_short prog optstring cs
      { rets := GetoptReturn.error (prog ++ ": invalid option -- \x27" ++ String.mk [c] ++ "\x27\n")
                  :: s.rets,
        pending := s.pending }
    | some false =>
      let s := scan_short prog optstring cs
      { rets := { c := c, optarg := none, longindex := none, diag := none } :: s.rets,
        pending := s.pending }
    | some true =>
      if cs = [] then
        { rets := [],
          pending := some (c, none,
            prog ++ ": option requires an argument -- \x27" ++ String.mk [c] ++ "\x27\n") }
      else
        { rets := [{ c := c, optarg := some (String.mk cs), longindex := none, diag := none }],
          pending := none }

/-- The rows matching a long option name: the first row with exactly that name
when there is one, otherwise every row the name abbreviates. -/
def long_candidates (long_options : List LongOption) (name : List Char) :
    List (Nat × LongOption) :=
  match long_options.enum.find? (fun p => p.2.name.data = name) with
  | some p => [p]
  | none => long_options.enum.filter (fun p => name.isPrefixOf p.2.name.data)

/-- Scan the text after the two dashes of one `--name` or `--name=value`
element. -/
def scan_long (prog : String) (long_options : List LongOption) (body : List Char) : Scan :=
  let name := body.takeWhile (fun ch => ch ≠ '=')
  let rest := body.dropWhile (fun ch => ch ≠ '=')
  match long_candidates long_options name with
  | [] =>
    { rets := [GetoptReturn.error
        (prog ++ ": unrecognized option \x27--" ++ String.mk body ++ "\x27\n")],
      pending := none }
  | (i, p) :: others =>
    if others.all (fun q => q.2.has_arg = p.has_arg ∧ q.2.val = p.val) then
      match rest with
      | [] =>
        if p.has_arg then
          { rets := [],
            pending := some (p.val, some i,
              prog ++ ": option \x27--" ++ p.name ++ "\x27 requires an argument\n") }
        else
          { rets := [{ c := p.val, optarg := none, longindex := some i, diag := none }],
            pending := none }
      | _ :: value =>
        if p.has_arg then
          { rets := [{ c := p.val, optarg := some (String.mk value), longindex := some i,
                       diag := none }],
            pending := none }
        else
          { rets := [GetoptReturn.error
              (prog ++ ": option \x27--" ++ p.name ++ "\x27 doesn\x27t allow an argument\n")],
            pending := none }
    else
      { rets := [GetoptReturn.error
          (prog ++ ": option \x27--" ++ String.mk body ++ "\x27 is ambiguous; possibilities:" ++
            String.join (((i, p) :: others).map (fun q => " \x27--" ++ q.2.name ++ "\x27")) ++ "\n")],
        pending := none }

/-- The successive values returned by `getopt_long` over the elements of `argv`
after the program name, until it returns `-1`.  An element that is not an option
is skipped (glibc permutes it to the end), `--` ends the scan, and an option that
requires a value takes the next element whatever it is. -/
def getopt_scan (prog : String) (optstring : List Char) (long_options : List LongOption) :
    Option (Char × Option Nat × String) → List String → List GetoptReturn
  | none, [] => []
  | some (_, _, diag), [] => [GetoptReturn.error diag]
  | some (c, i, _), a :: rest =>
    { c := c, optarg := some a, longindex := i, diag := none }
      :: getopt_scan prog optstring long_options none rest
  | none, a :: rest =>
    match a.data with
    | c0 :: c1 :: cs =>
      if c0 = '-' then
        if c1 = '-' then
          if cs = [] then []
          else
            let s := scan_long prog long_options cs
            s.rets ++ getopt_scan prog optstring long_options s.pending rest
        else
          let s := scan_short prog optstring (c1 :: cs)
          s.rets ++ getopt_scan prog optstring long_options s.pending rest
      else getopt_scan prog optstring long_options none rest
    | _ => getopt_scan prog optstring long_options none rest

/-- All the returns of `getopt_long(argc, argv, optstring, long_options, &option_index)`
in the order the `while` loop sees them. -/
def getopt_long (argv : List String) (optstring : String) (long_options : List LongOption) :
    List GetoptReturn :=
  getopt_scan (argv.headD "") optstring.data long_options none argv.tail

/-! ## C library conversions -/

/-- The characters `isspace` accepts in the C locale. -/
def isspace (c : Char) : Bool :=
  c = ' ' || c = '\t' || c = '\n' || c = Char.ofNat 11 || c = Char.ofNat 12 || c = '\r'

/-- Value of the leading run of decimal digits, continuing from `acc`. -/
def digits_value : List Char → Nat → Nat
  | [], acc => acc
  | c :: cs, acc => if c.isDigit then digits_value cs (acc * 10 + (c.toNat - 48)) else acc

/-- The number `strtol(s, NULL, 10)`: leading white space, an optional sign, then
decimal digits; no digits give 0 and a value outside `long` saturates. -/
def strtol (s : List Char) : Int :=
  match s.dropWhile isspace with
  | [] => 0
  | c :: cs =>
    if c = '-' then max (-(digits_value cs 0 : Int)) (-(2 ^ 63))
    else if c = '+' then min (digits_value cs 0 : Int) (2 ^ 63 - 1)
    else min (digits_value (c :: cs) 0 : Int) (2 ^ 63 - 1)

/-- Conversion of a `long` to `int`: reduction modulo `2 ^ 32` into the signed
range. -/
def to_int (z : Int) : Int := (z + 2 ^ 31) % 2 ^ 32 - 2 ^ 31

/-- The number `atoi(s)`, that is `(int) strtol(s, NULL, 10)`. -/
def atoi (s : String) : Int := to_int (strtol s.data)

/-- A value of the C type `double`: a number, an infinity with its sign, or NaN.
The conversion `atof` gives an infinity for `inf` and NaN for `nan`. -/
inductive double
  | number (q : ℚ)
  | infinity (negative : Bool)
  | nan
  deriving DecidableEq

/-- The C comparison `x <= y` of two doubles, false when either is NaN. -/
def double.le : double → double → Bool
  | double.number a, double.number b => decide (a ≤ b)
  | double.number _, double.infinity negative => !negative
  | double.infinity negative, double.number _ => negative
  | double.infinity a, double.infinity b => a || !b
  | double.nan, _ => false
  | _, double.nan => false

/-- The C comparison `x < y` of two doubles, false when either is NaN. -/
def double.lt : double → double → Bool
  | double.number a, double.number b => decide (a < b)
  | double.number _, double.infinity negative => !negative
  | double.infinity negative, double.number _ => negative
  | double.infinity a, double.infinity b => a && !b
  | double.nan, _ => false
  | _, double.nan => false

instance double.instLE : LE double := ⟨fun x y => double.le x y = true⟩

instance double.instLT : LT double := ⟨fun x y => double.lt x y = true⟩

instance double.decidableLE (x y : double) : Decidable (x ≤ y) :=
  inferInstanceAs (Decidable (double.le x y = true))

instance double.decidableLT (x y : double) : Decidable (x < y) :=
  inferInstanceAs (Decidable (double.lt x y = true))

/-- The constant `0`, converted to `double`. -/
instance double.instZero : Zero double := ⟨double.number 0⟩

/-- The constant `1.0`. -/
instance double.instOne : One double := ⟨double.number 1⟩

/-! ## The help table -/

/-- The conversion `%-Ns` of `printf`: the text, padded on the right to width
`w`. -/
def pad_right (w : Nat) (s : String) : String :=
  s ++ String.mk (List.replicate (w - s.length) ' ')

/-- One line of the help loop, `printf("\t--%-20s  %-25s  %-35s\n", ...)`. -/
def help_line (o : LongOption) (msg : String) : String :=
  "\t--" ++ pad_right 20 o.name ++ "  " ++
    pad_right 25 (if o.has_arg = false then "no argument" else "required_argument") ++ "  " ++
    pad_right 35 msg ++ "\n"

/-- The text of `case '?': case 'h':` : the usage line, then one line for each
row `i` of `long_options`, with `help_messages[i]`. -/
def help_text (prog : String) (long_options : List LongOption) (help_messages : List String) :
    List String :=
  ("Usage: " ++ prog ++ " [options] \n") ::
    long_options.enum.map (fun p => help_line p.2 (help_messages.getD p.1 ""))

/-- Write the help text on standard output. -/
def World.print_help {α : Type} (w : World α) (prog : String) (long_options : List LongOption)
    (help_messages : List String) : World α :=
  { w with stdout := w.stdout ++ (help_text prog long_options help_messages).map Output.text }

/-- The text of `case 0:` : the name of the row `option_index`, and the argument
when `optarg` is not null. -/
def case_zero_text (long_options : List LongOption) (option_index : Nat)
    (optarg : Option String) : List String :=
  ["option " ++ (long_options.getD option_index default).name] ++
    (match optarg with
     | some a => [" with arg " ++ a]
     | none => []) ++ ["\n"]

/-- What one pass through the `switch` does: `next` is a `break` back to the
loop, `leave` leaves the function. -/
inductive Case (α : Type)
  | next (w : World α)
  | leave (r : Run α)

/-- The `while` loop around a `switch`.  Before the switch runs, the diagnostic
of the `getopt_long` call is already on standard error and `option_index` holds
the row of the last long option. -/
def getopt_loop {α : Type} (switch : Nat → World α → GetoptReturn → Case α) :
    List GetoptReturn → Nat → World α → World α ⊕ Run α
  | [], _, w => Sum.inl w
  | r :: rs, option_index, w =>
    let option_index := r.longindex.getD option_index
    let w := match r.diag with
      | some d => w.eprint d
      | none => w
    match switch option_index w r with
    | Case.next w => getopt_loop switch rs option_index w
    | Case.leave run => Sum.inr run

/-! ## `read_options_tagsort` -/

/-- The map `tag_order`: its entries, in insertion order. -/
abbrev TagOrder := List (String × Nat)

/-- The assignment `m[k] = v` of a map: overwrite the entry of `k`, or add it. -/
def TagOrder.assign : TagOrder → String → Nat → TagOrder
  | [], k, v => [(k, v)]
  | (k0, v0) :: m, k, v =>
    if k0 = k then (k0, v) :: m else (k0, v0) :: TagOrder.assign m k v

/-- Modelled from the spec: the record `INPUT_OPTIONS_TAGSORT` is declared in
`input_options.h`, which is not part of the source; the fields are those of
`TagsortConfig` in section 3 of the specification. -/
structure INPUT_OPTIONS_TAGSORT where
  bam_input : String
  gtf_file : String
  temp_folder : String
  sorted_output_file : String
  metric_output_file : String
  alignments_per_thread : Int
  nthreads : Int
  barcode_tag : String
  umi_tag : String
  gene_tag : String
  metric_type : String
  compute_metric : Bool
  output_sorted_info : Bool
  tag_order : TagOrder
  deriving DecidableEq, Repr

/-- Modelled from the spec: the initial values of `INPUT_OPTIONS_TAGSORT`, set in
`input_options.h`; sections 3 and 6 give `/tmp`, 1000000 and 1, the other fields
start empty or false. -/
def INPUT_OPTIONS_TAGSORT.defaults : INPUT_OPTIONS_TAGSORT :=
  { bam_input := "", gtf_file := "", temp_folder := "/tmp", sorted_output_file := "",
    metric_output_file := "", alignments_per_thread := 1000000, nthreads := 1,
    barcode_tag := "", umi_tag := "", gene_tag := "", metric_type := "",
    compute_metric := false, output_sorted_info := false, tag_order := [] }

/-- The table `long_options` of `read_options_tagsort`. -/
def tagsort_long_options : List LongOption :=
  [ { name := "compute-metric", has_arg := false, val := 'm' },
    { name := "output-sorted-info", has_arg := false, val := 'n' },
    { name := "bam-input", has_arg := true, val := 'b' },
    { name := "gtf-file", has_arg := true, val := 'a' },
    { name := "temp-folder", has_arg := true, val := 't' },
    { name := "sorted-output", has_arg := true, val := 'o' },
    { name := "metric-output", has_arg := true, val := 'M' },
    { name := "alignments-per-thread", has_arg := true, val := 'p' },
    { name := "nthreads", has_arg := true, val := 'T' },
    { name := "barcode-tag", has_arg := true, val := 'C' },
    { name := "umi-tag", has_arg := true, val := 'U' },
    { name := "gene-tag", has_arg := true, val := 'G' },
    { name := "metric-type", has_arg := true, val := 'K' } ]

/-- The table `help_messages` of `read_options_tagsort`. -/
def tagsort_help_messages : List String :=
  [ "compute metric, metrics are computed if this option is provided [optional]",
    "sorted output file is produced if this option is provided [optional]",
    "input bam file [required]",
    "gtf file (unzipped) required then metric type is cell [required with metric cell]",
    "temp folder for disk sorting [options: default /tmp]",
    "sorted output file [optional]",
    "metric file, the metrics are output in this file  [optional]",
    "number of alignments per thread [optional: default 1000000], if this number is increased then more RAM is required but reduces the number of file splits",
    "number of threads [optional: default 1]",
    "barcode-tag the call barcode tag [required]",
    "umi-tag the umi tag [required]: the tsv file output is sorted according the tags in the options barcode-tag, umi-tag or gene-tag",
    "gene-tag the gene tag [required]",
    "metric type, either \"cell\" or \"gene\" [required]" ]

/-- The `optstring` of `read_options_tagsort`. -/
def tagsort_optstring : String := "b:a:t:no:mM:p:T:C:U:G:K:"

/-- The three statements of `case 'C'`, `case 'U'` and `case 'G'` on `tag_order`:
`curr_size = options.tag_order.size(); options.tag_order[string(optarg)] = curr_size;`. -/
def record_tag (m : TagOrder) (optarg : String) : TagOrder :=
  let curr_size := m.length
  TagOrder.assign m optarg curr_size

/-- The assignments of the `switch` of `read_options_tagsort` for the option
characters that end in `break`; `none` for every other character. -/
def tagsort_assign (options : INPUT_OPTIONS_TAGSORT) (c : Char) (optarg : String) :
    Option INPUT_OPTIONS_TAGSORT :=
  if c = 'm' then some { options with compute_metric := true }
  else if c = 'n' then some { options with output_sorted_info := true }
  else if c = 'b' then some { options with bam_input := optarg }
  else if c = 'a' then some { options with gtf_file := optarg }
  else if c = 't' then some { options with temp_folder := optarg }
  else if c = 'o' then some { options with sorted_output_file := optarg }
  else if c = 'M' then some { options with metric_output_file := optarg }
  else if c = 'p' then some { options with alignments_per_thread := atoi optarg }
  else if c = 'T' then some { options with nthreads := atoi optarg }
  else if c = 'C' then
    some { options with barcode_tag := optarg, tag_order := record_tag options.tag_order optarg }
  else if c = 'U' then
    some { options with umi_tag := optarg, tag_order := record_tag options.tag_order optarg }
  else if c = 'G' then
    some { options with gene_tag := optarg, tag_order := record_tag options.tag_order optarg }
  else if c = 'K' then some { options with metric_type := optarg }
  else none

/-- The `switch (c)` of `read_options_tagsort`.  A null `optarg` is read as the
empty string. -/
def tagsort_switch (prog : String) (option_index : Nat) (w : World INPUT_OPTIONS_TAGSORT)
    (r : GetoptReturn) : Case INPUT_OPTIONS_TAGSORT :=
  match tagsort_assign w.options r.c (r.optarg.getD "") with
  | some options => Case.next { w with options := options }
  | none =>
    if r.c = Char.ofNat 0 then
      Case.next { w with stdout := w.stdout ++
        (case_zero_text tagsort_long_options option_index r.optarg).map Output.text }
    else if r.c = '?' ∨ r.c = 'h' then
      Case.leave ((w.print_help prog tagsort_long_options tagsort_help_messages).finish
        (Status.exited 0))
    else Case.leave (w.finish Status.aborted)

/-- The pattern `.gz$` at one position: any character but a line terminator,
then `g` and `z` in either case, then the end of the text. -/
def gz_at : List Char → Bool
  | [a, g, z] => a ≠ '\n' && a ≠ '\r' && g.toLower = 'g' && z.toLower = 'z'
  | _ => false

/-- The test `std::regex_search(s, std::regex(".gz$", regex_constants::icase))`:
the pattern matches at some position of `s`. -/
def regex_search_gz (s : String) : Bool :=
  s.data.tails.any gz_at

/-- First check, lines 143 to 154: one of the two modes is requested, and the
pairing of the modes with their output files. -/
def check_modes (options : INPUT_OPTIONS_TAGSORT) : Option String :=
  if options.output_sorted_info ≠ true ∧ options.compute_metric ≠ true then
    some "ERROR: The choice of either the  sorted alignment info or metric computation must be specified\n"
  else if ¬ (options.metric_output_file.length ≠ 0 ∧ options.compute_metric = true) ∧
      ¬ (options.sorted_output_file.length ≠ 0 ∧ options.output_sorted_info = true) then
    some "ERROR: --compute-metric and --metric-output should be both specified together\n"
  else none

/-- Second check, lines 157 to 162: the metric type. -/
def check_metric_type (options : INPUT_OPTIONS_TAGSORT) : Option String :=
  if options.metric_type.length = 0 ∨
      (options.metric_type ≠ "cell" ∧ options.metric_type ≠ "gene") then
    some "ERROR: Metric type must either be \"cell\" or \"gene\"\n"
  else none

/-- Third check, lines 165 to 168: the gtf file with metric type cell. -/
def check_gtf_required (options : INPUT_OPTIONS_TAGSORT) : Option String :=
  if options.metric_type = "cell" ∧ options.gtf_file.length = 0 then
    some "ERROR: The gtf file name must be provided with metric_type \"cell\"\n"
  else none

/-- Fourth check, lines 171 to 175: the gtf file should not be gzipped. -/
def check_gtf_not_gzipped (options : INPUT_OPTIONS_TAGSORT) : Option String :=
  if regex_search_gz options.gtf_file = true then
    some "ERROR: The gtf file must not be gzipped\n"
  else none

/-- Fifth check, lines 178 to 190: the bam input is named, then it exists.
`fs_exists` is `fs::exists`. -/
def check_bam_input (fs_exists : String → Bool) (options : INPUT_OPTIONS_TAGSORT) :
    Option String :=
  if options.bam_input.length = 0 then
    some "ERROR: Must specify a input file name\n"
  else if fs_exists options.bam_input = false then
    some ("ERROR " ++ "bam_input" ++ options.bam_input ++ " is missing!\n")
  else none

/-- Sixth check, lines 193 to 198: the temp folder exists. -/
def check_temp_folder (fs_exists : String → Bool) (options : INPUT_OPTIONS_TAGSORT) :
    Option String :=
  if fs_exists options.temp_folder = false then
    some ("ERROR " ++ "temp folder " ++ options.temp_folder ++ " is missing!\n")
  else none

/-- Seventh check, lines 201 to 204: three distinct tags. -/
def check_tags (options : INPUT_OPTIONS_TAGSORT) : Option String :=
  if options.tag_order.length ≠ 3 then
    some "ERROR:  Must have three distinct tags\n"
  else none

/-- Eighth check, lines 207 to 210: the number of alignments per thread. -/
def check_alignments (options : INPUT_OPTIONS_TAGSORT) : Option String :=
  if options.alignments_per_thread < 1000 then
    some "ERROR: The number of alignments per thread must be at least 1000\n"
  else none

/-- Ninth check, lines 213 to 217: the number of threads.  `MAX_THREADS` is a
constant of the missing header.  The stream `ss` is empty when this check is
reached. -/
def check_nthreads (MAX_THREADS : Int) (options : INPUT_OPTIONS_TAGSORT) : Option String :=
  if options.nthreads > MAX_THREADS ∨ options.nthreads < 1 then
    some ("ERROR: The number of threads must be between 1 and " ++ toString MAX_THREADS ++ "\n")
  else none

/-- The checks of `read_options_tagsort` after the loop, run one after the other
as in the source: the message of the first check that fails, `none` when all
pass. -/
def tagsort_check (MAX_THREADS : Int) (fs_exists : String → Bool)
    (options : INPUT_OPTIONS_TAGSORT) : Option String :=
  match check_modes options with
  | some msg => some msg
  | none =>
  match check_metric_type options with
  | some msg => some msg
  | none =>
  match check_gtf_required options with
  | some msg => some msg
  | none =>
  match check_gtf_not_gzipped options with
  | some msg => some msg
  | none =>
  match check_bam_input fs_exists options with
  | some msg => some msg
  | none =>
  match check_temp_folder fs_exists options with
  | some msg => some msg
  | none =>
  match check_tags options with
  | some msg => some msg
  | none =>
  match check_alignments options with
  | some msg => some msg
  | none => check_nthreads MAX_THREADS options

/-- The part of `read_options_tagsort` after the loop: a failed check calls
`error_message` and `exit(1)`, otherwise the function returns. -/
def tagsort_validate (MAX_THREADS : Int) (fs_exists : String → Bool)
    (w : World INPUT_OPTIONS_TAGSORT) : Run INPUT_OPTIONS_TAGSORT :=
  match tagsort_check MAX_THREADS fs_exists w.options with
  | some msg => (w.error_message msg).finish (Status.exited 1)
  | none => w.finish Status.returned

/-- The function `read_options_tagsort(argc, argv, options)`. -/
def read_options_tagsort (MAX_THREADS : Int) (fs_exists : String → Bool) (argv : List String)
    (options : INPUT_OPTIONS_TAGSORT) : Run INPUT_OPTIONS_TAGSORT :=
  match getopt_loop (tagsort_switch (argv.headD ""))
      (getopt_long argv tagsort_optstring tagsort_long_options) 0
      { options := options, stdout := [], stderr := [] } with
  | Sum.inl w => tagsort_validate MAX_THREADS fs_exists w
  | Sum.inr run => run

/-! ## `read_options_fastqprocess` -/

/-- Modelled from the spec: the record `INPUT_OPTIONS_FASTQPROCESS` is declared in
`input_options.h`, which is not part of the source; the fields are those of
`FastqprocessConfig` in section 3 of the specification. -/
structure INPUT_OPTIONS_FASTQPROCESS where
  I1s : List String
  R1s : List String
  R2s : List String
  white_list_file : String
  output_format : String
  barcode_length : Int
  umi_length : Int
  bam_size : double
  sample_id : String
  verbose_flag : Bool
  deriving DecidableEq

/-- Modelled from the spec: the initial values of `INPUT_OPTIONS_FASTQPROCESS`, set
in `input_options.h`; sections 3 and 6 give `bam_size` 1.0.  The lists and
strings start empty and the flag false; the specification gives no initial value
for the two lengths, which start at 0 here, a value the checks treat as unset. -/
def INPUT_OPTIONS_FASTQPROCESS.defaults : INPUT_OPTIONS_FASTQPROCESS :=
  { I1s := [], R1s := [], R2s := [], white_list_file := "", output_format := "",
    barcode_length := 0, umi_length := 0, bam_size := 1, sample_id := "",
    verbose_flag := false }

/-- The table `long_options` of `read_options_fastqprocess`. -/
def fastqprocess_long_options : List LongOption :=
  [ { name := "verbose", has_arg := false, val := 'v' },
    { name := "barcode-length", has_arg := true, val := 'b' },
    { name := "umi-length", has_arg := true, val := 'u' },
    { name := "bam-size", has_arg := true, val := 'B' },
    { name := "sample-id", has_arg := true, val := 's' },
    { name := "I1", has_arg := true, val := 'I' },
    { name := "R1", has_arg := true, val := 'R' },
    { name := "R2", has_arg := true, val := 'r' },
    { name := "white-list", has_arg := true, val := 'w' },
    { name := "output-format", has_arg := true, val := 'F' } ]

/-- The table `help_messages` of `read_options_fastqprocess`. -/
def fastqprocess_help_messages : List String :=
  [ "verbose messages  ",
    "barcode length [required]",
    "UMI length [required]",
    "output BAM file in GB [optional: default 1 GB]",
    "sample id [required]",
    "I1 [optional]",
    "R1 [required]",
    "R2 [required]",
    "whitelist (from cellranger) of barcodes [required]",
    "output-format : either FASTQ or BAM [required]" ]

/-- The `optstring` of `read_options_fastqprocess`. -/
def fastqprocess_optstring : String := "b:u:B:s:I:R:r:w:F:v"

/-- The assignments of the `switch` of `read_options_fastqprocess` for the option
characters that end in `break`; `none` for every other character.  `atof` is the
C library conversion. -/
def fastqprocess_assign (atof : String → double) (options : INPUT_OPTIONS_FASTQPROCESS) (c : Char)
    (optarg : String) : Option INPUT_OPTIONS_FASTQPROCESS :=
  if c = 'v' then some { options with verbose_flag := true }
  else if c = 'b' then some { options with barcode_length := atoi optarg }
  else if c = 'u' then some { options with umi_length := atoi optarg }
  else if c = 'B' then some { options with bam_size := atof optarg }
  else if c = 's' then some { options with sample_id := optarg }
  else if c = 'I' then some { options with I1s := options.I1s ++ [optarg] }
  else if c = 'R' then some { options with R1s := options.R1s ++ [optarg] }
  else if c = 'r' then some { options with R2s := options.R2s ++ [optarg] }
  else if c = 'w' then some { options with white_list_file := optarg }
  else if c = 'F' then some { options with output_format := optarg }
  else none

/-- The `switch (c)` of `read_options_fastqprocess`.  A null `optarg` is read as
the empty string. -/
def fastqprocess_switch (atof : String → double) (prog : String) (option_index : Nat)
    (w : World INPUT_OPTIONS_FASTQPROCESS) (r : GetoptReturn) :
    Case INPUT_OPTIONS_FASTQPROCESS :=
  match fastqprocess_assign atof w.options r.c (r.optarg.getD "") with
  | some options => Case.next { w with options := options }
  | none =>
    if r.c = Char.ofNat 0 then
      Case.next { w with stdout := w.stdout ++
        (case_zero_text fastqprocess_long_options option_index r.optarg).map Output.text }
    else if r.c = '?' ∨ r.c = 'h' then
      Case.leave ((w.print_help prog fastqprocess_long_options fastqprocess_help_messages).finish
        Status.returned)
    else Case.leave (w.finish Status.aborted)

/-- The state of the checks of the two FASTQ readers: the streams, and the local
variable `exit_with_error`. -/
structure Checks (α : Type) where
  world : World α
  exit_with_error : Bool

/-- The body of one failed check: one text on `std::cout`, one on `std::cerr`,
and `exit_with_error = true`. -/
def Checks.report {α : Type} (k : Checks α) (cout cerr : String) : Checks α :=
  { world := (k.world.print cout).eprint cerr, exit_with_error := true }

/-- The call `_print_file_info(files, label)`, recorded on standard output. -/
def World.print_file_info {α : Type} (w : World α) (files : List String) (label : String) :
    World α :=
  { w with stdout := w.stdout ++ [Output.file_info files label] }

/-- The end of both FASTQ readers: `if (exit_with_error) exit(1);`. -/
def Checks.finish {α : Type} (k : Checks α) : Run α :=
  if k.exit_with_error = true then k.world.finish (Status.exited 1)
  else k.world.finish Status.returned

/-- The part of `read_options_fastqprocess` after the loop.  `verbose_flag` is the
local variable of that name. -/
def fastqprocess_validate (verbose_flag : Bool) (w : World INPUT_OPTIONS_FASTQPROCESS) :
    Run INPUT_OPTIONS_FASTQPROCESS :=
  let options := w.options
  let k : Checks INPUT_OPTIONS_FASTQPROCESS := { world := w, exit_with_error := false }
  let k := if options.R1s.length ≠ options.R2s.length then
      k.report
        ("ERROR: Unequal number of R1 and R2 fastq files in input: " ++ "R1 : " ++
          toString options.R1s.length ++ "R2 : " ++ toString options.R2s.length ++ "\n")
        ("ERROR: Unequal number of R1 and R2 fastq files in input: " ++ "R1 : " ++
          toString options.R1s.length ++ "R2 : " ++ toString options.R2s.length ++ "\n")
    else k
  let k := if options.R1s.length = 0 then
      k.report "ERROR: No R1 file provided\n" "ERROR: No R1 file provided\n"
    else k
  let k := if options.I1s.length ≠ options.R1s.length ∧ options.I1s.length ≠ 0 then
      k.report
        ("ERROR: Either the number of I1 input files are equal\n" ++
         "       to the number of R1 input files, or no I1 input files\n" ++
         "       should not be provided at all.\n")
        ("ERROR: Either the number of I1 input files are equal\n" ++
         "       to the number of R1 input files, or no I1 input files\n" ++
         "       should not be provided at all.\n")
    else k
  let k := if options.bam_size ≤ 0 then
      k.report "ERROR: Size of a bam file (in GB) cannot be negative\n"
        "ERROR: Size of a bam file (in GB) cannot be negative\n"
    else k
  let k := if options.sample_id.length = 0 then
      k.report "ERROR: Must provide a sample id or name\n"
        "ERROR: Must provide a sample id or name\n"
    else k
  let k := if options.output_format ≠ "FASTQ" ∧ options.output_format ≠ "BAM" then
      k.report "ERROR: Output-format must be either FASTQ or BAM\n"
        "ERROR: Output-format must be either FASTQ or BAM\n"
    else k
  let k := if options.barcode_length ≤ 0 then
      k.report "ERROR: Barcode length must be a positive integer\n"
        "ERROR: Barcode length must be a positive integer\n"
    else k
  let k := if options.umi_length ≤ 0 then
      k.report "ERROR: UMI length must be a positive integer\n"
        "ERROR: UMI length must be a positive integer\n"
    else k
  let k := if verbose_flag = true then
      let k := if options.I1s.length ≠ 0 then
          { k with world := k.world.print_file_info options.I1s "I1" }
        else k
      let k := if options.R1s.length ≠ 0 then
          { k with world := k.world.print_file_info options.R1s "R1" }
        else k
      if options.R2s.length ≠ 0 then
        { k with world := k.world.print_file_info options.R2s "R2" }
      else k
    else k
  k.finish

/-- The function `read_options_fastqprocess(argc, argv, options)`.  The local
variable `verbose_flag` is initialised to 0 and never assigned: `case 'v'` sets
`options.verbose_flag`. -/
def read_options_fastqprocess (atof : String → double) (argv : List String)
    (options : INPUT_OPTIONS_FASTQPROCESS) : Run INPUT_OPTIONS_FASTQPROCESS :=
  let verbose_flag := false
  match getopt_loop (fastqprocess_switch atof (argv.headD ""))
      (getopt_long argv fastqprocess_optstring fastqprocess_long_options) 0
      { options := options, stdout := [], stderr := [] } with
  | Sum.inl w => fastqprocess_validate verbose_flag w
  | Sum.inr run => run

/-! ## `read_options_fastq_slideseq` -/

/-- Modelled from the spec: the record `INPUT_OPTIONS_FASTQ_READ_STRUCTURE` is
declared in `input_options.h`, which is not part of the source; the fields are
those of `FastqReadStructureConfig` in section 3 of the specification. -/
structure INPUT_OPTIONS_FASTQ_READ_STRUCTURE where
  I1s : List String
  R1s : List String
  R2s : List String
  white_list_file : String
  output_format : String
  read_structure : String
  bam_size : double
  sample_id : String
  verbose_flag : Bool
  deriving DecidableEq

/-- Modelled from the spec: the initial values of
`INPUT_OPTIONS_FASTQ_READ_STRUCTURE`, set in `input_options.h`; sections 3 and 6
give `bam_size` 1.0, the other fields start empty or false. -/
def INPUT_OPTIONS_FASTQ_READ_STRUCTURE.defaults : INPUT_OPTIONS_FASTQ_READ_STRUCTURE :=
  { I1s := [], R1s := [], R2s := [], white_list_file := "", output_format := "",
    read_structure := "", bam_size := 1, sample_id := "", verbose_flag := false }

/-- The table `long_options` of `read_options_fastq_slideseq`. -/
def slideseq_long_options : List LongOption :=
  [ { name := "verbose", has_arg := false, val := 'v' },
    { name := "bam-size", has_arg := true, val := 'B' },
    { name := "read-structure", has_arg := true, val := 'S' },
    { name := "sample-id", has_arg := true, val := 's' },
    { name := "I1", has_arg := true, val := 'I' },
    { name := "R1", has_arg := true, val := 'R' },
    { name := "R2", has_arg := true, val := 'r' },
    { name := "white-list", has_arg := true, val := 'w' },
    { name := "output-format", has_arg := true, val := 'F' } ]

/-- The table `help_messages` of `read_options_fastq_slideseq`. -/
def slideseq_help_messages : List String :=
  [ "verbose messages  ",
    "output BAM file in GB [optional: default 1 GB]",
    "read structure [required]",
    "sample id [required]",
    "I1 [optional]",
    "R1 [required]",
    "R2 [required]",
    "whitelist (from cellranger) of barcodes [required]",
    "output-format : either FASTQ or BAM [required]" ]

/-- The `optstring` of `read_options_fastq_slideseq`. -/
def slideseq_optstring : String := "B:S:s:I:R:r:w:F:v"

/-- The assignments of the `switch` of `read_options_fastq_slideseq` for the
option characters that end in `break`; `none` for every other character. -/
def slideseq_assign (atof : String → double) (options : INPUT_OPTIONS_FASTQ_READ_STRUCTURE)
    (c : Char) (optarg : String) : Option INPUT_OPTIONS_FASTQ_READ_STRUCTURE :=
  if c = 'v' then some { options with verbose_flag := true }
  else if c = 'B' then some { options with bam_size := atof optarg }
  else if c = 'S' then some { options with read_structure := optarg }
  else if c = 's' then some { options with sample_id := optarg }
  else if c = 'I' then some { options with I1s := options.I1s ++ [optarg] }
  else if c = 'R' then some { options with R1s := options.R1s ++ [optarg] }
  else if c = 'r' then some { options with R2s := options.R2s ++ [optarg] }
  else if c = 'w' then some { options with white_list_file := optarg }
  else if c = 'F' then some { options with output_format := optarg }
  else none

/-- The `switch (c)` of `read_options_fastq_slideseq`.  A null `optarg` is read as
the empty string. -/
def slideseq_switch (atof : String → double) (prog : String) (option_index : Nat)
    (w : World INPUT_OPTIONS_FASTQ_READ_STRUCTURE) (r : GetoptReturn) :
    Case INPUT_OPTIONS_FASTQ_READ_STRUCTURE :=
  match slideseq_assign atof w.options r.c (r.optarg.getD "") with
  | some options => Case.next { w with options := options }
  | none =>
    if r.c = Char.ofNat 0 then
      Case.next { w with stdout := w.stdout ++
        (case_zero_text slideseq_long_options option_index r.optarg).map Output.text }
    else if r.c = '?' ∨ r.c = 'h' then
      Case.leave ((w.print_help prog slideseq_long_options slideseq_help_messages).finish
        Status.returned)
    else Case.leave (w.finish Status.aborted)

/-- The part of `read_options_fastq_slideseq` after the loop.  `verbose_flag` is
the local variable of that name. -/
def slideseq_validate (verbose_flag : Bool) (w : World INPUT_OPTIONS_FASTQ_READ_STRUCTURE) :
    Run INPUT_OPTIONS_FASTQ_READ_STRUCTURE :=
  let options := w.options
  let k : Checks INPUT_OPTIONS_FASTQ_READ_STRUCTURE := { world := w, exit_with_error := false }
  let k := if options.R1s.length ≠ options.R2s.length then
      k.report
        ("ERROR: Unequal number of R1 and R2 fastq files in input: " ++ "R1 : " ++
          toString options.R1s.length ++ "R2 : " ++ toString options.R2s.length ++ "\n")
        ("ERROR: Unequal number of R1 and R2 fastq files in input: " ++ "R1 : " ++
          toString options.R1s.length ++ "R2 : " ++ toString options.R2s.length ++ "\n")
    else k
  let k := if options.R1s.length = 0 then
      k.report "ERROR: No R1 file provided\n" "ERROR: No R1 file provided\n"
    else k
  let k := if options.I1s.length ≠ options.R1s.length ∧ options.I1s.length ≠ 0 then
      k.report
        ("ERROR: Either the number of I1 input files are equal\n" ++
         "       to the number of R1 input files, or no I1 input files\n" ++
         "       should not be provided at all.\n")
        ("ERROR: Either the number of I1 input files are equal\n" ++
         "       to the number of R1 input files, or no I1 input files\n" ++
         "       should not be provided at all.\n")
    else k
  let k := if options.bam_size ≤ 0 then
      k.report "ERROR: Size of a bam file (in GB) cannot be negative\n"
        "ERROR: Size of a bam file (in GB) cannot be negative\n"
    else k
  let k := if options.read_structure.length = 0 then
      k.report "ERROR: Must provide read structures\n" "ERROR: Must provide read structures\n"
    else k
  let k := if options.sample_id.length = 0 then
      k.report "ERROR: Must provide a sample id or name\n"
        "ERROR: Must provide a sample id or name\n"
    else k
  let k := if options.output_format ≠ "FASTQ" ∧ options.output_format ≠ "BAM" then
      k.report "ERROR: Output-format must be either FASTQ or BAM\n"
        "ERROR: Output-format must be either FASTQ or BAM\n"
    else k
  let k := if verbose_flag = true then
      let k := if options.R1s.length ≠ 0 then
          { k with world := k.world.print_file_info options.R1s "R1" }
        else k
      if options.R2s.length ≠ 0 then
        { k with world := k.world.print_file_info options.R2s "R2" }
      else k
    else k
  k.finish

/-- The function `read_options_fastq_slideseq(argc, argv, options)`.  The local
variable `verbose_flag` is initialised to 0 and never assigned. -/
def read_options_fastq_slideseq (atof : String → double) (argv : List String)
    (options : INPUT_OPTIONS_FASTQ_READ_STRUCTURE) : Run INPUT_OPTIONS_FASTQ_READ_STRUCTURE :=
  let verbose_flag := false
  match getopt_loop (slideseq_switch atof (argv.headD ""))
      (getopt_long argv slideseq_optstring slideseq_long_options) 0
      { options := options, stdout := [], stderr := [] } with
  | Sum.inl w => slideseq_validate verbose_flag w
  | Sum.inr run => run

/-! ## The claims' vocabulary -/

/-- The assignments of all the returns of a list, one after the other; a return
the `switch` has no assignment for leaves the record as it is. -/
def assign_all {α : Type} (assign : α → Char → String → Option α) (options : α)
    (rs : List GetoptReturn) : α :=
  rs.foldl (fun o r => (assign o r.c (r.optarg.getD "")).getD o) options

/-- The shape the three `switch` statements share: the assignments, then
`case 0`, then `case '?': case 'h':` which prints the help and leaves with
`left`, then `default: abort()`. -/
def help_switch {α : Type} (assign : α → Char → String → Option α)
    (long_options : List LongOption) (help_messages : List String) (left : Status)
    (prog : String) (option_index : Nat) (w : World α) (r : GetoptReturn) : Case α :=
  match assign w.options r.c (r.optarg.getD "") with
  | some options => Case.next { w with options := options }
  | none =>
    if r.c = Char.ofNat 0 then
      Case.next { w with stdout := w.stdout ++
        (case_zero_text long_options option_index r.optarg).map Output.text }
    else if r.c = '?' ∨ r.c = 'h' then
      Case.leave ((w.print_help prog long_options help_messages).finish left)
    else Case.leave (w.finish Status.aborted)

/-- The option letters the `switch` of `read_options_tagsort` assigns for. -/
def tagsort_letters : List Char :=
  ['m', 'n', 'b', 'a', 't', 'o', 'M', 'p', 'T', 'C', 'U', 'G', 'K']

/-- The option letters the `switch` of `read_options_fastqprocess` assigns for. -/
def fastqprocess_letters : List Char :=
  ['v', 'b', 'u', 'B', 's', 'I', 'R', 'r', 'w', 'F']

/-- The option letters the `switch` of `read_options_fastq_slideseq` assigns
for. -/
def slideseq_letters : List Char :=
  ['v', 'B', 'S', 's', 'I', 'R', 'r', 'w', 'F']

/-- The standard error stream after the call of `getopt_long` that returned
`r`. -/
def after_diag {α : Type} (w : World α) (r : GetoptReturn) : World α :=
  match r.diag with
  | some d => w.eprint d
  | none => w

/-- The value of `option_index` after the returns `rs`, starting from `i`. -/
def index_after (i : Nat) (rs : List GetoptReturn) : Nat :=
  rs.foldl (fun i r => r.longindex.getD i) i

/-- The state of a reader when its loop starts. -/
def World.start {α : Type} (options : α) : World α :=
  { options := options, stdout := [], stderr := [] }

/-- Both modes requested, the metric output file given, no sorted output file. -/
def one_pair_argv : List String :=
  ["tagsort", "--bam-input", "in.bam", "--barcode-tag", "CB", "--umi-tag", "UB",
   "--gene-tag", "GX", "--metric-type", "gene", "--compute-metric", "--output-sorted-info",
   "--metric-output", "out.tsv"]

/-- Both modes requested, the sorted output file given, no metric output file. -/
def sorted_pair_argv : List String :=
  ["tagsort", "--bam-input", "in.bam", "--barcode-tag", "CB", "--umi-tag", "UB",
   "--gene-tag", "GX", "--metric-type", "gene", "--compute-metric", "--output-sorted-info",
   "--sorted-output", "s.tsv"]

/-- The barcode tag given twice, the gene tag never. -/
def repeated_tag_argv : List String :=
  ["tagsort", "--bam-input", "in.bam", "--metric-type", "gene", "--compute-metric",
   "--metric-output", "out.tsv", "--barcode-tag", "A", "--barcode-tag", "B", "--umi-tag", "C"]

/-- The gene tag given twice, the second time with the value of the barcode
tag. -/
def reused_tag_argv : List String :=
  ["tagsort", "--bam-input", "in.bam", "--metric-type", "gene", "--compute-metric",
   "--metric-output", "out.tsv", "-C", "A", "-U", "B", "-G", "C", "-G", "A"]

/-- A file system in which every path exists. -/
def all_exist : String → Bool := fun _ => true

/-- The conversion `atof` for argument vectors without `--bam-size`, where it is
never called. -/
def atof_unused : String → double := fun _ => 0

/-- The conversion `atof` on the token `nan`, which `strtod` reads as NaN.  The
examples that use it convert no other token; any other token is given 0. -/
def atof_of_nan : String → double := fun token => if token = "nan" then double.nan else 0

/-- The rule set of the fastqprocess command, section 4.3 of the specification. -/
def fastqprocess_rules (o : INPUT_OPTIONS_FASTQPROCESS) : Prop :=
  o.R1s.length = o.R2s.length ∧ 1 ≤ o.R1s.length ∧
  (o.I1s.length = 0 ∨ o.I1s.length = o.R1s.length) ∧ 0 < o.bam_size ∧ o.sample_id ≠ "" ∧
  (o.output_format = "FASTQ" ∨ o.output_format = "BAM") ∧
  0 < o.barcode_length ∧ 0 < o.umi_length

/-- The rule set of the read-structure command, section 4.4 of the
specification. -/
def slideseq_rules (o : INPUT_OPTIONS_FASTQ_READ_STRUCTURE) : Prop :=
  o.R1s.length = o.R2s.length ∧ 1 ≤ o.R1s.length ∧
  (o.I1s.length = 0 ∨ o.I1s.length = o.R1s.length) ∧ 0 < o.bam_size ∧ o.sample_id ≠ "" ∧
  (o.output_format = "FASTQ" ∨ o.output_format = "BAM") ∧ o.read_structure ≠ ""

/-- What the eight checks of `read_options_fastqprocess` let pass: the rule set
with the bam size read as the source tests it, `not (bam_size <= 0)`. -/
def fastqprocess_passes (o : INPUT_OPTIONS_FASTQPROCESS) : Prop :=
  o.R1s.length = o.R2s.length ∧ 1 ≤ o.R1s.length ∧
  (o.I1s.length = 0 ∨ o.I1s.length = o.R1s.length) ∧ ¬ o.bam_size ≤ 0 ∧ o.sample_id ≠ "" ∧
  (o.output_format = "FASTQ" ∨ o.output_format = "BAM") ∧
  0 < o.barcode_length ∧ 0 < o.umi_length

/-- What the seven checks of `read_options_fastq_slideseq` let pass: the rule set
with the bam size read as the source tests it, `not (bam_size <= 0)`. -/
def slideseq_passes (o : INPUT_OPTIONS_FASTQ_READ_STRUCTURE) : Prop :=
  o.R1s.length = o.R2s.length ∧ 1 ≤ o.R1s.length ∧
  (o.I1s.length = 0 ∨ o.I1s.length = o.R1s.length) ∧ ¬ o.bam_size ≤ 0 ∧ o.sample_id ≠ "" ∧
  (o.output_format = "FASTQ" ∨ o.output_format = "BAM") ∧ o.read_structure ≠ ""

/-- The message of one rule: none when the rule holds, the message when it is
violated. -/
def violation (ok : Prop) [Decidable ok] (msg : String) : List String :=
  if ok then [] else [msg]

/-- The messages of the failed checks of the fastqprocess command, one for each
check that fails, in the order of the checks; the bam size check is the test
`bam_size <= 0` of the source. -/
def fastqprocess_violations (o : INPUT_OPTIONS_FASTQPROCESS) : List String :=
  violation (o.R1s.length = o.R2s.length)
      ("ERROR: Unequal number of R1 and R2 fastq files in input: R1 : " ++
        toString o.R1s.length ++ "R2 : " ++ toString o.R2s.length ++ "\n") ++
    violation (1 ≤ o.R1s.length) "ERROR: No R1 file provided\n" ++
    violation (o.I1s.length = 0 ∨ o.I1s.length = o.R1s.length)
      "ERROR: Either the number of I1 input files are equal\n       to the number of R1 input files, or no I1 input files\n       should not be provided at all.\n" ++
    violation (¬ o.bam_size ≤ 0) "ERROR: Size of a bam file (in GB) cannot be negative\n" ++
    violation (o.sample_id ≠ "") "ERROR: Must provide a sample id or name\n" ++
    violation (o.output_format = "FASTQ" ∨ o.output_format = "BAM")
      "ERROR: Output-format must be either FASTQ or BAM\n" ++
    violation (0 < o.barcode_length) "ERROR: Barcode length must be a positive integer\n" ++
    violation (0 < o.umi_length) "ERROR: UMI length must be a positive integer\n"

/-- The messages of the failed checks of the read-structure command, one for
each check that fails, in the order the reader checks them; the bam size check
is the test `bam_size <= 0` of the source. -/
def slideseq_violations (o : INPUT_OPTIONS_FASTQ_READ_STRUCTURE) : List String :=
  violation (o.R1s.length = o.R2s.length)
      ("ERROR: Unequal number of R1 and R2 fastq files in input: R1 : " ++
        toString o.R1s.length ++ "R2 : " ++ toString o.R2s.length ++ "\n") ++
    violation (1 ≤ o.R1s.length) "ERROR: No R1 file provided\n" ++
    violation (o.I1s.length = 0 ∨ o.I1s.length = o.R1s.length)
      "ERROR: Either the number of I1 input files are equal\n       to the number of R1 input files, or no I1 input files\n       should not be provided at all.\n" ++
    violation (¬ o.bam_size ≤ 0) "ERROR: Size of a bam file (in GB) cannot be negative\n" ++
    violation (o.read_structure ≠ "") "ERROR: Must provide read structures\n" ++
    violation (o.sample_id ≠ "") "ERROR: Must provide a sample id or name\n" ++
    violation (o.output_format = "FASTQ" ∨ o.output_format = "BAM")
      "ERROR: Output-format must be either FASTQ or BAM\n"

/-- The messages section 4.3 of the specification asks for: one for each violated
rule of the fastqprocess command, in rule order, the bam size rule being
`bam_size > 0`. -/
def fastqprocess_rule_messages (o : INPUT_OPTIONS_FASTQPROCESS) : List String :=
  violation (o.R1s.length = o.R2s.length)
      ("ERROR: Unequal number of R1 and R2 fastq files in input: R1 : " ++
        toString o.R1s.length ++ "R2 : " ++ toString o.R2s.length ++ "\n") ++
    violation (1 ≤ o.R1s.length) "ERROR: No R1 file provided\n" ++
    violation (o.I1s.length = 0 ∨ o.I1s.length = o.R1s.length)
      "ERROR: Either the number of I1 input files are equal\n       to the number of R1 input files, or no I1 input files\n       should not be provided at all.\n" ++
    violation (0 < o.bam_size) "ERROR: Size of a bam file (in GB) cannot be negative\n" ++
    violation (o.sample_id ≠ "") "ERROR: Must provide a sample id or name\n" ++
    violation (o.output_format = "FASTQ" ∨ o.output_format = "BAM")
      "ERROR: Output-format must be either FASTQ or BAM\n" ++
    violation (0 < o.barcode_length) "ERROR: Barcode length must be a positive integer\n" ++
    violation (0 < o.umi_length) "ERROR: UMI length must be a positive integer\n"

/-- The end-to-end example of the fastqprocess command. -/
def fastqprocess_example_argv : List String :=
  ["fastqprocess", "--R1", "a.fastq", "--R2", "b.fastq", "--sample-id", "S1",
   "--barcode-length", "16", "--umi-length", "10", "--output-format", "FASTQ",
   "--white-list", "wl.txt"]

/-- The end-to-end example of the fastqprocess command with `--bam-size nan` at
the end. -/
def nan_bam_size_argv : List String :=
  ["fastqprocess", "--R1", "a.fastq", "--R2", "b.fastq", "--sample-id", "S1",
   "--barcode-length", "16", "--umi-length", "10", "--output-format", "FASTQ",
   "--white-list", "wl.txt", "--bam-size", "nan"]

/-- Two R1 files, one R2 file and `--bam-size nan` in an otherwise valid call of
the fastqprocess command. -/
def nan_bam_size_two_R1_argv : List String :=
  ["fastqprocess", "--R1", "a.fastq", "--R1", "b.fastq", "--R2", "c.fastq", "--sample-id",
   "S1", "--barcode-length", "16", "--umi-length", "10", "--output-format", "FASTQ",
   "--white-list", "wl.txt", "--bam-size", "nan"]

/-- The end-to-end example with `--verbose` in front. -/
def fastqprocess_verbose_argv : List String :=
  ["fastqprocess", "--verbose", "--R1", "a.fastq", "--R2", "b.fastq", "--sample-id", "S1",
   "--barcode-length", "16", "--umi-length", "10", "--output-format", "FASTQ",
   "--white-list", "wl.txt"]

/-- The end-to-end example without `--white-list`. -/
def fastqprocess_no_white_list_argv : List String :=
  ["fastqprocess", "--R1", "a.fastq", "--R2", "b.fastq", "--sample-id", "S1",
   "--barcode-length", "16", "--umi-length", "10", "--output-format", "FASTQ"]

/-- A valid call of the read-structure command, with `-v`. -/
def slideseq_verbose_argv : List String :=
  ["fastq_slideseq", "-v", "--R1", "a.fastq", "--R2", "b.fastq", "--sample-id", "S1",
   "--read-structure", "8C18X6C9M1X", "--output-format", "BAM", "--white-list", "wl.txt"]

/-- A valid call of the read-structure command without `--white-list`. -/
def slideseq_no_white_list_argv : List String :=
  ["fastq_slideseq", "--R1", "a.fastq", "--R2", "b.fastq", "--sample-id", "S1",
   "--read-structure", "8C18X6C9M1X", "--output-format", "BAM"]

/-- A valid call of the tagsort command but for the gtf file, whose name ends in
`gz` with no dot before. -/
def gz_without_dot_argv : List String :=
  ["tagsort", "--bam-input", "in.bam", "--barcode-tag", "CB", "--umi-tag", "UB",
   "--gene-tag", "GX", "--metric-type", "cell", "--gtf-file", "genes_gz",
   "--compute-metric", "--metric-output", "out.tsv"]

/-- The arity text the help loop prints for a row: the conditional expression
of the `printf` call. -/
def arity_text (o : LongOption) : String :=
  if o.has_arg = false then "no argument" else "required_argument"

/-- The text occurs somewhere in the line. -/
def contains_text (line text : String) : Prop := text.data <:+: line.data

/-- Search for a text in a line, position by position. -/
def has_text (text : List Char) : List Char → Bool
  | [] => text.isEmpty
  | c :: cs => text.isPrefixOf (c :: cs) || has_text text cs

/-- The help output for a flag table and a help sentence table: the two tables
have the same length, the output is the usage line followed by one line for each
row, in the order of the table, and the line of row `i` is the `printf` line of
that row and of sentence `i`, which contains the long name, the arity text and
the sentence. -/
def help_table_printed (prog : String) (long_options : List LongOption)
    (help_messages : List String) : Prop :=
  help_messages.length = long_options.length ∧
  (help_text prog long_options help_messages).length = long_options.length + 1 ∧
  (help_text prog long_options help_messages)[0]? =
    some ("Usage: " ++ prog ++ " [options] \n") ∧
  ∀ (i : Nat) (o : LongOption), long_options[i]? = some o →
    ∃ msg, help_messages[i]? = some msg ∧
      (help_text prog long_options help_messages)[i + 1]? = some (help_line o msg) ∧
      contains_text (help_line o msg) o.name ∧
      (o.has_arg = false → contains_text (help_line o msg) "no argument") ∧
      (o.has_arg = true → contains_text (help_line o msg) "required_argument") ∧
      contains_text (help_line o msg) msg

/-- The checks of the tagsort command before the eighth one all pass. -/
def checks_before_alignments_pass (fs_exists : String → Bool) (o : INPUT_OPTIONS_TAGSORT) :
    Prop :=
  check_modes o = none ∧ check_metric_type o = none ∧ check_gtf_required o = none ∧
  check_gtf_not_gzipped o = none ∧ check_bam_input fs_exists o = none ∧
  check_temp_folder fs_exists o = none ∧ check_tags o = none

/-- A record of the tagsort command that passes every check when 30 threads are
allowed and every path exists. -/
def valid_tagsort_options : INPUT_OPTIONS_TAGSORT :=
  { INPUT_OPTIONS_TAGSORT.defaults with
    bam_input := "in.bam", metric_type := "gene", compute_metric := true,
    metric_output_file := "out.tsv", barcode_tag := "CB", umi_tag := "UB", gene_tag := "GX",
    tag_order := [("CB", 0), ("UB", 1), ("GX", 2)] }

/-- A record of the fastqprocess command that satisfies its rule set. -/
def valid_fastqprocess_options : INPUT_OPTIONS_FASTQPROCESS :=
  { INPUT_OPTIONS_FASTQPROCESS.defaults with
    R1s := ["a.fastq"], R2s := ["b.fastq"], sample_id := "S1", barcode_length := 16,
    umi_length := 10, output_format := "FASTQ", white_list_file := "wl.txt" }

/-- The record of the read-structure command with the same files, sample and
format, and a read structure. -/
def valid_slideseq_options : INPUT_OPTIONS_FASTQ_READ_STRUCTURE :=
  { INPUT_OPTIONS_FASTQ_READ_STRUCTURE.defaults with
    R1s := ["a.fastq"], R2s := ["b.fastq"], sample_id := "S1",
    read_structure := "8C18X6C9M1X", output_format := "FASTQ", white_list_file := "wl.txt" }

/-- The values given to the flag with letter `c`, in argument order. -/
def flag_values (c : Char) (rs : List GetoptReturn) : List String :=
  (rs.filter (fun r => r.c = c)).map (fun r => r.optarg.getD "")

/-- The values given to the three tag flags, in argument order. -/
def tag_values (rs : List GetoptReturn) : List String :=
  (rs.filter (fun r => r.c = 'C' ∨ r.c = 'U' ∨ r.c = 'G')).map (fun r => r.optarg.getD "")

/-- The value of the last occurrence of the flag with letter `c`, converted by
`value`, or `d` when the flag never occurs. -/
def last_or {β : Type} (c : Char) (value : String → β) (d : β) (rs : List GetoptReturn) : β :=
  ((flag_values c rs).getLast?.map value).getD d

/-- A file system in which exactly the listed paths exist. -/
def exist_in (paths : List String) : String → Bool := fun p => paths.contains p

/-- The barcode tag and the umi tag given the same value. -/
def coinciding_tag_argv : List String :=
  ["tagsort", "--bam-input", "in.bam", "--metric-type", "gene", "--compute-metric",
   "--metric-output", "out.tsv", "--barcode-tag", "X", "--umi-tag", "X", "--gene-tag", "Y"]

/-- The end-to-end example of the tagsort command. -/
def tagsort_example_argv : List String :=
  ["tagsort", "--bam-input", "in.bam", "--temp-folder", "/scratch", "--barcode-tag", "CB",
   "--umi-tag", "UB", "--gene-tag", "GX", "--metric-type", "gene", "--compute-metric",
   "--metric-output", "out.tsv"]

/-- The record the end-to-end example of the tagsort command builds from the
initial record. -/
def tagsort_example_options : INPUT_OPTIONS_TAGSORT :=
  { INPUT_OPTIONS_TAGSORT.defaults with
    bam_input := "in.bam", temp_folder := "/scratch", barcode_tag := "CB", umi_tag := "UB",
    gene_tag := "GX", metric_type := "gene", compute_metric := true,
    metric_output_file := "out.tsv", tag_order := [("CB", 0), ("UB", 1), ("GX", 2)] }

/-- A call of the fastqprocess command with `--R1`, `--sample-id` and
`--barcode-length` given twice. -/
def repeated_flags_argv : List String :=
  ["fastqprocess", "--R1", "a.fastq", "--sample-id", "S1", "--barcode-length", "12",
   "--R1", "b.fastq", "--R2", "c.fastq", "--sample-id", "S2", "--barcode-length", "16"]

/-- Last occurrence wins, lists append: the record the flags `rs` prescribe from
the initial record `o`: every scalar field holds the value of the last occurrence of its
flag, or its initial value, and `tag_order` is built from the values of the three
tag flags in argument order. -/
def tagsort_last_wins (o : INPUT_OPTIONS_TAGSORT) (rs : List GetoptReturn) :
    INPUT_OPTIONS_TAGSORT :=
  { bam_input := last_or 'b' id o.bam_input rs,
    gtf_file := last_or 'a' id o.gtf_file rs,
    temp_folder := last_or 't' id o.temp_folder rs,
    sorted_output_file := last_or 'o' id o.sorted_output_file rs,
    metric_output_file := last_or 'M' id o.metric_output_file rs,
    alignments_per_thread := last_or 'p' atoi o.alignments_per_thread rs,
    nthreads := last_or 'T' atoi o.nthreads rs,
    barcode_tag := last_or 'C' id o.barcode_tag rs,
    umi_tag := last_or 'U' id o.umi_tag rs,
    gene_tag := last_or 'G' id o.gene_tag rs,
    metric_type := last_or 'K' id o.metric_type rs,
    compute_metric := last_or 'm' (fun _ => true) o.compute_metric rs,
    output_sorted_info := last_or 'n' (fun _ => true) o.output_sorted_info rs,
    tag_order := (tag_values rs).foldl record_tag o.tag_order }

/-- Last occurrence wins, lists append: the record the flags `rs` prescribe from
the initial record `o`: every list field holds its initial content followed by the
values of its flag in argument order, and every scalar field the value of the last
occurrence of its flag, or its initial value. -/
def fastqprocess_last_wins (atof : String → double) (o : INPUT_OPTIONS_FASTQPROCESS)
    (rs : List GetoptReturn) :
    INPUT_OPTIONS_FASTQPROCESS :=
  { I1s := o.I1s ++ flag_values 'I' rs,
    R1s := o.R1s ++ flag_values 'R' rs,
    R2s := o.R2s ++ flag_values 'r' rs,
    white_list_file := last_or 'w' id o.white_list_file rs,
    output_format := last_or 'F' id o.output_format rs,
    barcode_length := last_or 'b' atoi o.barcode_length rs,
    umi_length := last_or 'u' atoi o.umi_length rs,
    bam_size := last_or 'B' atof o.bam_size rs,
    sample_id := last_or 's' id o.sample_id rs,
    verbose_flag := last_or 'v' (fun _ => true) o.verbose_flag rs }

/-- Last occurrence wins, lists append: the record the flags `rs` prescribe from
the initial record `o`: every list field holds its initial content followed by the
values of its flag in argument order, and every scalar field the value of the last
occurrence of its flag, or its initial value. -/
def slideseq_last_wins (atof : String → double) (o : INPUT_OPTIONS_FASTQ_READ_STRUCTURE)
    (rs : List GetoptReturn) :
    INPUT_OPTIONS_FASTQ_READ_STRUCTURE :=
  { I1s := o.I1s ++ flag_values 'I' rs,
    R1s := o.R1s ++ flag_values 'R' rs,
    R2s := o.R2s ++ flag_values 'r' rs,
    white_list_file := last_or 'w' id o.white_list_file rs,
    output_format := last_or 'F' id o.output_format rs,
    read_structure := last_or 'S' id o.read_structure rs,
    bam_size := last_or 'B' atof o.bam_size rs,
    sample_id := last_or 's' id o.sample_id rs,
    verbose_flag := last_or 'v' (fun _ => true) o.verbose_flag rs }

/-- The text starts with a decimal digit. -/
def starts_with_digit : List Char → Bool
  | [] => false
  | c :: _ => c.isDigit

/-- A token with no leading decimal number: after the leading white space and an
optional sign, the token ends or goes on with a character that is not a digit. -/
def no_leading_number (token : String) : Prop :=
  match token.data.dropWhile isspace with
  | [] => True
  | c :: cs => if c = '-' ∨ c = '+' then starts_with_digit cs = false else c.isDigit = false

instance no_leading_number_decidable (token : String) :
    Decidable (no_leading_number token) := by
  unfold no_leading_number
  split <;> infer_instance

/-- A valid call of the tagsort command with `-G C` given twice. -/
def same_tag_twice_argv : List String :=
  ["tagsort", "--bam-input", "in.bam", "--metric-type", "gene", "--compute-metric",
   "--metric-output", "out.tsv", "-C", "A", "-U", "B", "-G", "C", "-G", "C"]

/-- A valid call of the tagsort command with `-C A` given twice at the start. -/
def first_tag_twice_argv : List String :=
  ["tagsort", "--bam-input", "in.bam", "--metric-type", "gene", "--compute-metric",
   "--metric-output", "out.tsv", "-C", "A", "-C", "A", "-U", "B", "-G", "C"]

/-- A return built from the tables: an error return with its diagnostic, or a
silent return whose character is an option letter of `optstring` or the `val` of
a row of `long_options`. -/
def from_tables (optstring : List Char) (long_options : List LongOption)
    (r : GetoptReturn) : Prop :=
  (r.c = '?' ∧ r.diag.isSome = true) ∨
    (r.diag = none ∧
      ((short_option optstring r.c).isSome = true ∨ ∃ p ∈ long_options, p.val = r.c))

theorem string_length_eq_zero (s : String) : s.length = 0 ↔ s = "" := by
  constructor
  · intro h
    apply String.ext
    exact List.length_eq_zero.mp h
  · rintro rfl; rfl

theorem error_from_tables (optstring : List Char) (long_options : List LongOption)
    (d : String) : from_tables optstring long_options (GetoptReturn.error d) :=
  Or.inl ⟨rfl, rfl⟩

theorem scan_short_from_tables (prog : String) (optstring : List Char)
    (long_options : List LongOption) (cs : List Char) :
    (∀ r ∈ (scan_short prog optstring cs).rets, from_tables optstring long_options r) ∧
    (∀ c i d, (scan_short prog optstring cs).pending = some (c, i, d) →
      (short_option optstring c).isSome = true) := by
  induction cs with
  | nil => simp [scan_short]
  | cons c cs ih =>
    unfold scan_short
    cases h : short_option optstring c with
    | none =>
      simp only [List.mem_cons, forall_eq_or_imp]
      exact ⟨⟨error_from_tables _ _ _, ih.1⟩, ih.2⟩
    | some b =>
      cases b with
      | false =>
        simp only [List.mem_cons, forall_eq_or_imp]
        refine ⟨⟨Or.inr ⟨rfl, Or.inl ?_⟩, ih.1⟩, ih.2⟩
        simp [h]
      | true =>
        by_cases hcs : cs = []
        · simp [hcs, h]
        · simp only [hcs, if_false, List.mem_singleton, forall_eq]
          refine ⟨Or.inr ⟨rfl, Or.inl ?_⟩, ?_⟩
          · simp [h]
          · intro c i d hp; simp at hp

theorem long_candidates_mem (long_options : List LongOption) (name : List Char)
    (q : Nat × LongOption) (h : q ∈ long_candidates long_options name) :
    q.2 ∈ long_options := by
  unfold long_candidates at h
  split at h
  · rename_i p hp
    simp only [List.mem_singleton] at h
    subst h
    exact List.snd_mem_of_mem_enum (List.mem_of_find?_eq_some hp)
  · exact List.snd_mem_of_mem_enum (List.mem_filter.mp h).1

theorem scan_long_from_tables (prog : String) (optstring : List Char)
    (long_options : List LongOption) (body : List Char) :
    (∀ r ∈ (scan_long prog long_options body).rets, from_tables optstring long_options r) ∧
    (∀ c i d, (scan_long prog long_options body).pending = some (c, i, d) →
      ∃ p ∈ long_options, p.val = c) := by
  unfold scan_long
  simp only
  cases hc : long_candidates long_options (List.takeWhile (fun ch => decide (ch ≠ '=')) body) with
  | nil => simp [error_from_tables]
  | cons q others =>
    obtain ⟨i, p⟩ := q
    have hp : p ∈ long_options :=
      long_candidates_mem long_options _ (i, p) (by rw [hc]; exact List.mem_cons_self _ _)
    simp only
    split
    · split
      · split
        · simp only [List.not_mem_nil, false_implies, implies_true, true_and]
          intro c j d hpend
          simp only [Option.some.injEq, Prod.mk.injEq] at hpend
          exact ⟨p, hp, hpend.1⟩
        · simp only [List.mem_singleton, forall_eq]
          refine ⟨Or.inr ⟨rfl, Or.inr ⟨p, hp, rfl⟩⟩, ?_⟩
          intro c j d hpend; simp at hpend
      · split
        · simp only [List.mem_singleton, forall_eq]
          refine ⟨Or.inr ⟨rfl, Or.inr ⟨p, hp, rfl⟩⟩, ?_⟩
          intro c j d hpend; simp at hpend
        · simp [error_from_tables]
    · simp [error_from_tables]

theorem getopt_scan_from_tables (prog : String) (optstring : List Char)
    (long_options : List LongOption) (args : List String) :
    ∀ pending : Option (Char × Option Nat × String),
      (∀ c i d, pending = some (c, i, d) →
        (short_option optstring c).isSome = true ∨ ∃ p ∈ long_options, p.val = c) →
      ∀ r ∈ getopt_scan prog optstring long_options pending args,
        from_tables optstring long_options r := by
  induction args with
  | nil =>
    intro pending _ r hr
    cases pending with
    | none => simp [getopt_scan] at hr
    | some t =>
      obtain ⟨c, i, d⟩ := t
      simp only [getopt_scan, List.mem_singleton] at hr
      subst hr
      exact error_from_tables _ _ _
  | cons a rest ih =>
    intro pending hpend r hr
    cases pending with
    | some t =>
      obtain ⟨c, i, d⟩ := t
      simp only [getopt_scan, List.mem_cons] at hr
      rcases hr with rfl | hr
      · exact Or.inr ⟨rfl, hpend c i d rfl⟩
      · exact ih none (fun _ _ _ h => by simp at h) r hr
    | none =>
      have hnone : ∀ r ∈ getopt_scan prog optstring long_options none rest,
          from_tables optstring long_options r :=
        ih none (fun _ _ _ h => by simp at h)
      unfold getopt_scan at hr
      split at hr
      · split at hr
        · split at hr
          · split at hr
            · simp at hr
            · simp only [List.mem_append] at hr
              have hl := scan_long_from_tables prog optstring long_options
              rcases hr with hr | hr
              · exact (hl _).1 r hr
              · exact ih _ (fun c i d h => Or.inr ((hl _).2 c i d h)) r hr
          · simp only [List.mem_append] at hr
            have hs := scan_short_from_tables prog optstring long_options
            rcases hr with hr | hr
            · exact (hs _).1 r hr
            · exact ih _ (fun c i d h => Or.inl ((hs _).2 c i d h)) r hr
        · exact hnone r hr
      · exact hnone r hr

theorem getopt_long_from_tables (argv : List String) (optstring : String)
    (long_options : List LongOption) :
    ∀ r ∈ getopt_long argv optstring long_options,
      from_tables optstring.data long_options r :=
  getopt_scan_from_tables _ _ _ _ none (fun _ _ _ h => by simp at h)

theorem strchr_colon_mem (l : List Char) (c : Char)
    (h : (strchr_colon l c).isSome = true) : c ∈ l := by
  induction l with
  | nil => simp [strchr_colon] at h
  | cons x rest ih =>
    unfold strchr_colon at h
    by_cases hx : x = c
    · simp [hx]
    · simp only [hx, if_false] at h
      exact List.mem_cons_of_mem _ (ih h)

theorem short_option_mem (l : List Char) (c : Char)
    (h : (short_option l c).isSome = true) : c ∈ l ∧ c ≠ ':' ∧ c ≠ ';' := by
  unfold short_option at h
  by_cases hc : c = ':' ∨ c = ';'
  · simp [hc] at h
  · simp only [hc, if_false] at h
    exact ⟨strchr_colon_mem l c h, fun e => hc (Or.inl e), fun e => hc (Or.inr e)⟩

/-- A return of `getopt_long` that is not an error is silent and carries a
letter of the given list, when all letters of the tables are in the list. -/
theorem from_tables_letter (optstring : List Char) (long_options : List LongOption)
    (letters : List Char)
    (hshort : ∀ c ∈ optstring, c ≠ ':' → c ≠ ';' → c ∈ letters)
    (hlong : ∀ p ∈ long_options, p.val ∈ letters)
    (r : GetoptReturn) (h : from_tables optstring long_options r) (hr : r.c ≠ '?') :
    r.diag = none ∧ r.c ∈ letters := by
  rcases h with ⟨h, _⟩ | ⟨hd, h | ⟨p, hp, hv⟩⟩
  · exact absurd h hr
  · obtain ⟨h1, h2, h3⟩ := short_option_mem _ _ h
    exact ⟨hd, hshort _ h1 h2 h3⟩
  · exact ⟨hd, hv ▸ hlong p hp⟩

theorem tagsort_assign_isSome (o : INPUT_OPTIONS_TAGSORT) (c : Char) (a : String)
    (h : c ∈ tagsort_letters) : (tagsort_assign o c a).isSome = true := by
  simp only [tagsort_letters, List.mem_cons, List.mem_singleton, List.not_mem_nil,
    or_false] at h
  rcases h with rfl | rfl | rfl | rfl | rfl | rfl | rfl | rfl | rfl | rfl | rfl | rfl | rfl <;>
    rfl

theorem fastqprocess_assign_isSome (atof : String → double) (o : INPUT_OPTIONS_FASTQPROCESS)
    (c : Char) (a : String) (h : c ∈ fastqprocess_letters) :
    (fastqprocess_assign atof o c a).isSome = true := by
  simp only [fastqprocess_letters, List.mem_cons, List.mem_singleton, List.not_mem_nil,
    or_false] at h
  rcases h with rfl | rfl | rfl | rfl | rfl | rfl | rfl | rfl | rfl | rfl <;> rfl

theorem slideseq_assign_isSome (atof : String → double) (o : INPUT_OPTIONS_FASTQ_READ_STRUCTURE)
    (c : Char) (a : String) (h : c ∈ slideseq_letters) :
    (slideseq_assign atof o c a).isSome = true := by
  simp only [slideseq_letters, List.mem_cons, List.mem_singleton, List.not_mem_nil,
    or_false] at h
  rcases h with rfl | rfl | rfl | rfl | rfl | rfl | rfl | rfl | rfl <;> rfl

theorem tagsort_returns (argv : List String) :
    ∀ r ∈ getopt_long argv tagsort_optstring tagsort_long_options, r.c ≠ '?' →
      r.diag = none ∧ r.c ∈ tagsort_letters := fun r hr =>
  from_tables_letter _ _ _ (by decide) (by decide) r (getopt_long_from_tables _ _ _ r hr)

theorem fastqprocess_returns (argv : List String) :
    ∀ r ∈ getopt_long argv fastqprocess_optstring fastqprocess_long_options, r.c ≠ '?' →
      r.diag = none ∧ r.c ∈ fastqprocess_letters := fun r hr =>
  from_tables_letter _ _ _ (by decide) (by decide) r (getopt_long_from_tables _ _ _ r hr)

theorem slideseq_returns (argv : List String) :
    ∀ r ∈ getopt_long argv slideseq_optstring slideseq_long_options, r.c ≠ '?' →
      r.diag = none ∧ r.c ∈ slideseq_letters := fun r hr =>
  from_tables_letter _ _ _ (by decide) (by decide) r (getopt_long_from_tables _ _ _ r hr)

/-! ## Facts about the loop -/

theorem tagsort_switch_eq (prog : String) :
    tagsort_switch prog =
      help_switch tagsort_assign tagsort_long_options tagsort_help_messages (Status.exited 0)
        prog := by
  funext i w r
  unfold tagsort_switch help_switch
  cases tagsort_assign w.options r.c (r.optarg.getD "") <;> rfl

theorem fastqprocess_switch_eq (atof : String → double) (prog : String) :
    fastqprocess_switch atof prog =
      help_switch (fastqprocess_assign atof) fastqprocess_long_options
        fastqprocess_help_messages Status.returned prog := by
  funext i w r
  unfold fastqprocess_switch help_switch
  cases fastqprocess_assign atof w.options r.c (r.optarg.getD "") <;> rfl

theorem slideseq_switch_eq (atof : String → double) (prog : String) :
    slideseq_switch atof prog =
      help_switch (slideseq_assign atof) slideseq_long_options slideseq_help_messages
        Status.returned prog := by
  funext i w r
  unfold slideseq_switch help_switch
  cases slideseq_assign atof w.options r.c (r.optarg.getD "") <;> rfl

/-- The loop runs through a stretch of silent returns the `switch` assigns for,
doing the assignments and writing nothing. -/
theorem getopt_loop_assigned {α : Type} (assign : α → Char → String → Option α)
    (long_options : List LongOption) (help_messages : List String) (left : Status)
    (prog : String) (pre rest : List GetoptReturn) :
    ∀ (i : Nat) (w : World α),
      (∀ r ∈ pre, r.diag = none ∧ ∀ o a, (assign o r.c a).isSome = true) →
      getopt_loop (help_switch assign long_options help_messages left prog) (pre ++ rest) i w =
        getopt_loop (help_switch assign long_options help_messages left prog) rest
          (index_after i pre) { w with options := assign_all assign w.options pre } := by
  induction pre with
  | nil => intro i w _; rfl
  | cons r pre ih =>
    intro i w h
    obtain ⟨hd, hs⟩ := h r (List.mem_cons_self _ _)
    obtain ⟨o, ho⟩ := Option.isSome_iff_exists.mp (hs w.options (r.optarg.getD ""))
    have hrest := ih (r.longindex.getD i) { w with options := o }
      (fun q hq => h q (List.mem_cons_of_mem _ hq))
    simp only [List.cons_append, getopt_loop, hd, help_switch, ho]
    refine Eq.trans hrest ?_
    simp [assign_all, index_after, ho]

/-- Without a usage error the loop ends normally: the record holds all the
assignments and nothing was written. -/
theorem getopt_loop_all {α : Type} (assign : α → Char → String → Option α)
    (long_options : List LongOption) (help_messages : List String) (left : Status)
    (prog : String) (rs : List GetoptReturn) (i : Nat) (w : World α)
    (h : ∀ r ∈ rs, r.diag = none ∧ ∀ o a, (assign o r.c a).isSome = true) :
    getopt_loop (help_switch assign long_options help_messages left prog) rs i w =
      Sum.inl { w with options := assign_all assign w.options rs } := by
  have := getopt_loop_assigned assign long_options help_messages left prog rs [] i w h
  simpa [getopt_loop] using this

/-- At the first usage error the loop leaves the function through the help case:
the record holds the assignments made before, and the help text is printed. -/
theorem getopt_loop_error {α : Type} (assign : α → Char → String → Option α)
    (long_options : List LongOption) (help_messages : List String) (left : Status)
    (prog : String) (pre post : List GetoptReturn) (e : GetoptReturn) (i : Nat) (w : World α)
    (h : ∀ r ∈ pre, r.diag = none ∧ ∀ o a, (assign o r.c a).isSome = true)
    (he : e.c = '?') (hq : ∀ o a, assign o '?' a = none) :
    getopt_loop (help_switch assign long_options help_messages left prog) (pre ++ e :: post) i w =
      Sum.inr (((after_diag { w with options := assign_all assign w.options pre } e).print_help
        prog long_options help_messages).finish left) := by
  rw [getopt_loop_assigned assign long_options help_messages left prog pre (e :: post) i w h]
  have hne : ¬ ('?' = Char.ofNat 0) := by decide
  cases hd : e.diag with
  | none => simp [getopt_loop, help_switch, after_diag, hd, hq, he, hne, World.eprint]
  | some d => simp [getopt_loop, help_switch, after_diag, hd, hq, he, hne, World.eprint]

/-! ## The readers, with and without a usage error -/

theorem tagsort_question (o : INPUT_OPTIONS_TAGSORT) (a : String) :
    tagsort_assign o '?' a = none := rfl

theorem fastqprocess_question (atof : String → double) (o : INPUT_OPTIONS_FASTQPROCESS)
    (a : String) : fastqprocess_assign atof o '?' a = none := rfl

theorem slideseq_question (atof : String → double) (o : INPUT_OPTIONS_FASTQ_READ_STRUCTURE)
    (a : String) : slideseq_assign atof o '?' a = none := rfl

theorem read_options_tagsort_parsed (MAX_THREADS : Int) (fs_exists : String → Bool)
    (argv : List String) (options : INPUT_OPTIONS_TAGSORT)
    (h : ∀ r ∈ getopt_long argv tagsort_optstring tagsort_long_options, r.c ≠ '?') :
    read_options_tagsort MAX_THREADS fs_exists argv options =
      tagsort_validate MAX_THREADS fs_exists (World.start (assign_all tagsort_assign options
        (getopt_long argv tagsort_optstring tagsort_long_options))) := by
  unfold read_options_tagsort
  rw [tagsort_switch_eq, getopt_loop_all]
  · rfl
  · intro r hr
    obtain ⟨hd, hl⟩ := tagsort_returns argv r hr (h r hr)
    exact ⟨hd, fun o a => tagsort_assign_isSome o r.c a hl⟩

theorem read_options_tagsort_usage (MAX_THREADS : Int) (fs_exists : String → Bool)
    (argv : List String) (options : INPUT_OPTIONS_TAGSORT)
    (pre post : List GetoptReturn) (e : GetoptReturn)
    (hsplit : getopt_long argv tagsort_optstring tagsort_long_options = pre ++ e :: post)
    (hpre : ∀ r ∈ pre, r.c ≠ '?') (he : e.c = '?') :
    read_options_tagsort MAX_THREADS fs_exists argv options =
      ((after_diag (World.start (assign_all tagsort_assign options pre)) e).print_help
        (argv.headD "") tagsort_long_options tagsort_help_messages).finish (Status.exited 0) := by
  unfold read_options_tagsort
  rw [tagsort_switch_eq, hsplit, getopt_loop_error _ _ _ _ _ _ _ _ _ _ _ he tagsort_question]
  · rfl
  · intro r hr
    have hmem : r ∈ getopt_long argv tagsort_optstring tagsort_long_options := by
      rw [hsplit]; exact List.mem_append_left _ hr
    obtain ⟨hd, hl⟩ := tagsort_returns argv r hmem (hpre r hr)
    exact ⟨hd, fun o a => tagsort_assign_isSome o r.c a hl⟩

theorem read_options_fastqprocess_parsed (atof : String → double) (argv : List String)
    (options : INPUT_OPTIONS_FASTQPROCESS)
    (h : ∀ r ∈ getopt_long argv fastqprocess_optstring fastqprocess_long_options, r.c ≠ '?') :
    read_options_fastqprocess atof argv options =
      fastqprocess_validate false (World.start (assign_all (fastqprocess_assign atof) options
        (getopt_long argv fastqprocess_optstring fastqprocess_long_options))) := by
  unfold read_options_fastqprocess
  simp only
  rw [fastqprocess_switch_eq, getopt_loop_all]
  · rfl
  · intro r hr
    obtain ⟨hd, hl⟩ := fastqprocess_returns argv r hr (h r hr)
    exact ⟨hd, fun o a => fastqprocess_assign_isSome atof o r.c a hl⟩

theorem read_options_fastqprocess_usage (atof : String → double) (argv : List String)
    (options : INPUT_OPTIONS_FASTQPROCESS) (pre post : List GetoptReturn) (e : GetoptReturn)
    (hsplit : getopt_long argv fastqprocess_optstring fastqprocess_long_options =
      pre ++ e :: post)
    (hpre : ∀ r ∈ pre, r.c ≠ '?') (he : e.c = '?') :
    read_options_fastqprocess atof argv options =
      ((after_diag (World.start (assign_all (fastqprocess_assign atof) options pre)) e).print_help
        (argv.headD "") fastqprocess_long_options fastqprocess_help_messages).finish
        Status.returned := by
  unfold read_options_fastqprocess
  simp only
  rw [fastqprocess_switch_eq, hsplit,
    getopt_loop_error _ _ _ _ _ _ _ _ _ _ _ he (fastqprocess_question atof)]
  · rfl
  · intro r hr
    have hmem : r ∈ getopt_long argv fastqprocess_optstring fastqprocess_long_options := by
      rw [hsplit]; exact List.mem_append_left _ hr
    obtain ⟨hd, hl⟩ := fastqprocess_returns argv r hmem (hpre r hr)
    exact ⟨hd, fun o a => fastqprocess_assign_isSome atof o r.c a hl⟩

theorem read_options_fastq_slideseq_parsed (atof : String → double) (argv : List String)
    (options : INPUT_OPTIONS_FASTQ_READ_STRUCTURE)
    (h : ∀ r ∈ getopt_long argv slideseq_optstring slideseq_long_options, r.c ≠ '?') :
    read_options_fastq_slideseq atof argv options =
      slideseq_validate false (World.start (assign_all (slideseq_assign atof) options
        (getopt_long argv slideseq_optstring slideseq_long_options))) := by
  unfold read_options_fastq_slideseq
  simp only
  rw [slideseq_switch_eq, getopt_loop_all]
  · rfl
  · intro r hr
    obtain ⟨hd, hl⟩ := slideseq_returns argv r hr (h r hr)
    exact ⟨hd, fun o a => slideseq_assign_isSome atof o r.c a hl⟩

theorem read_options_fastq_slideseq_usage (atof : String → double) (argv : List String)
    (options : INPUT_OPTIONS_FASTQ_READ_STRUCTURE) (pre post : List GetoptReturn)
    (e : GetoptReturn)
    (hsplit : getopt_long argv slideseq_optstring slideseq_long_options = pre ++ e :: post)
    (hpre : ∀ r ∈ pre, r.c ≠ '?') (he : e.c = '?') :
    read_options_fastq_slideseq atof argv options =
      ((after_diag (World.start (assign_all (slideseq_assign atof) options pre)) e).print_help
        (argv.headD "") slideseq_long_options slideseq_help_messages).finish
        Status.returned := by
  unfold read_options_fastq_slideseq
  simp only
  rw [slideseq_switch_eq, hsplit,
    getopt_loop_error _ _ _ _ _ _ _ _ _ _ _ he (slideseq_question atof)]
  · rfl
  · intro r hr
    have hmem : r ∈ getopt_long argv slideseq_optstring slideseq_long_options := by
      rw [hsplit]; exact List.mem_append_left _ hr
    obtain ⟨hd, hl⟩ := slideseq_returns argv r hmem (hpre r hr)
    exact ⟨hd, fun o a => slideseq_assign_isSome atof o r.c a hl⟩

/-! ## The first check of the tagsort command -/

/-- C1 (failing input): with both modes requested and only one of the two output
files given, the first check passes and the call returns without a message,
instead of leaving with status 1 after the pairing message.  This holds for
`--metric-output out.tsv` without `--sorted-output`, and for
`--sorted-output s.tsv` without `--metric-output`. -/
theorem c1_one_pair_is_accepted :
    ((read_options_tagsort 30 all_exist one_pair_argv INPUT_OPTIONS_TAGSORT.defaults).status =
        Status.returned ∧
      (read_options_tagsort 30 all_exist one_pair_argv
        INPUT_OPTIONS_TAGSORT.defaults).options.output_sorted_info = true ∧
      (read_options_tagsort 30 all_exist one_pair_argv
        INPUT_OPTIONS_TAGSORT.defaults).options.sorted_output_file = "" ∧
      check_modes (read_options_tagsort 30 all_exist one_pair_argv
        INPUT_OPTIONS_TAGSORT.defaults).options = none ∧
      (read_options_tagsort 30 all_exist one_pair_argv
        INPUT_OPTIONS_TAGSORT.defaults).stdout = []) ∧
    ((read_options_tagsort 30 all_exist sorted_pair_argv
        INPUT_OPTIONS_TAGSORT.defaults).status = Status.returned ∧
      (read_options_tagsort 30 all_exist sorted_pair_argv
        INPUT_OPTIONS_TAGSORT.defaults).options.compute_metric = true ∧
      (read_options_tagsort 30 all_exist sorted_pair_argv
        INPUT_OPTIONS_TAGSORT.defaults).options.metric_output_file = "" ∧
      check_modes (read_options_tagsort 30 all_exist sorted_pair_argv
        INPUT_OPTIONS_TAGSORT.defaults).options = none ∧
      (read_options_tagsort 30 all_exist sorted_pair_argv
        INPUT_OPTIONS_TAGSORT.defaults).stdout = []) := by
  decide

/-! ## The three tags -/

/-- C2 (failing input): `--barcode-tag A --barcode-tag B --umi-tag C` without
`--gene-tag` is accepted with `gene_tag` never supplied, and
`-C A -U B -G C -G A` is accepted with `gene_tag` equal to `barcode_tag`. -/
theorem c2_repeated_tag_is_accepted :
    ((read_options_tagsort 30 all_exist repeated_tag_argv
        INPUT_OPTIONS_TAGSORT.defaults).status = Status.returned ∧
      (read_options_tagsort 30 all_exist repeated_tag_argv
        INPUT_OPTIONS_TAGSORT.defaults).options.gene_tag = "" ∧
      (read_options_tagsort 30 all_exist repeated_tag_argv
        INPUT_OPTIONS_TAGSORT.defaults).options.tag_order = [("A", 0), ("B", 1), ("C", 2)]) ∧
    ((read_options_tagsort 30 all_exist reused_tag_argv
        INPUT_OPTIONS_TAGSORT.defaults).status = Status.returned ∧
      (read_options_tagsort 30 all_exist reused_tag_argv
        INPUT_OPTIONS_TAGSORT.defaults).options.gene_tag =
      (read_options_tagsort 30 all_exist reused_tag_argv
        INPUT_OPTIONS_TAGSORT.defaults).options.barcode_tag) := by
  decide

/-! ## The checks of the two FASTQ readers -/

theorem report_if_flag {α : Type} (c : Prop) [Decidable c] (k : Checks α) (a b : String) :
    (if c then k.report a b else k).exit_with_error = (k.exit_with_error || decide c) := by
  by_cases h : c <;> simp [h, Checks.report]

theorem report_if_stdout {α : Type} (c : Prop) [Decidable c] (k : Checks α) (a b : String) :
    (if c then k.report a b else k).world.stdout =
      k.world.stdout ++ (violation (¬ c) a).map Output.text := by
  by_cases h : c <;> simp [h, Checks.report, violation, World.print, World.eprint]

theorem report_if_stderr {α : Type} (c : Prop) [Decidable c] (k : Checks α) (a b : String) :
    (if c then k.report a b else k).world.stderr =
      k.world.stderr ++ (violation (¬ c) b).map Output.text := by
  by_cases h : c <;> simp [h, Checks.report, violation, World.print, World.eprint]

theorem report_if_options {α : Type} (c : Prop) [Decidable c] (k : Checks α) (a b : String) :
    (if c then k.report a b else k).world.options = k.world.options := by
  by_cases h : c <;> simp [h, Checks.report, World.print, World.eprint]

theorem finish_status {α : Type} (k : Checks α) :
    (k.finish.status = Status.exited 1 ↔ k.exit_with_error = true) ∧
    (k.finish.status = Status.returned ↔ k.exit_with_error = false) := by
  unfold Checks.finish
  cases k.exit_with_error <;> simp [World.finish]

theorem finish_dichotomy {α : Type} (k : Checks α) :
    k.finish.status = Status.exited 1 ↔ ¬ k.finish.status = Status.returned := by
  unfold Checks.finish
  cases k.exit_with_error <;> simp [World.finish]

theorem finish_stdout {α : Type} (k : Checks α) : k.finish.stdout = k.world.stdout := by
  unfold Checks.finish; split <;> rfl

theorem finish_stderr {α : Type} (k : Checks α) : k.finish.stderr = k.world.stderr := by
  unfold Checks.finish; split <;> rfl

theorem finish_options {α : Type} (k : Checks α) : k.finish.options = k.world.options := by
  unfold Checks.finish; split <;> rfl

theorem not_both_ne {α : Type} (x a b : α) : ¬ (x ≠ a ∧ x ≠ b) ↔ x = a ∨ x = b := by
  constructor
  · intro h
    by_contra hc
    exact h ⟨fun e => hc (Or.inl e), fun e => hc (Or.inr e)⟩
  · rintro (h | h) ⟨h1, h2⟩
    · exact h1 h
    · exact h2 h

theorem violation_congr (p q : Prop) [Decidable p] [Decidable q] (h : p ↔ q) (a b : String)
    (hab : a = b) : violation p a = violation q b := by
  subst hab
  unfold violation
  by_cases hp : p
  · rw [if_pos hp, if_pos (h.mp hp)]
  · rw [if_neg hp, if_neg (fun hq => hp (h.mpr hq))]

theorem append_violation_congr (p q : Prop) [Decidable p] [Decidable q] (h : p ↔ q)
    (a b : String) (hab : a = b) (l1 l2 : List Output) (hl : l1 = l2) :
    (violation p a).map Output.text ++ l1 = (violation q b).map Output.text ++ l2 := by
  rw [violation_congr p q h a b hab, hl]

/-- The call returns from the checks exactly when every check passes. -/
theorem fastqprocess_validate_returned (w : World INPUT_OPTIONS_FASTQPROCESS) :
    (fastqprocess_validate false w).status = Status.returned ↔
      fastqprocess_passes w.options := by
  unfold fastqprocess_validate
  simp only [Bool.false_eq_true, if_false]
  rw [(finish_status _).2]
  simp only [report_if_flag]
  have hs := string_length_eq_zero w.options.sample_id
  unfold fastqprocess_passes
  simp only [Bool.false_or, Bool.or_eq_false_iff, decide_eq_false_iff_not, hs]
  constructor
  · rintro ⟨⟨⟨⟨⟨⟨⟨a1, a2⟩, a3⟩, a4⟩, a5⟩, a6⟩, a7⟩, a8⟩
    exact ⟨not_not.mp a1, by omega, by omega, a4, a5,
      (not_both_ne _ _ _).mp a6, by omega, by omega⟩
  · rintro ⟨b1, b2, b3, b4, b5, b6, b7, b8⟩
    exact ⟨⟨⟨⟨⟨⟨⟨not_not.mpr b1, by omega⟩, by omega⟩, b4⟩, b5⟩,
      (not_both_ne _ _ _).mpr b6⟩, by omega⟩, by omega⟩

theorem fastqprocess_validate_exited (w : World INPUT_OPTIONS_FASTQPROCESS) :
    (fastqprocess_validate false w).status = Status.exited 1 ↔
      ¬ fastqprocess_passes w.options := by
  have h := fastqprocess_validate_returned w
  unfold fastqprocess_validate at h ⊢
  rw [finish_dichotomy, h]

theorem fastqprocess_validate_options (w : World INPUT_OPTIONS_FASTQPROCESS) :
    (fastqprocess_validate false w).options = w.options := by
  unfold fastqprocess_validate
  simp only [Bool.false_eq_true, if_false]
  rw [finish_options]
  simp only [report_if_options]

/-- The texts the checks of `read_options_fastqprocess` append to a stream are
the messages of the violated rules. -/
theorem fastqprocess_messages (o : INPUT_OPTIONS_FASTQPROCESS) (l : List Output) :
    (l ++ (List.map Output.text
          (violation (¬ o.R1s.length ≠ o.R2s.length)
            ("ERROR: Unequal number of R1 and R2 fastq files in input: " ++ "R1 : " ++
              toString o.R1s.length ++ "R2 : " ++ toString o.R2s.length ++ "\n")) ++
        (List.map Output.text (violation (¬ o.R1s.length = 0) "ERROR: No R1 file provided\n") ++
          (List.map Output.text
              (violation (¬ (o.I1s.length ≠ o.R1s.length ∧ o.I1s.length ≠ 0))
                ("ERROR: Either the number of I1 input files are equal\n" ++
                    "       to the number of R1 input files, or no I1 input files\n" ++
                  "       should not be provided at all.\n")) ++
            (List.map Output.text
                (violation (¬ o.bam_size ≤ 0)
                  "ERROR: Size of a bam file (in GB) cannot be negative\n") ++
              (List.map Output.text
                  (violation (¬ o.sample_id.length = 0)
                    "ERROR: Must provide a sample id or name\n") ++
                (List.map Output.text
                    (violation (¬ (o.output_format ≠ "FASTQ" ∧ o.output_format ≠ "BAM"))
                      "ERROR: Output-format must be either FASTQ or BAM\n") ++
                  (List.map Output.text
                      (violation (¬ o.barcode_length ≤ 0)
                        "ERROR: Barcode length must be a positive integer\n") ++
                    List.map Output.text
                      (violation (¬ o.umi_length ≤ 0)
                        "ERROR: UMI length must be a positive integer\n"))))))))) =
      l ++ (fastqprocess_violations o).map Output.text := by
  unfold fastqprocess_violations
  simp only [List.map_append, List.append_assoc]
  congr 1
  have hs := string_length_eq_zero o.sample_id
  apply append_violation_congr _ _ not_not _ _ rfl
  apply append_violation_congr _ _ Nat.one_le_iff_ne_zero.symm _ _ rfl
  apply append_violation_congr _ _ ((not_both_ne _ _ _).trans or_comm) _ _ rfl
  apply append_violation_congr _ _ Iff.rfl _ _ rfl
  apply append_violation_congr _ _ (not_congr hs) _ _ rfl
  apply append_violation_congr _ _ (not_both_ne _ _ _) _ _ rfl
  apply append_violation_congr _ _ not_le _ _ rfl
  exact congrArg _ (violation_congr _ _ not_le _ _ rfl)

theorem fastqprocess_validate_stdout (w : World INPUT_OPTIONS_FASTQPROCESS) :
    (fastqprocess_validate false w).stdout =
      w.stdout ++ (fastqprocess_violations w.options).map Output.text := by
  unfold fastqprocess_validate
  simp only [Bool.false_eq_true, if_false]
  rw [finish_stdout]
  simp only [report_if_stdout, List.append_assoc]
  exact fastqprocess_messages w.options _

theorem fastqprocess_validate_stderr (w : World INPUT_OPTIONS_FASTQPROCESS) :
    (fastqprocess_validate false w).stderr =
      w.stderr ++ (fastqprocess_violations w.options).map Output.text := by
  unfold fastqprocess_validate
  simp only [Bool.false_eq_true, if_false]
  rw [finish_stderr]
  simp only [report_if_stderr, List.append_assoc]
  exact fastqprocess_messages w.options _

/-- The call returns from the checks exactly when every check passes. -/
theorem slideseq_validate_returned (w : World INPUT_OPTIONS_FASTQ_READ_STRUCTURE) :
    (slideseq_validate false w).status = Status.returned ↔ slideseq_passes w.options := by
  unfold slideseq_validate
  simp only [Bool.false_eq_true, if_false]
  rw [(finish_status _).2]
  simp only [report_if_flag]
  have hs := string_length_eq_zero w.options.sample_id
  have hr := string_length_eq_zero w.options.read_structure
  unfold slideseq_passes
  simp only [Bool.false_or, Bool.or_eq_false_iff, decide_eq_false_iff_not, hs, hr]
  constructor
  · rintro ⟨⟨⟨⟨⟨⟨a1, a2⟩, a3⟩, a4⟩, a5⟩, a6⟩, a7⟩
    exact ⟨not_not.mp a1, by omega, by omega, a4, a6,
      (not_both_ne _ _ _).mp a7, a5⟩
  · rintro ⟨b1, b2, b3, b4, b5, b6, b7⟩
    exact ⟨⟨⟨⟨⟨⟨not_not.mpr b1, by omega⟩, by omega⟩, b4⟩, b7⟩, b5⟩,
      (not_both_ne _ _ _).mpr b6⟩

theorem slideseq_validate_options (w : World INPUT_OPTIONS_FASTQ_READ_STRUCTURE) :
    (slideseq_validate false w).options = w.options := by
  unfold slideseq_validate
  simp only [Bool.false_eq_true, if_false]
  rw [finish_options]
  simp only [report_if_options]

theorem slideseq_validate_exited (w : World INPUT_OPTIONS_FASTQ_READ_STRUCTURE) :
    (slideseq_validate false w).status = Status.exited 1 ↔ ¬ slideseq_passes w.options := by
  have h := slideseq_validate_returned w
  unfold slideseq_validate at h ⊢
  rw [finish_dichotomy, h]

/-- The texts the checks of `read_options_fastq_slideseq` append to a stream are
the messages of the violated rules. -/
theorem slideseq_messages (o : INPUT_OPTIONS_FASTQ_READ_STRUCTURE) (l : List Output) :
    (l ++ (List.map Output.text
          (violation (¬ o.R1s.length ≠ o.R2s.length)
            ("ERROR: Unequal number of R1 and R2 fastq files in input: " ++ "R1 : " ++
              toString o.R1s.length ++ "R2 : " ++ toString o.R2s.length ++ "\n")) ++
        (List.map Output.text (violation (¬ o.R1s.length = 0) "ERROR: No R1 file provided\n") ++
          (List.map Output.text
              (violation (¬ (o.I1s.length ≠ o.R1s.length ∧ o.I1s.length ≠ 0))
                ("ERROR: Either the number of I1 input files are equal\n" ++
                    "       to the number of R1 input files, or no I1 input files\n" ++
                  "       should not be provided at all.\n")) ++
            (List.map Output.text
                (violation (¬ o.bam_size ≤ 0)
                  "ERROR: Size of a bam file (in GB) cannot be negative\n") ++
              (List.map Output.text
                  (violation (¬ o.read_structure.length = 0)
                    "ERROR: Must provide read structures\n") ++
                (List.map Output.text
                    (violation (¬ o.sample_id.length = 0)
                      "ERROR: Must provide a sample id or name\n") ++
                  List.map Output.text
                    (violation (¬ (o.output_format ≠ "FASTQ" ∧ o.output_format ≠ "BAM"))
                      "ERROR: Output-format must be either FASTQ or BAM\n")))))))) =
      l ++ (slideseq_violations o).map Output.text := by
  unfold slideseq_violations
  simp only [List.map_append, List.append_assoc]
  congr 1
  have hs := string_length_eq_zero o.sample_id
  have hr := string_length_eq_zero o.read_structure
  apply append_violation_congr _ _ not_not _ _ rfl
  apply append_violation_congr _ _ Nat.one_le_iff_ne_zero.symm _ _ rfl
  apply append_violation_congr _ _ ((not_both_ne _ _ _).trans or_comm) _ _ rfl
  apply append_violation_congr _ _ Iff.rfl _ _ rfl
  apply append_violation_congr _ _ (not_congr hr) _ _ rfl
  apply append_violation_congr _ _ (not_congr hs) _ _ rfl
  exact congrArg _ (violation_congr _ _ (not_both_ne _ _ _) _ _ rfl)

theorem slideseq_validate_stdout (w : World INPUT_OPTIONS_FASTQ_READ_STRUCTURE) :
    (slideseq_validate false w).stdout =
      w.stdout ++ (slideseq_violations w.options).map Output.text := by
  unfold slideseq_validate
  simp only [Bool.false_eq_true, if_false]
  rw [finish_stdout]
  simp only [report_if_stdout, List.append_assoc]
  exact slideseq_messages w.options _

theorem slideseq_validate_stderr (w : World INPUT_OPTIONS_FASTQ_READ_STRUCTURE) :
    (slideseq_validate false w).stderr =
      w.stderr ++ (slideseq_violations w.options).map Output.text := by
  unfold slideseq_validate
  simp only [Bool.false_eq_true, if_false]
  rw [finish_stderr]
  simp only [report_if_stderr, List.append_assoc]
  exact slideseq_messages w.options _

/-- The returns of `getopt_long` either hold no usage error, or split at the
first one. -/
theorem split_first_error (rs : List GetoptReturn) :
    (∀ r ∈ rs, r.c ≠ '?') ∨
      ∃ pre e post, rs = pre ++ e :: post ∧ (∀ r ∈ pre, r.c ≠ '?') ∧ e.c = '?' := by
  induction rs with
  | nil => left; simp
  | cons r rs ih =>
    by_cases hr : r.c = '?'
    · right; exact ⟨[], r, rs, rfl, by simp, hr⟩
    · rcases ih with h | ⟨pre, e, post, hsplit, hpre, he⟩
      · left
        intro q hq
        rcases List.mem_cons.mp hq with rfl | hq
        · exact hr
        · exact h q hq
      · right
        refine ⟨r :: pre, e, post, by rw [hsplit]; rfl, ?_, he⟩
        intro q hq
        rcases List.mem_cons.mp hq with rfl | hq
        · exact hr
        · exact hpre q hq

theorem help_run_fields {α : Type} (options : α) (e : GetoptReturn) (prog : String)
    (long_options : List LongOption) (help_messages : List String) (left : Status) :
    (((after_diag (World.start options) e).print_help prog long_options
        help_messages).finish left).status = left ∧
    (((after_diag (World.start options) e).print_help prog long_options
        help_messages).finish left).stdout =
      (help_text prog long_options help_messages).map Output.text ∧
    (((after_diag (World.start options) e).print_help prog long_options
        help_messages).finish left).options = options := by
  cases h : e.diag <;>
    simp [after_diag, h, World.start, World.print_help, World.finish, World.eprint]

theorem fastqprocess_never_prints_file_info (atof : String → double) (argv : List String)
    (options : INPUT_OPTIONS_FASTQPROCESS) (files : List String) (label : String) :
    Output.file_info files label ∉ (read_options_fastqprocess atof argv options).stdout := by
  rcases split_first_error (getopt_long argv fastqprocess_optstring fastqprocess_long_options)
    with h | ⟨pre, e, post, hsplit, hpre, he⟩
  · rw [read_options_fastqprocess_parsed atof argv options h, fastqprocess_validate_stdout]
    simp [World.start]
  · rw [read_options_fastqprocess_usage atof argv options pre post e hsplit hpre he,
      (help_run_fields _ _ _ _ _ _).2.1]
    simp

theorem slideseq_never_prints_file_info (atof : String → double) (argv : List String)
    (options : INPUT_OPTIONS_FASTQ_READ_STRUCTURE) (files : List String) (label : String) :
    Output.file_info files label ∉ (read_options_fastq_slideseq atof argv options).stdout := by
  rcases split_first_error (getopt_long argv slideseq_optstring slideseq_long_options)
    with h | ⟨pre, e, post, hsplit, hpre, he⟩
  · rw [read_options_fastq_slideseq_parsed atof argv options h, slideseq_validate_stdout]
    simp [World.start]
  · rw [read_options_fastq_slideseq_usage atof argv options pre post e hsplit hpre he,
      (help_run_fields _ _ _ _ _ _).2.1]
    simp

theorem gz_at_iff (l : List Char) :
    gz_at l = true ↔
      ∃ a g z, l = [a, g, z] ∧ a ≠ '\n' ∧ a ≠ '\r' ∧ g.toLower = 'g' ∧ z.toLower = 'z' := by
  constructor
  · intro h
    match l, h with
    | [a, g, z], h =>
      simp only [gz_at, Bool.and_eq_true, decide_eq_true_eq, bne_iff_ne, ne_eq] at h
      exact ⟨a, g, z, rfl, by tauto⟩
  · rintro ⟨a, g, z, rfl, h1, h2, h3, h4⟩
    simp [gz_at, h1, h2, h3, h4]

/-- The pattern `.gz$` is found exactly in the texts that end in some character
other than a line terminator, then `g` and `z` in either case. -/
theorem regex_search_gz_iff (s : String) :
    regex_search_gz s = true ↔
      ∃ pre a g z, s.data = pre ++ [a, g, z] ∧ a ≠ '\n' ∧ a ≠ '\r' ∧
        g.toLower = 'g' ∧ z.toLower = 'z' := by
  unfold regex_search_gz
  rw [List.any_eq_true]
  constructor
  · rintro ⟨l, hl, hg⟩
    obtain ⟨a, g, z, rfl, h⟩ := (gz_at_iff l).mp hg
    obtain ⟨pre, hpre⟩ := (List.mem_tails _ _).mp hl
    exact ⟨pre, a, g, z, hpre.symm, h⟩
  · rintro ⟨pre, a, g, z, hs, h⟩
    exact ⟨[a, g, z], (List.mem_tails _ _).mpr ⟨pre, hs.symm⟩,
      (gz_at_iff _).mpr ⟨a, g, z, rfl, h⟩⟩

/-! ## The rule `bam_size > 0` and the test `bam_size <= 0` -/

/-- A double is positive exactly when the test `x <= 0` fails and it is not
NaN. -/
theorem double_pos_iff (x : double) : 0 < x ↔ ¬ x ≤ 0 ∧ x ≠ double.nan := by
  cases x with
  | number q =>
    show double.lt (double.number 0) (double.number q) = true ↔
      ¬ double.le (double.number q) (double.number 0) = true ∧ double.number q ≠ double.nan
    simp [double.lt, double.le]
  | infinity negative => cases negative <;> decide
  | nan => decide

theorem fastqprocess_rules_iff (o : INPUT_OPTIONS_FASTQPROCESS) :
    fastqprocess_rules o ↔ fastqprocess_passes o ∧ o.bam_size ≠ double.nan := by
  unfold fastqprocess_rules fastqprocess_passes
  rw [double_pos_iff]
  constructor
  · rintro ⟨a1, a2, a3, ⟨a4, a9⟩, a5, a6, a7, a8⟩
    exact ⟨⟨a1, a2, a3, a4, a5, a6, a7, a8⟩, a9⟩
  · rintro ⟨⟨a1, a2, a3, a4, a5, a6, a7, a8⟩, a9⟩
    exact ⟨a1, a2, a3, ⟨a4, a9⟩, a5, a6, a7, a8⟩

theorem slideseq_rules_iff (o : INPUT_OPTIONS_FASTQ_READ_STRUCTURE) :
    slideseq_rules o ↔ slideseq_passes o ∧ o.bam_size ≠ double.nan := by
  unfold slideseq_rules slideseq_passes
  rw [double_pos_iff]
  constructor
  · rintro ⟨a1, a2, a3, ⟨a4, a9⟩, a5, a6, a7⟩
    exact ⟨⟨a1, a2, a3, a4, a5, a6, a7⟩, a9⟩
  · rintro ⟨⟨a1, a2, a3, a4, a5, a6, a7⟩, a9⟩
    exact ⟨a1, a2, a3, ⟨a4, a9⟩, a5, a6, a7⟩

/-- Apart from a NaN bam size, the messages of the failed checks are the
messages of the violated rules. -/
theorem fastqprocess_violations_eq (o : INPUT_OPTIONS_FASTQPROCESS)
    (h : o.bam_size ≠ double.nan) :
    fastqprocess_violations o = fastqprocess_rule_messages o := by
  unfold fastqprocess_violations fastqprocess_rule_messages
  have hb : (¬ o.bam_size ≤ 0) ↔ 0 < o.bam_size := by
    rw [double_pos_iff]
    exact ⟨fun a => ⟨a, h⟩, fun a => a.1⟩
  rw [violation_congr _ _ hb _ _ rfl]

/-! ## Returning to the caller -/

/-- C3 (counterexample): on `-h` both FASTQ readers return to the caller with a
record that has no R1 file, so the rule set does not hold. -/
theorem c3_help_returns_unvalidated :
    ((read_options_fastqprocess atof_unused ["fastqprocess", "-h"]
        INPUT_OPTIONS_FASTQPROCESS.defaults).status = Status.returned ∧
      (read_options_fastqprocess atof_unused ["fastqprocess", "-h"]
        INPUT_OPTIONS_FASTQPROCESS.defaults).options.R1s.length = 0 ∧
      ¬ fastqprocess_rules (read_options_fastqprocess atof_unused ["fastqprocess", "-h"]
        INPUT_OPTIONS_FASTQPROCESS.defaults).options) ∧
    ((read_options_fastq_slideseq atof_unused ["fastq_slideseq", "--unknown"]
        INPUT_OPTIONS_FASTQ_READ_STRUCTURE.defaults).status = Status.returned ∧
      (read_options_fastq_slideseq atof_unused ["fastq_slideseq", "--unknown"]
        INPUT_OPTIONS_FASTQ_READ_STRUCTURE.defaults).options.R1s.length = 0 ∧
      ¬ slideseq_rules (read_options_fastq_slideseq atof_unused ["fastq_slideseq", "--unknown"]
        INPUT_OPTIONS_FASTQ_READ_STRUCTURE.defaults).options) := by
  refine ⟨⟨by decide, by decide, fun h => ?_⟩, ⟨by decide, by decide, fun h => ?_⟩⟩
  · exact absurd h.2.1 (by decide)
  · exact absurd h.2.1 (by decide)

/-- C3 (amended): for every argument vector without a usage error, whenever a
FASTQ reader returns to its caller with a bam size that is not NaN, the record
satisfies every rule of the command. -/
theorem c3_returned_without_usage_error_is_validated (atof : String → double)
    (argv : List String) :
    (∀ options : INPUT_OPTIONS_FASTQPROCESS,
      (∀ r ∈ getopt_long argv fastqprocess_optstring fastqprocess_long_options, r.c ≠ '?') →
      (read_options_fastqprocess atof argv options).status = Status.returned →
      (read_options_fastqprocess atof argv options).options.bam_size ≠ double.nan →
      fastqprocess_rules (read_options_fastqprocess atof argv options).options) ∧
    (∀ options : INPUT_OPTIONS_FASTQ_READ_STRUCTURE,
      (∀ r ∈ getopt_long argv slideseq_optstring slideseq_long_options, r.c ≠ '?') →
      (read_options_fastq_slideseq atof argv options).status = Status.returned →
      (read_options_fastq_slideseq atof argv options).options.bam_size ≠ double.nan →
      slideseq_rules (read_options_fastq_slideseq atof argv options).options) := by
  constructor
  · intro options h hret hnan
    rw [read_options_fastqprocess_parsed atof argv options h] at hret hnan ⊢
    rw [fastqprocess_validate_options] at hnan ⊢
    exact (fastqprocess_rules_iff _).mpr ⟨(fastqprocess_validate_returned _).mp hret, hnan⟩
  · intro options h hret hnan
    rw [read_options_fastq_slideseq_parsed atof argv options h] at hret hnan ⊢
    rw [slideseq_validate_options] at hnan ⊢
    exact (slideseq_rules_iff _).mpr ⟨(slideseq_validate_returned _).mp hret, hnan⟩

/-- C3 (witness): the end-to-end example has no usage error, returns with the
initial bam size 1, and its record satisfies the rule set. -/
theorem c3_returned_without_usage_error_is_validated_witness :
    (∀ r ∈ getopt_long fastqprocess_example_argv fastqprocess_optstring
      fastqprocess_long_options, r.c ≠ '?') ∧
    (read_options_fastqprocess atof_unused fastqprocess_example_argv
      INPUT_OPTIONS_FASTQPROCESS.defaults).status = Status.returned ∧
    (read_options_fastqprocess atof_unused fastqprocess_example_argv
      INPUT_OPTIONS_FASTQPROCESS.defaults).options.bam_size ≠ double.nan ∧
    fastqprocess_rules (read_options_fastqprocess atof_unused fastqprocess_example_argv
      INPUT_OPTIONS_FASTQPROCESS.defaults).options :=
  ⟨by decide, by decide, by decide,
    (c3_returned_without_usage_error_is_validated atof_unused fastqprocess_example_argv).1
      INPUT_OPTIONS_FASTQPROCESS.defaults (by decide) (by decide) (by decide)⟩

/-! ## The verbose listing -/

/-- C4 (failing input): with `--verbose` (or `-v`) in front of a valid call, the
record has `verbose_flag` set and non-empty R1 and R2 lists, and nothing at all
is written on standard output: no list is printed.  In fact no argument vector
makes either reader call `_print_file_info`. -/
theorem c4_verbose_prints_nothing :
    ((read_options_fastqprocess atof_unused fastqprocess_verbose_argv
        INPUT_OPTIONS_FASTQPROCESS.defaults).options.verbose_flag = true ∧
      (read_options_fastqprocess atof_unused fastqprocess_verbose_argv
        INPUT_OPTIONS_FASTQPROCESS.defaults).options.R1s = ["a.fastq"] ∧
      (read_options_fastqprocess atof_unused fastqprocess_verbose_argv
        INPUT_OPTIONS_FASTQPROCESS.defaults).options.R2s = ["b.fastq"] ∧
      (read_options_fastqprocess atof_unused fastqprocess_verbose_argv
        INPUT_OPTIONS_FASTQPROCESS.defaults).stdout = [] ∧
      (read_options_fastqprocess atof_unused fastqprocess_verbose_argv
        INPUT_OPTIONS_FASTQPROCESS.defaults).status = Status.returned) ∧
    ((read_options_fastq_slideseq atof_unused slideseq_verbose_argv
        INPUT_OPTIONS_FASTQ_READ_STRUCTURE.defaults).options.verbose_flag = true ∧
      (read_options_fastq_slideseq atof_unused slideseq_verbose_argv
        INPUT_OPTIONS_FASTQ_READ_STRUCTURE.defaults).options.R1s = ["a.fastq"] ∧
      (read_options_fastq_slideseq atof_unused slideseq_verbose_argv
        INPUT_OPTIONS_FASTQ_READ_STRUCTURE.defaults).stdout = [] ∧
      (read_options_fastq_slideseq atof_unused slideseq_verbose_argv
        INPUT_OPTIONS_FASTQ_READ_STRUCTURE.defaults).status = Status.returned) ∧
    (∀ (atof : String → double) (argv : List String) (options : INPUT_OPTIONS_FASTQPROCESS)
        (files : List String) (label : String),
      Output.file_info files label ∉ (read_options_fastqprocess atof argv options).stdout) ∧
    (∀ (atof : String → double) (argv : List String) (options : INPUT_OPTIONS_FASTQ_READ_STRUCTURE)
        (files : List String) (label : String),
      Output.file_info files label ∉ (read_options_fastq_slideseq atof argv options).stdout) :=
  ⟨by decide, by decide, fastqprocess_never_prints_file_info, slideseq_never_prints_file_info⟩

/-! ## The gtf file name -/

/-- C5 (failing input): the name `genes_gz`, which does not end in `.gz`, is
rejected by the fourth check and the call leaves with status 1; the names
`genes.gz` and `genes.GZ` are rejected and the empty name is not.  In general the
fourth check rejects exactly the names that end in `g`, `z` in either case after
any one character that is not a line terminator. -/
theorem c5_gz_without_dot_is_rejected :
    (check_gtf_not_gzipped { INPUT_OPTIONS_TAGSORT.defaults with gtf_file := "genes_gz" } =
        some "ERROR: The gtf file must not be gzipped\n" ∧
      (read_options_tagsort 30 all_exist gz_without_dot_argv
        INPUT_OPTIONS_TAGSORT.defaults).status = Status.exited 1 ∧
      (read_options_tagsort 30 all_exist gz_without_dot_argv
        INPUT_OPTIONS_TAGSORT.defaults).stdout =
          [Output.text "ERROR: The gtf file must not be gzipped\n"]) ∧
    (regex_search_gz "genes.gz" = true ∧ regex_search_gz "genes.GZ" = true ∧
      regex_search_gz "" = false ∧ regex_search_gz "gz" = false) ∧
    (∀ options : INPUT_OPTIONS_TAGSORT,
      check_gtf_not_gzipped options ≠ none ↔
        ∃ pre a g z, options.gtf_file.data = pre ++ [a, g, z] ∧ a ≠ '\n' ∧ a ≠ '\r' ∧
          g.toLower = 'g' ∧ z.toLower = 'z') := by
  refine ⟨by decide, by decide, fun options => ?_⟩
  rw [← regex_search_gz_iff]
  unfold check_gtf_not_gzipped
  split <;> simp [*]

/-! ## Accumulated checks of the fastqprocess command -/

/-- After parsing without a usage error `read_options_fastqprocess` leaves with
status 1 exactly when a check fails, and returns otherwise; when the bam size is
not NaN this is exactly when at least one of the eight rules is violated.  With
two R1 and two R2 files, no I1 file passes and one I1 file fails, and the
end-to-end example is accepted. -/
theorem fastqprocess_status_iff_rules :
    (∀ (atof : String → double) (argv : List String) (options : INPUT_OPTIONS_FASTQPROCESS),
      (∀ r ∈ getopt_long argv fastqprocess_optstring fastqprocess_long_options, r.c ≠ '?') →
      (read_options_fastqprocess atof argv options).options.bam_size ≠ double.nan →
      ((read_options_fastqprocess atof argv options).status = Status.exited 1 ↔
        ¬ fastqprocess_rules (read_options_fastqprocess atof argv options).options) ∧
      ((read_options_fastqprocess atof argv options).status = Status.returned ↔
        fastqprocess_rules (read_options_fastqprocess atof argv options).options)) ∧
    (∀ w : World INPUT_OPTIONS_FASTQPROCESS,
      ((fastqprocess_validate false w).status = Status.exited 1 ↔
        ¬ fastqprocess_passes w.options) ∧
      ((fastqprocess_validate false w).status = Status.returned ↔
        fastqprocess_passes w.options)) ∧
    (∀ w : World INPUT_OPTIONS_FASTQPROCESS,
      w.options.I1s.length = 0 → w.options.R1s.length = 2 → w.options.R2s.length = 2 →
      0 < w.options.bam_size → w.options.sample_id ≠ "" →
      (w.options.output_format = "FASTQ" ∨ w.options.output_format = "BAM") →
      0 < w.options.barcode_length → 0 < w.options.umi_length →
      (fastqprocess_validate false w).status = Status.returned) ∧
    (∀ w : World INPUT_OPTIONS_FASTQPROCESS,
      w.options.I1s.length = 1 → w.options.R1s.length = 2 →
      (fastqprocess_validate false w).status = Status.exited 1) ∧
    (read_options_fastqprocess atof_unused fastqprocess_example_argv
      INPUT_OPTIONS_FASTQPROCESS.defaults).status = Status.returned := by
  refine ⟨?_, ?_, ?_, ?_, by decide⟩
  · intro atof argv options h
    rw [read_options_fastqprocess_parsed atof argv options h, fastqprocess_validate_options]
    intro hnan
    rw [fastqprocess_validate_exited, fastqprocess_validate_returned, fastqprocess_rules_iff]
    exact ⟨⟨fun a b => a b.1, fun a b => a ⟨b, hnan⟩⟩, ⟨fun a => ⟨a, hnan⟩, fun a => a.1⟩⟩
  · intro w
    exact ⟨fastqprocess_validate_exited w, fastqprocess_validate_returned w⟩
  · intro w h1 h2 h3 h4 h5 h6 h7 h8
    exact (fastqprocess_validate_returned w).mpr
      ⟨by omega, by omega, Or.inl h1, ((double_pos_iff _).mp h4).1, h5, h6, h7, h8⟩
  · intro w h1 h2
    refine (fastqprocess_validate_exited w).mpr (fun hr => ?_)
    have := hr.2.2.1
    omega

/-- C6 (failing input): the end-to-end example with `--bam-size nan` at the end has
no usage error and returns normally without a message, although the rule
`bam_size > 0` is violated: the bam size is NaN, and the test `bam_size <= 0` of
the source is false for it. -/
theorem c6_nan_bam_size_is_accepted :
    (∀ r ∈ getopt_long nan_bam_size_argv fastqprocess_optstring fastqprocess_long_options,
      r.c ≠ '?') ∧
    (read_options_fastqprocess atof_of_nan nan_bam_size_argv
      INPUT_OPTIONS_FASTQPROCESS.defaults).status = Status.returned ∧
    (read_options_fastqprocess atof_of_nan nan_bam_size_argv
      INPUT_OPTIONS_FASTQPROCESS.defaults).options.bam_size = double.nan ∧
    ¬ (0 < (read_options_fastqprocess atof_of_nan nan_bam_size_argv
      INPUT_OPTIONS_FASTQPROCESS.defaults).options.bam_size) ∧
    ¬ fastqprocess_rules (read_options_fastqprocess atof_of_nan nan_bam_size_argv
      INPUT_OPTIONS_FASTQPROCESS.defaults).options ∧
    (read_options_fastqprocess atof_of_nan nan_bam_size_argv
      INPUT_OPTIONS_FASTQPROCESS.defaults).stdout = [] := by
  refine ⟨by decide, by decide, by decide, by decide, fun h => ?_, by decide⟩
  exact absurd h.2.2.2.1 (by decide)

/-- The checks of `read_options_fastqprocess` write the same texts on standard
output and on standard error, namely one message for each failed check, in the
order of the checks; after parsing without a usage error these are the only
texts on both streams, and when the bam size is not NaN they are the messages of
the violated rules.  Two R1 files with one R2 file give the count message, and no
R1 file with one R2 file gives the count message followed by the missing R1
message. -/
theorem fastqprocess_messages_per_check :
    (∀ w : World INPUT_OPTIONS_FASTQPROCESS,
      (fastqprocess_validate false w).stdout =
        w.stdout ++ (fastqprocess_violations w.options).map Output.text ∧
      (fastqprocess_validate false w).stderr =
        w.stderr ++ (fastqprocess_violations w.options).map Output.text) ∧
    (∀ (atof : String → double) (argv : List String) (options : INPUT_OPTIONS_FASTQPROCESS),
      (∀ r ∈ getopt_long argv fastqprocess_optstring fastqprocess_long_options, r.c ≠ '?') →
      (read_options_fastqprocess atof argv options).stdout =
        (fastqprocess_violations
          (read_options_fastqprocess atof argv options).options).map Output.text ∧
      (read_options_fastqprocess atof argv options).stderr =
        (read_options_fastqprocess atof argv options).stdout) ∧
    (∀ (atof : String → double) (argv : List String) (options : INPUT_OPTIONS_FASTQPROCESS),
      (∀ r ∈ getopt_long argv fastqprocess_optstring fastqprocess_long_options, r.c ≠ '?') →
      (read_options_fastqprocess atof argv options).options.bam_size ≠ double.nan →
      (read_options_fastqprocess atof argv options).stdout =
        (fastqprocess_rule_messages
          (read_options_fastqprocess atof argv options).options).map Output.text) ∧
    (∀ o : INPUT_OPTIONS_FASTQPROCESS, o.R1s.length = 2 → o.R2s.length = 1 →
      ∃ rest, fastqprocess_violations o =
        "ERROR: Unequal number of R1 and R2 fastq files in input: R1 : 2R2 : 1\n" :: rest ∧
        "ERROR: No R1 file provided\n" ∉ rest) ∧
    (∀ o : INPUT_OPTIONS_FASTQPROCESS, o.R1s.length = 0 → o.R2s.length = 1 →
      ∃ rest, fastqprocess_violations o =
        "ERROR: Unequal number of R1 and R2 fastq files in input: R1 : 0R2 : 1\n" ::
          "ERROR: No R1 file provided\n" :: rest) := by
  refine ⟨?_, ?_, ?_, ?_, ?_⟩
  · intro w
    exact ⟨fastqprocess_validate_stdout w, fastqprocess_validate_stderr w⟩
  · intro atof argv options h
    rw [read_options_fastqprocess_parsed atof argv options h, fastqprocess_validate_options,
      fastqprocess_validate_stdout, fastqprocess_validate_stderr]
    simp [World.start]
  · intro atof argv options h
    rw [read_options_fastqprocess_parsed atof argv options h, fastqprocess_validate_options,
      fastqprocess_validate_stdout]
    intro hnan
    rw [fastqprocess_violations_eq _ hnan]
    simp [World.start]
  · intro o h1 h2
    unfold fastqprocess_violations
    rw [h1, h2]
    refine ⟨_, rfl, ?_⟩
    intro hmem
    simp [violation] at hmem
  · intro o h1 h2
    unfold fastqprocess_violations
    rw [h1, h2]
    exact ⟨_, rfl⟩

/-- C7 (failing input): two R1 files, one R2 file and `--bam-size nan` in an
otherwise valid call violate two rules, the equal counts and `bam_size > 0`, and
the specification asks for the two messages; both streams hold the count message
alone, and no message about the bam size. -/
theorem c7_nan_bam_size_prints_no_message :
    (∀ r ∈ getopt_long nan_bam_size_two_R1_argv fastqprocess_optstring
      fastqprocess_long_options, r.c ≠ '?') ∧
    (read_options_fastqprocess atof_of_nan nan_bam_size_two_R1_argv
      INPUT_OPTIONS_FASTQPROCESS.defaults).stdout =
      [Output.text
        "ERROR: Unequal number of R1 and R2 fastq files in input: R1 : 2R2 : 1\n"] ∧
    (read_options_fastqprocess atof_of_nan nan_bam_size_two_R1_argv
      INPUT_OPTIONS_FASTQPROCESS.defaults).stderr =
      [Output.text
        "ERROR: Unequal number of R1 and R2 fastq files in input: R1 : 2R2 : 1\n"] ∧
    (read_options_fastqprocess atof_of_nan nan_bam_size_two_R1_argv
      INPUT_OPTIONS_FASTQPROCESS.defaults).status = Status.exited 1 ∧
    ¬ (0 < (read_options_fastqprocess atof_of_nan nan_bam_size_two_R1_argv
      INPUT_OPTIONS_FASTQPROCESS.defaults).options.bam_size) ∧
    fastqprocess_rule_messages (read_options_fastqprocess atof_of_nan nan_bam_size_two_R1_argv
      INPUT_OPTIONS_FASTQPROCESS.defaults).options =
      ["ERROR: Unequal number of R1 and R2 fastq files in input: R1 : 2R2 : 1\n",
       "ERROR: Size of a bam file (in GB) cannot be negative\n"] := by
  decide

/-! ## Fail-fast checks of the tagsort command -/

theorem tagsort_validate_some (MAX_THREADS : Int) (fs_exists : String → Bool)
    (w : World INPUT_OPTIONS_TAGSORT) (msg : String)
    (h : tagsort_check MAX_THREADS fs_exists w.options = some msg) :
    tagsort_validate MAX_THREADS fs_exists w =
      { options := w.options, stdout := w.stdout ++ [Output.text msg], stderr := w.stderr,
        status := Status.exited 1 } := by
  simp [tagsort_validate, h, World.error_message, World.print, World.finish]

theorem tagsort_validate_none (MAX_THREADS : Int) (fs_exists : String → Bool)
    (w : World INPUT_OPTIONS_TAGSORT)
    (h : tagsort_check MAX_THREADS fs_exists w.options = none) :
    tagsort_validate MAX_THREADS fs_exists w =
      { options := w.options, stdout := w.stdout, stderr := w.stderr,
        status := Status.returned } := by
  simp [tagsort_validate, h, World.finish]

/-- C9 (failing input): the end-to-end example without `--white-list` is accepted
by `read_options_fastqprocess` with an empty `white_list_file`, and so is a valid
call of `read_options_fastq_slideseq` without it.  In fact the status the checks
end with never depends on `white_list_file`. -/
theorem c9_missing_white_list_is_accepted :
    ((read_options_fastqprocess atof_unused fastqprocess_no_white_list_argv
        INPUT_OPTIONS_FASTQPROCESS.defaults).status = Status.returned ∧
      (read_options_fastqprocess atof_unused fastqprocess_no_white_list_argv
        INPUT_OPTIONS_FASTQPROCESS.defaults).options.white_list_file = "" ∧
      (read_options_fastqprocess atof_unused fastqprocess_no_white_list_argv
        INPUT_OPTIONS_FASTQPROCESS.defaults).stdout = []) ∧
    ((read_options_fastq_slideseq atof_unused slideseq_no_white_list_argv
        INPUT_OPTIONS_FASTQ_READ_STRUCTURE.defaults).status = Status.returned ∧
      (read_options_fastq_slideseq atof_unused slideseq_no_white_list_argv
        INPUT_OPTIONS_FASTQ_READ_STRUCTURE.defaults).options.white_list_file = "" ∧
      (read_options_fastq_slideseq atof_unused slideseq_no_white_list_argv
        INPUT_OPTIONS_FASTQ_READ_STRUCTURE.defaults).stdout = []) ∧
    (∀ (w : World INPUT_OPTIONS_FASTQPROCESS) (file : String),
      (fastqprocess_validate false
        { w with options := { w.options with white_list_file := file } }).status =
      (fastqprocess_validate false w).status) ∧
    (∀ (w : World INPUT_OPTIONS_FASTQ_READ_STRUCTURE) (file : String),
      (slideseq_validate false
        { w with options := { w.options with white_list_file := file } }).status =
      (slideseq_validate false w).status) := by
  refine ⟨by decide, by decide, fun w file => ?_, fun w file => ?_⟩
  · by_cases hr : fastqprocess_passes w.options
    · rw [(fastqprocess_validate_returned w).mpr hr]
      exact (fastqprocess_validate_returned _).mpr hr
    · rw [(fastqprocess_validate_exited w).mpr hr]
      exact (fastqprocess_validate_exited _).mpr hr
  · by_cases hr : slideseq_passes w.options
    · rw [(slideseq_validate_returned w).mpr hr]
      exact (slideseq_validate_returned _).mpr hr
    · rw [(slideseq_validate_exited w).mpr hr]
      exact (slideseq_validate_exited _).mpr hr

/-! ## Usage errors -/

/-- C10: when the first usage error of an argument vector comes after the returns
`pre`, `read_options_tagsort` prints the help text and nothing else on standard
output and leaves with status 0, and the two FASTQ readers print the help text
and nothing else and return to the caller; in all three the record holds exactly
the assignments of `pre`. -/
theorem c10_usage_error_prints_help (atof : String → double) (argv : List String)
    (pre post : List GetoptReturn) (e : GetoptReturn)
    (hpre : ∀ r ∈ pre, r.c ≠ '?') (he : e.c = '?') :
    (∀ (MAX_THREADS : Int) (fs_exists : String → Bool) (options : INPUT_OPTIONS_TAGSORT),
      getopt_long argv tagsort_optstring tagsort_long_options = pre ++ e :: post →
      (read_options_tagsort MAX_THREADS fs_exists argv options).status = Status.exited 0 ∧
      (read_options_tagsort MAX_THREADS fs_exists argv options).stdout =
        (help_text (argv.headD "") tagsort_long_options tagsort_help_messages).map
          Output.text ∧
      (read_options_tagsort MAX_THREADS fs_exists argv options).options =
        assign_all tagsort_assign options pre) ∧
    (∀ options : INPUT_OPTIONS_FASTQPROCESS,
      getopt_long argv fastqprocess_optstring fastqprocess_long_options = pre ++ e :: post →
      (read_options_fastqprocess atof argv options).status = Status.returned ∧
      (read_options_fastqprocess atof argv options).stdout =
        (help_text (argv.headD "") fastqprocess_long_options fastqprocess_help_messages).map
          Output.text ∧
      (read_options_fastqprocess atof argv options).options =
        assign_all (fastqprocess_assign atof) options pre) ∧
    (∀ options : INPUT_OPTIONS_FASTQ_READ_STRUCTURE,
      getopt_long argv slideseq_optstring slideseq_long_options = pre ++ e :: post →
      (read_options_fastq_slideseq atof argv options).status = Status.returned ∧
      (read_options_fastq_slideseq atof argv options).stdout =
        (help_text (argv.headD "") slideseq_long_options slideseq_help_messages).map
          Output.text ∧
      (read_options_fastq_slideseq atof argv options).options =
        assign_all (slideseq_assign atof) options pre) := by
  refine ⟨?_, ?_, ?_⟩
  · intro MAX_THREADS fs_exists options hsplit
    rw [read_options_tagsort_usage MAX_THREADS fs_exists argv options pre post e hsplit hpre he]
    exact help_run_fields _ _ _ _ _ _
  · intro options hsplit
    rw [read_options_fastqprocess_usage atof argv options pre post e hsplit hpre he]
    exact help_run_fields _ _ _ _ _ _
  · intro options hsplit
    rw [read_options_fastq_slideseq_usage atof argv options pre post e hsplit hpre he]
    exact help_run_fields _ _ _ _ _ _

/-- C10 (witness): `--compute-metric --nthreads` for `read_options_tagsort`, where
the value of `--nthreads` is missing, and `-v -h` for `read_options_fastqprocess`:
the return of the first flag comes first, then the usage error; the reader
prints the help text and the record holds the assignment of the first flag. -/
theorem c10_usage_error_prints_help_witness :
    (getopt_long ["tagsort", "--compute-metric", "--nthreads"] tagsort_optstring
        tagsort_long_options =
      [{ c := 'm', optarg := none, longindex := some 0, diag := none }] ++
        GetoptReturn.error "tagsort: option \x27--nthreads\x27 requires an argument\n" :: [] ∧
      (read_options_tagsort 30 all_exist ["tagsort", "--compute-metric", "--nthreads"]
        INPUT_OPTIONS_TAGSORT.defaults).status = Status.exited 0 ∧
      (read_options_tagsort 30 all_exist ["tagsort", "--compute-metric", "--nthreads"]
        INPUT_OPTIONS_TAGSORT.defaults).stdout =
          (help_text "tagsort" tagsort_long_options tagsort_help_messages).map Output.text ∧
      (read_options_tagsort 30 all_exist ["tagsort", "--compute-metric", "--nthreads"]
        INPUT_OPTIONS_TAGSORT.defaults).options =
          { INPUT_OPTIONS_TAGSORT.defaults with compute_metric := true }) ∧
    (getopt_long ["fastqprocess", "-v", "-h"] fastqprocess_optstring
        fastqprocess_long_options =
      [{ c := 'v', optarg := none, longindex := none, diag := none }] ++
        GetoptReturn.error "fastqprocess: invalid option -- \x27h\x27\n" :: [] ∧
      (read_options_fastqprocess atof_unused ["fastqprocess", "-v", "-h"]
        INPUT_OPTIONS_FASTQPROCESS.defaults).status = Status.returned ∧
      (read_options_fastqprocess atof_unused ["fastqprocess", "-v", "-h"]
        INPUT_OPTIONS_FASTQPROCESS.defaults).stdout =
          (help_text "fastqprocess" fastqprocess_long_options fastqprocess_help_messages).map
            Output.text ∧
      (read_options_fastqprocess atof_unused ["fastqprocess", "-v", "-h"]
        INPUT_OPTIONS_FASTQPROCESS.defaults).options =
          { INPUT_OPTIONS_FASTQPROCESS.defaults with verbose_flag := true }) :=
  ⟨⟨by decide,
    (c10_usage_error_prints_help atof_unused ["tagsort", "--compute-metric", "--nthreads"]
      [{ c := 'm', optarg := none, longindex := some 0, diag := none }] []
      (GetoptReturn.error "tagsort: option \x27--nthreads\x27 requires an argument\n")
      (by decide) (by decide)).1 30 all_exist INPUT_OPTIONS_TAGSORT.defaults (by decide)⟩,
   ⟨by decide,
    (c10_usage_error_prints_help atof_unused ["fastqprocess", "-v", "-h"]
      [{ c := 'v', optarg := none, longindex := none, diag := none }] []
      (GetoptReturn.error "fastqprocess: invalid option -- \x27h\x27\n")
      (by decide) (by decide)).2.1 INPUT_OPTIONS_FASTQPROCESS.defaults (by decide)⟩⟩

/-! ## The help output -/

theorem has_text_iff (text line : List Char) :
    has_text text line = true ↔ text <:+: line := by
  induction line with
  | nil => simp [has_text, List.isEmpty_iff]
  | cons c cs ih =>
    simp only [has_text, Bool.or_eq_true, ih, List.isPrefixOf_iff_prefix]
    rw [List.infix_cons_iff]

theorem not_contains_text (line text : String) (h : has_text text.data line.data = false) :
    ¬ contains_text line text := by
  intro hc
  rw [(has_text_iff _ _).mpr hc] at h
  exact Bool.noConfusion h

theorem string_append_data (a b : String) : (a ++ b).data = a.data ++ b.data := rfl

theorem help_line_contains (o : LongOption) (msg : String) :
    contains_text (help_line o msg) o.name ∧ contains_text (help_line o msg) (arity_text o) ∧
    contains_text (help_line o msg) msg := by
  have skip : ∀ {t l : List Char} (p : List Char), t <:+: l → t <:+: p ++ l :=
    fun p h => h.trans (List.suffix_append p _).isInfix
  have head : ∀ (t r : List Char), t <:+: t ++ r := fun t r => (List.prefix_append t r).isInfix
  unfold help_line contains_text pad_right arity_text
  simp only [string_append_data, List.append_assoc]
  exact ⟨skip _ (head _ _), skip _ (skip _ (skip _ (skip _ (head _ _)))),
    skip _ (skip _ (skip _ (skip _ (skip _ (skip _ (skip _ (head _ _)))))))⟩

theorem help_table_printed_of_length (prog : String) (long_options : List LongOption)
    (help_messages : List String) (h : help_messages.length = long_options.length) :
    help_table_printed prog long_options help_messages := by
  refine ⟨h, by simp [help_text], by simp [help_text], ?_⟩
  intro i o hi
  have hlt : i < long_options.length := (List.getElem?_eq_some_iff.mp hi).1
  have hlt2 : i < help_messages.length := by omega
  have hc := help_line_contains o help_messages[i]
  refine ⟨help_messages[i], List.getElem?_eq_getElem hlt2, ?_, hc.1, ?_, ?_, hc.2.2⟩
  · simp [help_text, List.getElem?_cons_succ, hi, List.getD_eq_getElem?_getD,
      List.getElem?_eq_getElem hlt2]
  · intro ha
    have := hc.2.1
    simpa [arity_text, ha] using this
  · intro ha
    have := hc.2.1
    simpa [arity_text, ha] using this

set_option maxRecDepth 100000 in
/-- C11 (counterexample): `tagsort -h` prints the help text, whose line for the
value-taking flag `bam-input` reads `required_argument`, with an underscore; no
line of the help output of any of the three commands contains the text
`required argument`. -/
theorem c11_help_prints_required_underscore_argument :
    (read_options_tagsort 30 all_exist ["tagsort", "-h"] INPUT_OPTIONS_TAGSORT.defaults).stdout =
      (help_text "tagsort" tagsort_long_options tagsort_help_messages).map Output.text ∧
    tagsort_long_options[2]? =
      some { name := "bam-input", has_arg := true, val := 'b' } ∧
    (help_text "tagsort" tagsort_long_options tagsort_help_messages)[3]? =
      some "\t--bam-input             required_argument          input bam file [required]          \n" ∧
    (∀ line ∈ help_text "tagsort" tagsort_long_options tagsort_help_messages,
      ¬ contains_text line "required argument") ∧
    (∀ line ∈ help_text "fastqprocess" fastqprocess_long_options fastqprocess_help_messages,
      ¬ contains_text line "required argument") ∧
    (∀ line ∈ help_text "fastq_slideseq" slideseq_long_options slideseq_help_messages,
      ¬ contains_text line "required argument") := by
  refine ⟨by decide, by decide, by decide, ?_, ?_, ?_⟩
  · intro line hl
    exact not_contains_text line _
      ((by decide : ∀ line ∈ help_text "tagsort" tagsort_long_options tagsort_help_messages,
        has_text "required argument".data line.data = false) line hl)
  · intro line hl
    exact not_contains_text line _
      ((by decide : ∀ line ∈ help_text "fastqprocess" fastqprocess_long_options
          fastqprocess_help_messages,
        has_text "required argument".data line.data = false) line hl)
  · intro line hl
    exact not_contains_text line _
      ((by decide : ∀ line ∈ help_text "fastq_slideseq" slideseq_long_options
          slideseq_help_messages,
        has_text "required argument".data line.data = false) line hl)

/-- C11 (amended): in each of the three commands the help output is the usage line
followed by one line for each declared flag, in declaration order; line `i`
contains the long name of flag `i`, the text `no argument` for a no-argument flag
and the text `required_argument` for a value-taking flag, and help sentence `i`.
The help sentence tables have as many entries as the flag tables: 13, 10 and 9. -/
theorem c11_help_lists_every_flag (prog : String) :
    (help_table_printed prog tagsort_long_options tagsort_help_messages ∧
      tagsort_long_options.length = 13 ∧ tagsort_help_messages.length = 13) ∧
    (help_table_printed prog fastqprocess_long_options fastqprocess_help_messages ∧
      fastqprocess_long_options.length = 10 ∧ fastqprocess_help_messages.length = 10) ∧
    (help_table_printed prog slideseq_long_options slideseq_help_messages ∧
      slideseq_long_options.length = 9 ∧ slideseq_help_messages.length = 9) :=
  ⟨⟨help_table_printed_of_length _ _ _ rfl, rfl, rfl⟩,
   ⟨help_table_printed_of_length _ _ _ rfl, rfl, rfl⟩,
   ⟨help_table_printed_of_length _ _ _ rfl, rfl, rfl⟩⟩

/-- C11 (witness): row 2 of the tagsort table, `bam-input`, takes a value; its
help line is line 3 of the output and contains `required_argument`. -/
theorem c11_help_lists_every_flag_witness :
    tagsort_long_options[2]? = some { name := "bam-input", has_arg := true, val := 'b' } ∧
    ∃ msg, tagsort_help_messages[2]? = some msg ∧
      (help_text "tagsort" tagsort_long_options tagsort_help_messages)[2 + 1]? =
        some (help_line { name := "bam-input", has_arg := true, val := 'b' } msg) ∧
      contains_text (help_line { name := "bam-input", has_arg := true, val := 'b' } msg)
        "required_argument" :=
  ⟨rfl,
    match (c11_help_lists_every_flag "tagsort").1.1.2.2.2 2
      { name := "bam-input", has_arg := true, val := 'b' } rfl with
    | ⟨msg, h1, h2, _, _, h5, _⟩ => ⟨msg, h1, h2, h5 rfl⟩⟩

/-! ## Single checks of the tagsort command -/

theorem tagsort_validate_status (MAX_THREADS : Int) (fs_exists : String → Bool)
    (w : World INPUT_OPTIONS_TAGSORT) :
    ((tagsort_validate MAX_THREADS fs_exists w).status = Status.returned ↔
      tagsort_check MAX_THREADS fs_exists w.options = none) ∧
    ((tagsort_validate MAX_THREADS fs_exists w).status = Status.exited 1 ↔
      tagsort_check MAX_THREADS fs_exists w.options ≠ none) := by
  cases h : tagsort_check MAX_THREADS fs_exists w.options with
  | none => rw [tagsort_validate_none _ _ _ h]; simp
  | some msg => rw [tagsort_validate_some _ _ _ _ h]; simp

/-- C12: when neither mode is requested the checks of `read_options_tagsort` end
with status 1 after the message that a choice must be specified, whatever the
other fields are; so does the whole call after parsing without a usage error. -/
theorem c12_no_mode_requested_is_rejected (MAX_THREADS : Int) (fs_exists : String → Bool) :
    (∀ w : World INPUT_OPTIONS_TAGSORT,
      w.options.compute_metric = false → w.options.output_sorted_info = false →
      (tagsort_validate MAX_THREADS fs_exists w).status = Status.exited 1 ∧
      (tagsort_validate MAX_THREADS fs_exists w).stdout = w.stdout ++ [Output.text
        "ERROR: The choice of either the  sorted alignment info or metric computation must be specified\n"]) ∧
    (∀ (argv : List String) (options : INPUT_OPTIONS_TAGSORT),
      (∀ r ∈ getopt_long argv tagsort_optstring tagsort_long_options, r.c ≠ '?') →
      (read_options_tagsort MAX_THREADS fs_exists argv options).options.compute_metric = false →
      (read_options_tagsort MAX_THREADS fs_exists argv options).options.output_sorted_info
        = false →
      (read_options_tagsort MAX_THREADS fs_exists argv options).status = Status.exited 1 ∧
      (read_options_tagsort MAX_THREADS fs_exists argv options).stdout = [Output.text
        "ERROR: The choice of either the  sorted alignment info or metric computation must be specified\n"]) := by
  have key : ∀ w : World INPUT_OPTIONS_TAGSORT,
      w.options.compute_metric = false → w.options.output_sorted_info = false →
      tagsort_check MAX_THREADS fs_exists w.options = some
        "ERROR: The choice of either the  sorted alignment info or metric computation must be specified\n" := by
    intro w h1 h2
    simp [tagsort_check, check_modes, h1, h2]
  constructor
  · intro w h1 h2
    rw [tagsort_validate_some _ _ _ _ (key w h1 h2)]
    exact ⟨rfl, rfl⟩
  · intro argv options h
    rw [read_options_tagsort_parsed MAX_THREADS fs_exists argv options h]
    intro h1 h2
    have hopt : ∀ v : World INPUT_OPTIONS_TAGSORT,
        (tagsort_validate MAX_THREADS fs_exists v).options = v.options := by
      intro v
      cases hv : tagsort_check MAX_THREADS fs_exists v.options with
      | none => rw [tagsort_validate_none _ _ _ hv]
      | some msg => rw [tagsort_validate_some _ _ _ _ hv]
    rw [hopt] at h1 h2
    rw [tagsort_validate_some _ _ _ _ (key _ h1 h2)]
    exact ⟨rfl, rfl⟩

/-- C12 (witness): the initial record, with no mode requested, is rejected. -/
theorem c12_no_mode_requested_is_rejected_witness :
    (World.start INPUT_OPTIONS_TAGSORT.defaults).options.compute_metric = false ∧
    (World.start INPUT_OPTIONS_TAGSORT.defaults).options.output_sorted_info = false ∧
    (tagsort_validate 30 all_exist (World.start INPUT_OPTIONS_TAGSORT.defaults)).status =
      Status.exited 1 :=
  ⟨rfl, rfl,
    ((c12_no_mode_requested_is_rejected 30 all_exist).1
      (World.start INPUT_OPTIONS_TAGSORT.defaults) rfl rfl).1⟩

/-- C13: a metric type that is neither exactly `cell` nor exactly `gene`, the
empty one included, makes the checks of `read_options_tagsort` end with status 1,
whatever the other fields are; when the first check passes the message is the
metric type message.  Other letter case and surrounding blanks are rejected. -/
theorem c13_metric_type_must_be_cell_or_gene (MAX_THREADS : Int)
    (fs_exists : String → Bool) (w : World INPUT_OPTIONS_TAGSORT)
    (hc : w.options.metric_type ≠ "cell") (hg : w.options.metric_type ≠ "gene") :
    (tagsort_validate MAX_THREADS fs_exists w).status = Status.exited 1 ∧
    (check_modes w.options = none →
      (tagsort_validate MAX_THREADS fs_exists w).stdout = w.stdout ++
        [Output.text "ERROR: Metric type must either be \"cell\" or \"gene\"\n"]) ∧
    ("" ≠ "cell" ∧ "" ≠ "gene" ∧ "Cell" ≠ "cell" ∧ "GENE" ≠ "gene" ∧ " cell" ≠ "cell" ∧
      "gene " ≠ "gene") ∧
    check_metric_type w.options =
      some "ERROR: Metric type must either be \"cell\" or \"gene\"\n" := by
  have h2 : check_metric_type w.options =
      some "ERROR: Metric type must either be \"cell\" or \"gene\"\n" := by
    simp [check_metric_type, hc, hg]
  refine ⟨?_, ?_, by decide, h2⟩
  · rw [(tagsort_validate_status _ _ _).2]
    unfold tagsort_check
    cases check_modes w.options <;> simp [h2]
  · intro h1
    have h : tagsort_check MAX_THREADS fs_exists w.options =
        some "ERROR: Metric type must either be \"cell\" or \"gene\"\n" := by
      simp [tagsort_check, h1, h2]
    rw [tagsort_validate_some _ _ _ _ h]

/-- C13 (witness): the initial record has an empty metric type and is
rejected. -/
theorem c13_metric_type_must_be_cell_or_gene_witness :
    (World.start INPUT_OPTIONS_TAGSORT.defaults).options.metric_type = "" ∧
    (tagsort_validate 30 all_exist (World.start INPUT_OPTIONS_TAGSORT.defaults)).status =
      Status.exited 1 :=
  ⟨rfl,
    (c13_metric_type_must_be_cell_or_gene 30 all_exist
      (World.start INPUT_OPTIONS_TAGSORT.defaults) (by decide) (by decide)).1⟩

/-- C14: with metric type `cell` and an empty gtf file the checks of
`read_options_tagsort` end with status 1, and after the first check the message is
the gtf message.  With metric type `gene` and an empty gtf file the two gtf checks
pass, and the call returns exactly when the other checks pass. -/
theorem c14_gtf_file_required_for_cell (MAX_THREADS : Int) (fs_exists : String → Bool)
    (w : World INPUT_OPTIONS_TAGSORT) (hgtf : w.options.gtf_file = "") :
    (w.options.metric_type = "cell" →
      (tagsort_validate MAX_THREADS fs_exists w).status = Status.exited 1 ∧
      (check_modes w.options = none →
        (tagsort_validate MAX_THREADS fs_exists w).stdout = w.stdout ++ [Output.text
          "ERROR: The gtf file name must be provided with metric_type \"cell\"\n"])) ∧
    (w.options.metric_type = "gene" →
      check_metric_type w.options = none ∧ check_gtf_required w.options = none ∧
      check_gtf_not_gzipped w.options = none ∧
      ((tagsort_validate MAX_THREADS fs_exists w).status = Status.returned ↔
        check_modes w.options = none ∧ check_bam_input fs_exists w.options = none ∧
        check_temp_folder fs_exists w.options = none ∧ check_tags w.options = none ∧
        check_alignments w.options = none ∧
        check_nthreads MAX_THREADS w.options = none)) := by
  constructor
  · intro hcell
    have h2 : check_metric_type w.options = none := by
      unfold check_metric_type; rw [hcell]; decide
    have h3 : check_gtf_required w.options =
        some "ERROR: The gtf file name must be provided with metric_type \"cell\"\n" := by
      simp [check_gtf_required, hcell, hgtf]
    constructor
    · rw [(tagsort_validate_status _ _ _).2]
      unfold tagsort_check
      cases check_modes w.options <;> simp [h2, h3]
    · intro h1
      have h : tagsort_check MAX_THREADS fs_exists w.options =
          some "ERROR: The gtf file name must be provided with metric_type \"cell\"\n" := by
        simp [tagsort_check, h1, h2, h3]
      rw [tagsort_validate_some _ _ _ _ h]
  · intro hgene
    have h2 : check_metric_type w.options = none := by
      unfold check_metric_type; rw [hgene]; decide
    have h3 : check_gtf_required w.options = none := by
      simp [check_gtf_required, hgene]
    have h4 : check_gtf_not_gzipped w.options = none := by
      have : regex_search_gz w.options.gtf_file = false := by rw [hgtf]; decide
      simp [check_gtf_not_gzipped, this]
    refine ⟨h2, h3, h4, ?_⟩
    rw [(tagsort_validate_status _ _ _).1]
    unfold tagsort_check
    rw [h2, h3, h4]
    cases check_modes w.options <;> cases check_bam_input fs_exists w.options <;>
      cases check_temp_folder fs_exists w.options <;> cases check_tags w.options <;>
      cases check_alignments w.options <;> simp

/-- C14 (witness): a valid record with metric type `gene` and no gtf file
returns; the same record with metric type `cell` is rejected. -/
theorem c14_gtf_file_required_for_cell_witness :
    (tagsort_validate 30 all_exist (World.start valid_tagsort_options)).status =
      Status.returned ∧
    (tagsort_validate 30 all_exist
      (World.start { valid_tagsort_options with metric_type := "cell" })).status =
      Status.exited 1 :=
  ⟨(((c14_gtf_file_required_for_cell 30 all_exist (World.start valid_tagsort_options) rfl).2
      rfl).2.2.2).mpr (by decide),
   ((c14_gtf_file_required_for_cell 30 all_exist
      (World.start { valid_tagsort_options with metric_type := "cell" }) rfl).1 rfl).1⟩

/-- C15: when the checks 1 to 7 and 9 pass, the checks of `read_options_tagsort`
pass exactly when `alignments_per_thread >= 1000`, and otherwise end with status
1 after the message `at least 1000`; 999 fails and 1000 passes. -/
theorem c15_alignments_per_thread_boundary (MAX_THREADS : Int) (fs_exists : String → Bool)
    (w : World INPUT_OPTIONS_TAGSORT)
    (h17 : checks_before_alignments_pass fs_exists w.options)
    (h9 : check_nthreads MAX_THREADS w.options = none) :
    ((tagsort_validate MAX_THREADS fs_exists w).status = Status.returned ↔
      1000 ≤ w.options.alignments_per_thread) ∧
    (w.options.alignments_per_thread < 1000 →
      (tagsort_validate MAX_THREADS fs_exists w).status = Status.exited 1 ∧
      (tagsort_validate MAX_THREADS fs_exists w).stdout = w.stdout ++ [Output.text
        "ERROR: The number of alignments per thread must be at least 1000\n"]) ∧
    (w.options.alignments_per_thread = 999 →
      (tagsort_validate MAX_THREADS fs_exists w).status = Status.exited 1) ∧
    (w.options.alignments_per_thread = 1000 →
      (tagsort_validate MAX_THREADS fs_exists w).status = Status.returned) := by
  obtain ⟨h1, h2, h3, h4, h5, h6, h7⟩ := h17
  have hlt : w.options.alignments_per_thread < 1000 →
      tagsort_check MAX_THREADS fs_exists w.options =
        some "ERROR: The number of alignments per thread must be at least 1000\n" := by
    intro h
    simp [tagsort_check, h1, h2, h3, h4, h5, h6, h7, check_alignments, h]
  have hge : 1000 ≤ w.options.alignments_per_thread →
      tagsort_check MAX_THREADS fs_exists w.options = none := by
    intro h
    have : ¬ w.options.alignments_per_thread < 1000 := not_lt.mpr h
    simp [tagsort_check, h1, h2, h3, h4, h5, h6, h7, check_alignments, this, h9]
  have hfail : w.options.alignments_per_thread < 1000 →
      (tagsort_validate MAX_THREADS fs_exists w).status = Status.exited 1 ∧
      (tagsort_validate MAX_THREADS fs_exists w).stdout = w.stdout ++ [Output.text
        "ERROR: The number of alignments per thread must be at least 1000\n"] := by
    intro h
    rw [tagsort_validate_some _ _ _ _ (hlt h)]
    exact ⟨rfl, rfl⟩
  have hpass : 1000 ≤ w.options.alignments_per_thread →
      (tagsort_validate MAX_THREADS fs_exists w).status = Status.returned := by
    intro h
    rw [tagsort_validate_none _ _ _ (hge h)]
  refine ⟨⟨fun hr => ?_, hpass⟩, hfail, fun h => (hfail (by omega)).1, fun h => hpass (by omega)⟩
  by_contra hn
  rw [(hfail (not_le.mp hn)).1] at hr
  exact Status.noConfusion hr

/-- C15 (witness): a valid record with 999 alignments per thread is rejected and
with 1000 it is accepted. -/
theorem c15_alignments_per_thread_boundary_witness :
    (tagsort_validate 30 all_exist
      (World.start { valid_tagsort_options with alignments_per_thread := 999 })).status =
      Status.exited 1 ∧
    (tagsort_validate 30 all_exist
      (World.start { valid_tagsort_options with alignments_per_thread := 1000 })).status =
      Status.returned :=
  ⟨(c15_alignments_per_thread_boundary 30 all_exist
      (World.start { valid_tagsort_options with alignments_per_thread := 999 })
      (by unfold checks_before_alignments_pass; decide) (by decide)).2.2.1 rfl,
   (c15_alignments_per_thread_boundary 30 all_exist
      (World.start { valid_tagsort_options with alignments_per_thread := 1000 })
      (by unfold checks_before_alignments_pass; decide) (by decide)).2.2.2 rfl⟩

/-- C16: when the checks 1 to 8 pass, the checks of `read_options_tagsort` pass
exactly when `1 <= nthreads <= MAX_THREADS`, and otherwise end with status 1
after the message `ERROR: The number of threads must be between 1 and` followed
by `MAX_THREADS`; `nthreads = 0` and `nthreads = MAX_THREADS + 1` fail, and, for a
`MAX_THREADS` of at least 1, `nthreads = 1` and `nthreads = MAX_THREADS` pass. -/
theorem c16_nthreads_boundary (MAX_THREADS : Int) (fs_exists : String → Bool)
    (w : World INPUT_OPTIONS_TAGSORT)
    (h17 : checks_before_alignments_pass fs_exists w.options)
    (h8 : check_alignments w.options = none) :
    ((tagsort_validate MAX_THREADS fs_exists w).status = Status.returned ↔
      1 ≤ w.options.nthreads ∧ w.options.nthreads ≤ MAX_THREADS) ∧
    (¬ (1 ≤ w.options.nthreads ∧ w.options.nthreads ≤ MAX_THREADS) →
      (tagsort_validate MAX_THREADS fs_exists w).status = Status.exited 1 ∧
      (tagsort_validate MAX_THREADS fs_exists w).stdout = w.stdout ++ [Output.text
        ("ERROR: The number of threads must be between 1 and " ++ toString MAX_THREADS ++
          "\n")]) ∧
    (w.options.nthreads = 0 →
      (tagsort_validate MAX_THREADS fs_exists w).status = Status.exited 1 ∧
      (tagsort_validate MAX_THREADS fs_exists w).stdout = w.stdout ++ [Output.text
        ("ERROR: The number of threads must be between 1 and " ++ toString MAX_THREADS ++
          "\n")]) ∧
    (w.options.nthreads = MAX_THREADS + 1 →
      (tagsort_validate MAX_THREADS fs_exists w).status = Status.exited 1 ∧
      (tagsort_validate MAX_THREADS fs_exists w).stdout = w.stdout ++ [Output.text
        ("ERROR: The number of threads must be between 1 and " ++ toString MAX_THREADS ++
          "\n")]) ∧
    (1 ≤ MAX_THREADS → w.options.nthreads = 1 →
      (tagsort_validate MAX_THREADS fs_exists w).status = Status.returned) ∧
    (1 ≤ MAX_THREADS → w.options.nthreads = MAX_THREADS →
      (tagsort_validate MAX_THREADS fs_exists w).status = Status.returned) := by
  obtain ⟨h1, h2, h3, h4, h5, h6, h7⟩ := h17
  have hbad : ¬ (1 ≤ w.options.nthreads ∧ w.options.nthreads ≤ MAX_THREADS) →
      tagsort_check MAX_THREADS fs_exists w.options =
        some ("ERROR: The number of threads must be between 1 and " ++ toString MAX_THREADS ++
          "\n") := by
    intro h
    have hc : w.options.nthreads > MAX_THREADS ∨ w.options.nthreads < 1 := by omega
    simp only [tagsort_check, h1, h2, h3, h4, h5, h6, h7, h8, check_nthreads, if_pos hc]
  have hgood : 1 ≤ w.options.nthreads ∧ w.options.nthreads ≤ MAX_THREADS →
      tagsort_check MAX_THREADS fs_exists w.options = none := by
    intro h
    have hc : ¬ (w.options.nthreads > MAX_THREADS ∨ w.options.nthreads < 1) := by omega
    simp only [tagsort_check, h1, h2, h3, h4, h5, h6, h7, h8, check_nthreads, if_neg hc]
  have hfail : ¬ (1 ≤ w.options.nthreads ∧ w.options.nthreads ≤ MAX_THREADS) →
      (tagsort_validate MAX_THREADS fs_exists w).status = Status.exited 1 ∧
      (tagsort_validate MAX_THREADS fs_exists w).stdout = w.stdout ++ [Output.text
        ("ERROR: The number of threads must be between 1 and " ++ toString MAX_THREADS ++
          "\n")] := by
    intro h
    rw [tagsort_validate_some _ _ _ _ (hbad h)]
    exact ⟨rfl, rfl⟩
  have hpass : 1 ≤ w.options.nthreads ∧ w.options.nthreads ≤ MAX_THREADS →
      (tagsort_validate MAX_THREADS fs_exists w).status = Status.returned := by
    intro h
    rw [tagsort_validate_none _ _ _ (hgood h)]
  refine ⟨⟨fun hr => ?_, hpass⟩, hfail, fun h => hfail (by omega), fun h => hfail (by omega),
    fun hm h => hpass (by omega), fun hm h => hpass (by omega)⟩
  by_contra hn
  rw [(hfail hn).1] at hr
  exact Status.noConfusion hr

/-- C16 (witness): with `MAX_THREADS = 30`, a valid record is rejected with 0 and
with 31 threads, after the message ending in `between 1 and 30`, and accepted
with 1 and with 30 threads. -/
theorem c16_nthreads_boundary_witness :
    ((tagsort_validate 30 all_exist
        (World.start { valid_tagsort_options with nthreads := 0 })).status = Status.exited 1 ∧
      (tagsort_validate 30 all_exist
        (World.start { valid_tagsort_options with nthreads := 0 })).stdout =
        [Output.text "ERROR: The number of threads must be between 1 and 30\n"]) ∧
    ((tagsort_validate 30 all_exist
        (World.start { valid_tagsort_options with nthreads := 30 + 1 })).status =
        Status.exited 1 ∧
      (tagsort_validate 30 all_exist
        (World.start { valid_tagsort_options with nthreads := 30 + 1 })).stdout =
        [Output.text "ERROR: The number of threads must be between 1 and 30\n"]) ∧
    (tagsort_validate 30 all_exist
      (World.start { valid_tagsort_options with nthreads := 1 })).status = Status.returned ∧
    (tagsort_validate 30 all_exist
      (World.start { valid_tagsort_options with nthreads := 30 })).status = Status.returned :=
  ⟨(c16_nthreads_boundary 30 all_exist
      (World.start { valid_tagsort_options with nthreads := 0 })
      (by unfold checks_before_alignments_pass; decide) (by decide)).2.2.1 rfl,
   (c16_nthreads_boundary 30 all_exist
      (World.start { valid_tagsort_options with nthreads := 30 + 1 })
      (by unfold checks_before_alignments_pass; decide) (by decide)).2.2.2.1 rfl,
   (c16_nthreads_boundary 30 all_exist
      (World.start { valid_tagsort_options with nthreads := 1 })
      (by unfold checks_before_alignments_pass; decide) (by decide)).2.2.2.2.1
      (by decide) rfl,
   (c16_nthreads_boundary 30 all_exist
      (World.start { valid_tagsort_options with nthreads := 30 })
      (by unfold checks_before_alignments_pass; decide) (by decide)).2.2.2.2.2
      (by decide) rfl⟩

/-! ## The two FASTQ validators compared -/

/-- C18: for a fastqprocess record and a read-structure record that agree on the
three file lists, `bam_size`, `sample_id` and `output_format`, the first with
positive `barcode_length` and `umi_length` and the second with a non-empty
`read_structure`, the two validators end with the same status, so one rejects
exactly when the other does, and they write the same messages.  A read-structure
record with an empty `read_structure` is always rejected with status 1, with the
read structure message among the messages. -/
theorem c18_slideseq_validator_substitutes_read_structure
    (wf : World INPUT_OPTIONS_FASTQPROCESS) (ws : World INPUT_OPTIONS_FASTQ_READ_STRUCTURE)
    (hR1 : wf.options.R1s = ws.options.R1s) (hR2 : wf.options.R2s = ws.options.R2s)
    (hI1 : wf.options.I1s = ws.options.I1s) (hbam : wf.options.bam_size = ws.options.bam_size)
    (hid : wf.options.sample_id = ws.options.sample_id)
    (hfmt : wf.options.output_format = ws.options.output_format)
    (hb : 0 < wf.options.barcode_length) (hu : 0 < wf.options.umi_length)
    (hrs : ws.options.read_structure ≠ "") :
    ((fastqprocess_validate false wf).status = Status.exited 1 ↔
      (slideseq_validate false ws).status = Status.exited 1) ∧
    ((fastqprocess_validate false wf).status = Status.returned ↔
      (slideseq_validate false ws).status = Status.returned) ∧
    fastqprocess_violations wf.options = slideseq_violations ws.options ∧
    (∀ v : World INPUT_OPTIONS_FASTQ_READ_STRUCTURE, v.options.read_structure = "" →
      (slideseq_validate false v).status = Status.exited 1 ∧
      Output.text "ERROR: Must provide read structures\n" ∈
        (slideseq_validate false v).stdout) := by
  have hrules : fastqprocess_passes wf.options ↔ slideseq_passes ws.options := by
    unfold fastqprocess_passes slideseq_passes
    rw [hR1, hR2, hI1, hbam, hid, hfmt]
    constructor
    · rintro ⟨a1, a2, a3, a4, a5, a6, _, _⟩
      exact ⟨a1, a2, a3, a4, a5, a6, hrs⟩
    · rintro ⟨a1, a2, a3, a4, a5, a6, _⟩
      exact ⟨a1, a2, a3, a4, a5, a6, hb, hu⟩
  refine ⟨?_, ?_, ?_, ?_⟩
  · rw [fastqprocess_validate_exited, slideseq_validate_exited, hrules]
  · rw [fastqprocess_validate_returned, slideseq_validate_returned, hrules]
  · unfold fastqprocess_violations slideseq_violations
    rw [hR1, hR2, hI1, hbam, hid, hfmt]
    simp [violation, hb, hu, hrs]
  · intro v hv
    constructor
    · rw [slideseq_validate_exited]
      intro hr
      exact hr.2.2.2.2.2.2 hv
    · rw [slideseq_validate_stdout]
      simp [slideseq_violations, violation, hv]

/-- C18 (witness): the two valid records agree and are both accepted. -/
theorem c18_slideseq_validator_substitutes_read_structure_witness :
    (fastqprocess_validate false (World.start valid_fastqprocess_options)).status =
      Status.returned ∧
    (slideseq_validate false (World.start valid_slideseq_options)).status =
      Status.returned :=
  ⟨by decide,
    (c18_slideseq_validator_substitutes_read_structure
      (World.start valid_fastqprocess_options) (World.start valid_slideseq_options)
      rfl rfl rfl rfl rfl rfl (by decide) (by decide) (by decide)).2.1.mp (by decide)⟩

/-! ## The loop as a fold over the flags -/

theorem tagsort_assign_fields (o : INPUT_OPTIONS_TAGSORT) (c : Char) (a : String) :
    (tagsort_assign o c a).getD o =
      { bam_input := if c = 'b' then a else o.bam_input,
        gtf_file := if c = 'a' then a else o.gtf_file,
        temp_folder := if c = 't' then a else o.temp_folder,
        sorted_output_file := if c = 'o' then a else o.sorted_output_file,
        metric_output_file := if c = 'M' then a else o.metric_output_file,
        alignments_per_thread := if c = 'p' then atoi a else o.alignments_per_thread,
        nthreads := if c = 'T' then atoi a else o.nthreads,
        barcode_tag := if c = 'C' then a else o.barcode_tag,
        umi_tag := if c = 'U' then a else o.umi_tag,
        gene_tag := if c = 'G' then a else o.gene_tag,
        metric_type := if c = 'K' then a else o.metric_type,
        compute_metric := if c = 'm' then true else o.compute_metric,
        output_sorted_info := if c = 'n' then true else o.output_sorted_info,
        tag_order := if c = 'C' ∨ c = 'U' ∨ c = 'G' then record_tag o.tag_order a
          else o.tag_order } := by
  by_cases h109 : c = 'm'
  · subst h109; rfl
  by_cases h110 : c = 'n'
  · subst h110; rfl
  by_cases h98 : c = 'b'
  · subst h98; rfl
  by_cases h97 : c = 'a'
  · subst h97; rfl
  by_cases h116 : c = 't'
  · subst h116; rfl
  by_cases h111 : c = 'o'
  · subst h111; rfl
  by_cases h77 : c = 'M'
  · subst h77; rfl
  by_cases h112 : c = 'p'
  · subst h112; rfl
  by_cases h84 : c = 'T'
  · subst h84; rfl
  by_cases h67 : c = 'C'
  · subst h67; rfl
  by_cases h85 : c = 'U'
  · subst h85; rfl
  by_cases h71 : c = 'G'
  · subst h71; rfl
  by_cases h75 : c = 'K'
  · subst h75; rfl
  have htag : ¬ (c = 'C' ∨ c = 'U' ∨ c = 'G') := by
    rintro (h | h | h)
    · exact h67 h
    · exact h85 h
    · exact h71 h
  unfold tagsort_assign
  simp only [if_neg h109, if_neg h110, if_neg h98, if_neg h97, if_neg h116, if_neg h111, if_neg h77, if_neg h112, if_neg h84, if_neg h67, if_neg h85, if_neg h71, if_neg h75, if_neg htag, Option.getD_none]

theorem fastqprocess_assign_fields (atof : String → double) (o : INPUT_OPTIONS_FASTQPROCESS)
    (c : Char) (a : String) :
    (fastqprocess_assign atof o c a).getD o =
      { I1s := if c = 'I' then o.I1s ++ [a] else o.I1s,
        R1s := if c = 'R' then o.R1s ++ [a] else o.R1s,
        R2s := if c = 'r' then o.R2s ++ [a] else o.R2s,
        white_list_file := if c = 'w' then a else o.white_list_file,
        output_format := if c = 'F' then a else o.output_format,
        barcode_length := if c = 'b' then atoi a else o.barcode_length,
        umi_length := if c = 'u' then atoi a else o.umi_length,
        bam_size := if c = 'B' then atof a else o.bam_size,
        sample_id := if c = 's' then a else o.sample_id,
        verbose_flag := if c = 'v' then true else o.verbose_flag } := by
  by_cases h118 : c = 'v'
  · subst h118; rfl
  by_cases h98 : c = 'b'
  · subst h98; rfl
  by_cases h117 : c = 'u'
  · subst h117; rfl
  by_cases h66 : c = 'B'
  · subst h66; rfl
  by_cases h115 : c = 's'
  · subst h115; rfl
  by_cases h73 : c = 'I'
  · subst h73; rfl
  by_cases h82 : c = 'R'
  · subst h82; rfl
  by_cases h114 : c = 'r'
  · subst h114; rfl
  by_cases h119 : c = 'w'
  · subst h119; rfl
  by_cases h70 : c = 'F'
  · subst h70; rfl
  unfold fastqprocess_assign
  simp only [if_neg h118, if_neg h98, if_neg h117, if_neg h66, if_neg h115, if_neg h73, if_neg h82, if_neg h114, if_neg h119, if_neg h70, Option.getD_none]

theorem slideseq_assign_fields (atof : String → double) (o : INPUT_OPTIONS_FASTQ_READ_STRUCTURE)
    (c : Char) (a : String) :
    (slideseq_assign atof o c a).getD o =
      { I1s := if c = 'I' then o.I1s ++ [a] else o.I1s,
        R1s := if c = 'R' then o.R1s ++ [a] else o.R1s,
        R2s := if c = 'r' then o.R2s ++ [a] else o.R2s,
        white_list_file := if c = 'w' then a else o.white_list_file,
        output_format := if c = 'F' then a else o.output_format,
        read_structure := if c = 'S' then a else o.read_structure,
        bam_size := if c = 'B' then atof a else o.bam_size,
        sample_id := if c = 's' then a else o.sample_id,
        verbose_flag := if c = 'v' then true else o.verbose_flag } := by
  by_cases h118 : c = 'v'
  · subst h118; rfl
  by_cases h66 : c = 'B'
  · subst h66; rfl
  by_cases h83 : c = 'S'
  · subst h83; rfl
  by_cases h115 : c = 's'
  · subst h115; rfl
  by_cases h73 : c = 'I'
  · subst h73; rfl
  by_cases h82 : c = 'R'
  · subst h82; rfl
  by_cases h114 : c = 'r'
  · subst h114; rfl
  by_cases h119 : c = 'w'
  · subst h119; rfl
  by_cases h70 : c = 'F'
  · subst h70; rfl
  unfold slideseq_assign
  simp only [if_neg h118, if_neg h66, if_neg h83, if_neg h115, if_neg h73, if_neg h82, if_neg h114, if_neg h119, if_neg h70, Option.getD_none]

theorem getLast_cons_getD {β : Type} (x : String) (l : List String) (value : String → β)
    (d : β) :
    ((x :: l).getLast?.map value).getD d = (l.getLast?.map value).getD (value x) := by
  cases l with
  | nil => rfl
  | cons y l =>
    rw [List.getLast?_cons_cons]
    cases hl : (y :: l).getLast? with
    | none => simp at hl
    | some z => rfl

theorem fold_last {α β : Type} (assign : α → Char → String → Option α) (field : α → β)
    (c : Char) (value : String → β)
    (h : ∀ o c0 a, field ((assign o c0 a).getD o) = if c0 = c then value a else field o) :
    ∀ (rs : List GetoptReturn) (o : α),
      field (assign_all assign o rs) = last_or c value (field o) rs := by
  intro rs
  induction rs with
  | nil => intro o; rfl
  | cons r rs ih =>
    intro o
    have hcons : assign_all assign o (r :: rs) =
        assign_all assign ((assign o r.c (r.optarg.getD "")).getD o) rs := rfl
    rw [hcons, ih, h]
    unfold last_or flag_values
    by_cases hc : r.c = c
    · simp only [hc, if_true, List.filter_cons, decide_True, List.map_cons]
      rw [getLast_cons_getD]
    · simp only [hc, if_false, List.filter_cons, decide_False]
      rfl

theorem fold_append {α : Type} (assign : α → Char → String → Option α)
    (field : α → List String) (c : Char)
    (h : ∀ o c0 a, field ((assign o c0 a).getD o) =
      if c0 = c then field o ++ [a] else field o) :
    ∀ (rs : List GetoptReturn) (o : α),
      field (assign_all assign o rs) = field o ++ flag_values c rs := by
  intro rs
  induction rs with
  | nil => intro o; simp [assign_all, flag_values]
  | cons r rs ih =>
    intro o
    have hcons : assign_all assign o (r :: rs) =
        assign_all assign ((assign o r.c (r.optarg.getD "")).getD o) rs := rfl
    rw [hcons, ih, h]
    unfold flag_values
    by_cases hc : r.c = c
    · simp [hc, List.filter_cons]
    · simp [hc, List.filter_cons]

theorem fold_tags {α : Type} (assign : α → Char → String → Option α)
    (field : α → TagOrder)
    (h : ∀ o c0 a, field ((assign o c0 a).getD o) =
      if c0 = 'C' ∨ c0 = 'U' ∨ c0 = 'G' then record_tag (field o) a else field o) :
    ∀ (rs : List GetoptReturn) (o : α),
      field (assign_all assign o rs) = (tag_values rs).foldl record_tag (field o) := by
  intro rs
  induction rs with
  | nil => intro o; rfl
  | cons r rs ih =>
    intro o
    have hcons : assign_all assign o (r :: rs) =
        assign_all assign ((assign o r.c (r.optarg.getD "")).getD o) rs := rfl
    rw [hcons, ih, h]
    unfold tag_values
    by_cases hc : r.c = 'C' ∨ r.c = 'U' ∨ r.c = 'G'
    · simp [hc, List.filter_cons]
    · simp [hc, List.filter_cons]

theorem tagsort_options_ext (x y : INPUT_OPTIONS_TAGSORT)
    (h0 : x.bam_input = y.bam_input)
    (h1 : x.gtf_file = y.gtf_file)
    (h2 : x.temp_folder = y.temp_folder)
    (h3 : x.sorted_output_file = y.sorted_output_file)
    (h4 : x.metric_output_file = y.metric_output_file)
    (h5 : x.alignments_per_thread = y.alignments_per_thread)
    (h6 : x.nthreads = y.nthreads)
    (h7 : x.barcode_tag = y.barcode_tag)
    (h8 : x.umi_tag = y.umi_tag)
    (h9 : x.gene_tag = y.gene_tag)
    (h10 : x.metric_type = y.metric_type)
    (h11 : x.compute_metric = y.compute_metric)
    (h12 : x.output_sorted_info = y.output_sorted_info)
    (h13 : x.tag_order = y.tag_order) : x = y := by
  cases x
  cases y
  simp only [INPUT_OPTIONS_TAGSORT.mk.injEq]
  exact ⟨h0, h1, h2, h3, h4, h5, h6, h7, h8, h9, h10, h11, h12, h13⟩

theorem fastqprocess_options_ext (x y : INPUT_OPTIONS_FASTQPROCESS)
    (h0 : x.I1s = y.I1s)
    (h1 : x.R1s = y.R1s)
    (h2 : x.R2s = y.R2s)
    (h3 : x.white_list_file = y.white_list_file)
    (h4 : x.output_format = y.output_format)
    (h5 : x.barcode_length = y.barcode_length)
    (h6 : x.umi_length = y.umi_length)
    (h7 : x.bam_size = y.bam_size)
    (h8 : x.sample_id = y.sample_id)
    (h9 : x.verbose_flag = y.verbose_flag) : x = y := by
  cases x
  cases y
  simp only [INPUT_OPTIONS_FASTQPROCESS.mk.injEq]
  exact ⟨h0, h1, h2, h3, h4, h5, h6, h7, h8, h9⟩

theorem slideseq_options_ext (x y : INPUT_OPTIONS_FASTQ_READ_STRUCTURE)
    (h0 : x.I1s = y.I1s)
    (h1 : x.R1s = y.R1s)
    (h2 : x.R2s = y.R2s)
    (h3 : x.white_list_file = y.white_list_file)
    (h4 : x.output_format = y.output_format)
    (h5 : x.read_structure = y.read_structure)
    (h6 : x.bam_size = y.bam_size)
    (h7 : x.sample_id = y.sample_id)
    (h8 : x.verbose_flag = y.verbose_flag) : x = y := by
  cases x
  cases y
  simp only [INPUT_OPTIONS_FASTQ_READ_STRUCTURE.mk.injEq]
  exact ⟨h0, h1, h2, h3, h4, h5, h6, h7, h8⟩

/-- The record `read_options_tagsort` has built when its loop ends: every scalar
field holds the value of the last occurrence of its flag, or its initial value,
and `tag_order` is built from the values of the three tag flags in argument
order. -/
theorem tagsort_assign_all_fields (o : INPUT_OPTIONS_TAGSORT) (rs : List GetoptReturn) :
    assign_all tagsort_assign o rs = tagsort_last_wins o rs := by
  unfold tagsort_last_wins
  apply tagsort_options_ext
  · exact fold_last tagsort_assign (fun o => o.bam_input) 'b' id
      (fun o c a => by rw [tagsort_assign_fields]; rfl) rs o
  · exact fold_last tagsort_assign (fun o => o.gtf_file) 'a' id
      (fun o c a => by rw [tagsort_assign_fields]; rfl) rs o
  · exact fold_last tagsort_assign (fun o => o.temp_folder) 't' id
      (fun o c a => by rw [tagsort_assign_fields]; rfl) rs o
  · exact fold_last tagsort_assign (fun o => o.sorted_output_file) 'o' id
      (fun o c a => by rw [tagsort_assign_fields]; rfl) rs o
  · exact fold_last tagsort_assign (fun o => o.metric_output_file) 'M' id
      (fun o c a => by rw [tagsort_assign_fields]; rfl) rs o
  · exact fold_last tagsort_assign (fun o => o.alignments_per_thread) 'p' atoi
      (fun o c a => by rw [tagsort_assign_fields]) rs o
  · exact fold_last tagsort_assign (fun o => o.nthreads) 'T' atoi
      (fun o c a => by rw [tagsort_assign_fields]) rs o
  · exact fold_last tagsort_assign (fun o => o.barcode_tag) 'C' id
      (fun o c a => by rw [tagsort_assign_fields]; rfl) rs o
  · exact fold_last tagsort_assign (fun o => o.umi_tag) 'U' id
      (fun o c a => by rw [tagsort_assign_fields]; rfl) rs o
  · exact fold_last tagsort_assign (fun o => o.gene_tag) 'G' id
      (fun o c a => by rw [tagsort_assign_fields]; rfl) rs o
  · exact fold_last tagsort_assign (fun o => o.metric_type) 'K' id
      (fun o c a => by rw [tagsort_assign_fields]; rfl) rs o
  · exact fold_last tagsort_assign (fun o => o.compute_metric) 'm' (fun _ => true)
      (fun o c a => by rw [tagsort_assign_fields]) rs o
  · exact fold_last tagsort_assign (fun o => o.output_sorted_info) 'n' (fun _ => true)
      (fun o c a => by rw [tagsort_assign_fields]) rs o
  · exact fold_tags tagsort_assign (fun o => o.tag_order)
      (fun o c a => by rw [tagsort_assign_fields]) rs o

/-- The record the reader has built when its loop ends: every list field holds
its initial content followed by the values of its flag in argument order, and
every scalar field the value of the last occurrence of its flag, or its initial
value. -/
theorem fastqprocess_assign_all_fields (atof : String → double) (o : INPUT_OPTIONS_FASTQPROCESS)
    (rs : List GetoptReturn) :
    assign_all (fastqprocess_assign atof) o rs = fastqprocess_last_wins atof o rs := by
  unfold fastqprocess_last_wins
  apply fastqprocess_options_ext
  · exact fold_append (fastqprocess_assign atof) (fun o => o.I1s) 'I'
      (fun o c a => by rw [fastqprocess_assign_fields]) rs o
  · exact fold_append (fastqprocess_assign atof) (fun o => o.R1s) 'R'
      (fun o c a => by rw [fastqprocess_assign_fields]) rs o
  · exact fold_append (fastqprocess_assign atof) (fun o => o.R2s) 'r'
      (fun o c a => by rw [fastqprocess_assign_fields]) rs o
  · exact fold_last (fastqprocess_assign atof) (fun o => o.white_list_file) 'w' id
      (fun o c a => by rw [fastqprocess_assign_fields]; rfl) rs o
  · exact fold_last (fastqprocess_assign atof) (fun o => o.output_format) 'F' id
      (fun o c a => by rw [fastqprocess_assign_fields]; rfl) rs o
  · exact fold_last (fastqprocess_assign atof) (fun o => o.barcode_length) 'b' atoi
      (fun o c a => by rw [fastqprocess_assign_fields]) rs o
  · exact fold_last (fastqprocess_assign atof) (fun o => o.umi_length) 'u' atoi
      (fun o c a => by rw [fastqprocess_assign_fields]) rs o
  · exact fold_last (fastqprocess_assign atof) (fun o => o.bam_size) 'B' atof
      (fun o c a => by rw [fastqprocess_assign_fields]) rs o
  · exact fold_last (fastqprocess_assign atof) (fun o => o.sample_id) 's' id
      (fun o c a => by rw [fastqprocess_assign_fields]; rfl) rs o
  · exact fold_last (fastqprocess_assign atof) (fun o => o.verbose_flag) 'v' (fun _ => true)
      (fun o c a => by rw [fastqprocess_assign_fields]) rs o

/-- The record the reader has built when its loop ends: every list field holds
its initial content followed by the values of its flag in argument order, and
every scalar field the value of the last occurrence of its flag, or its initial
value. -/
theorem slideseq_assign_all_fields (atof : String → double) (o : INPUT_OPTIONS_FASTQ_READ_STRUCTURE)
    (rs : List GetoptReturn) :
    assign_all (slideseq_assign atof) o rs = slideseq_last_wins atof o rs := by
  unfold slideseq_last_wins
  apply slideseq_options_ext
  · exact fold_append (slideseq_assign atof) (fun o => o.I1s) 'I'
      (fun o c a => by rw [slideseq_assign_fields]) rs o
  · exact fold_append (slideseq_assign atof) (fun o => o.R1s) 'R'
      (fun o c a => by rw [slideseq_assign_fields]) rs o
  · exact fold_append (slideseq_assign atof) (fun o => o.R2s) 'r'
      (fun o c a => by rw [slideseq_assign_fields]) rs o
  · exact fold_last (slideseq_assign atof) (fun o => o.white_list_file) 'w' id
      (fun o c a => by rw [slideseq_assign_fields]; rfl) rs o
  · exact fold_last (slideseq_assign atof) (fun o => o.output_format) 'F' id
      (fun o c a => by rw [slideseq_assign_fields]; rfl) rs o
  · exact fold_last (slideseq_assign atof) (fun o => o.read_structure) 'S' id
      (fun o c a => by rw [slideseq_assign_fields]; rfl) rs o
  · exact fold_last (slideseq_assign atof) (fun o => o.bam_size) 'B' atof
      (fun o c a => by rw [slideseq_assign_fields]) rs o
  · exact fold_last (slideseq_assign atof) (fun o => o.sample_id) 's' id
      (fun o c a => by rw [slideseq_assign_fields]; rfl) rs o
  · exact fold_last (slideseq_assign atof) (fun o => o.verbose_flag) 'v' (fun _ => true)
      (fun o c a => by rw [slideseq_assign_fields]) rs o

/-! ## The map `tag_order` -/

theorem assign_keys (m : TagOrder) (k : String) (v : Nat) :
    (TagOrder.assign m k v).map Prod.fst =
      if k ∈ m.map Prod.fst then m.map Prod.fst else m.map Prod.fst ++ [k] := by
  induction m with
  | nil => simp [TagOrder.assign]
  | cons p m ih =>
    obtain ⟨k0, v0⟩ := p
    unfold TagOrder.assign
    by_cases h : k0 = k
    · simp [h]
    · have hne : ¬ k = k0 := fun e => h e.symm
      simp only [h, if_false, List.map_cons, ih, List.mem_cons, hne, false_or]
      split <;> simp

theorem assign_not_mem (m : TagOrder) (k : String) (v : Nat) (h : k ∉ m.map Prod.fst) :
    TagOrder.assign m k v = m ++ [(k, v)] := by
  induction m with
  | nil => rfl
  | cons p m ih =>
    obtain ⟨k0, v0⟩ := p
    simp only [List.map_cons, List.mem_cons, not_or] at h
    unfold TagOrder.assign
    have hne : ¬ k0 = k := fun e => h.1 e.symm
    simp [hne, ih h.2]

/-- Folding tag values into a map keeps its keys distinct, and every key is an
old key or one of the values. -/
theorem fold_record_tag_keys (vs : List String) :
    ∀ m : TagOrder, (m.map Prod.fst).Nodup →
      ((vs.foldl record_tag m).map Prod.fst).Nodup ∧
      ∀ k ∈ (vs.foldl record_tag m).map Prod.fst, k ∈ m.map Prod.fst ∨ k ∈ vs := by
  induction vs with
  | nil => intro m hm; exact ⟨hm, fun k hk => Or.inl hk⟩
  | cons v vs ih =>
    intro m hm
    have hkeys := assign_keys m v m.length
    have hnd : ((record_tag m v).map Prod.fst).Nodup := by
      unfold record_tag
      rw [hkeys]
      split
      · exact hm
      · rename_i hv
        exact List.Nodup.append hm (List.nodup_singleton v) (by simpa using hv)
    obtain ⟨h1, h2⟩ := ih (record_tag m v) hnd
    refine ⟨h1, fun k hk => ?_⟩
    rcases h2 k hk with h | h
    · unfold record_tag at h
      rw [hkeys] at h
      split at h
      · exact Or.inl h
      · rcases List.mem_append.mp h with h | h
        · exact Or.inl h
        · right; simp only [List.mem_singleton] at h; simp [h]
    · exact Or.inr (List.mem_cons_of_mem _ h)

/-- Folding distinct new tag values into a map appends them with their
positions. -/
theorem fold_record_tag_nodup (vs : List String) :
    ∀ m : TagOrder, (m.map Prod.fst ++ vs).Nodup →
      vs.foldl record_tag m = m ++ (vs.enumFrom m.length).map (fun p => (p.2, p.1)) := by
  induction vs with
  | nil => intro m _; simp
  | cons v vs ih =>
    intro m hm
    have hv : v ∉ m.map Prod.fst := by
      intro hmem
      exact (List.nodup_append.mp hm).2.2 hmem (List.mem_cons_self _ _)
    have hstep : record_tag m v = m ++ [(v, m.length)] := assign_not_mem m v m.length hv
    have hm2 : ((m ++ [(v, m.length)]).map Prod.fst ++ vs).Nodup := by
      simpa [List.append_assoc] using hm
    simp only [List.foldl_cons, hstep, ih _ hm2, List.enumFrom_cons, List.map_cons,
      List.length_append, List.length_singleton, List.append_assoc, List.singleton_append]

theorem tag_values_mem (rs : List GetoptReturn) (v : String) (h : v ∈ tag_values rs) :
    v ∈ flag_values 'C' rs ∨ v ∈ flag_values 'U' rs ∨ v ∈ flag_values 'G' rs := by
  unfold tag_values at h
  unfold flag_values
  simp only [List.mem_map, List.mem_filter, decide_eq_true_eq] at h ⊢
  obtain ⟨r, ⟨hr, hc⟩, rfl⟩ := h
  rcases hc with hc | hc | hc
  · exact Or.inl ⟨r, ⟨hr, hc⟩, rfl⟩
  · exact Or.inr (Or.inl ⟨r, ⟨hr, hc⟩, rfl⟩)
  · exact Or.inr (Or.inr ⟨r, ⟨hr, hc⟩, rfl⟩)

theorem tag_values_prefix (pre rest : List GetoptReturn) (v : String)
    (h : v ∈ tag_values pre) : v ∈ tag_values (pre ++ rest) := by
  unfold tag_values at h ⊢
  rw [List.filter_append, List.map_append]
  exact List.mem_append_left _ h

/-- The values of the three tag flags together are, up to order, the values of
`-C`, of `-U` and of `-G`. -/
theorem tag_values_perm (rs : List GetoptReturn) :
    List.Perm (tag_values rs)
      (flag_values 'C' rs ++ (flag_values 'U' rs ++ flag_values 'G' rs)) := by
  induction rs with
  | nil => exact List.Perm.refl _
  | cons r rs ih =>
    unfold tag_values flag_values at ih ⊢
    by_cases hC : r.c = 'C'
    · have hU : ¬ r.c = 'U' := by rw [hC]; decide
      have hG : ¬ r.c = 'G' := by rw [hC]; decide
      simp only [List.filter_cons, hC, hU, hG, decide_True, decide_False, true_or, if_true,
        List.map_cons, List.cons_append]
      exact List.Perm.cons _ ih
    · by_cases hU : r.c = 'U'
      · have hG : ¬ r.c = 'G' := by rw [hU]; decide
        simp only [List.filter_cons, hC, hU, hG, decide_True, decide_False, true_or, or_true,
          if_true, List.map_cons, List.cons_append]
        exact (List.Perm.cons _ ih).trans List.perm_middle.symm
      · by_cases hG : r.c = 'G'
        · simp only [List.filter_cons, hC, hU, hG, decide_True, decide_False, or_true,
            if_true, List.map_cons]
          refine (List.Perm.cons _ ih).trans ?_
          rw [← List.append_assoc, ← List.append_assoc]
          exact List.perm_middle.symm
        · simp only [List.filter_cons, hC, hU, hG, decide_False, or_self]
          exact ih

/-! ## Tags, positions and last occurrences -/

theorem tagsort_validate_options (MAX_THREADS : Int) (fs_exists : String → Bool)
    (w : World INPUT_OPTIONS_TAGSORT) :
    (tagsort_validate MAX_THREADS fs_exists w).options = w.options := by
  cases h : tagsort_check MAX_THREADS fs_exists w.options with
  | none => rw [tagsort_validate_none _ _ _ h]
  | some msg => rw [tagsort_validate_some _ _ _ _ h]

/-- The record `read_options_tagsort` leaves holds the assignments of a first
stretch of the returns of `getopt_long`: all of them, or those before the first
usage error. -/
theorem read_options_tagsort_prefix (MAX_THREADS : Int) (fs_exists : String → Bool)
    (argv : List String) (options : INPUT_OPTIONS_TAGSORT) :
    ∃ pre rest, getopt_long argv tagsort_optstring tagsort_long_options = pre ++ rest ∧
      (read_options_tagsort MAX_THREADS fs_exists argv options).options =
        assign_all tagsort_assign options pre := by
  rcases split_first_error (getopt_long argv tagsort_optstring tagsort_long_options)
    with h | ⟨pre, e, post, hsplit, hpre, he⟩
  · refine ⟨_, [], (List.append_nil _).symm, ?_⟩
    rw [read_options_tagsort_parsed MAX_THREADS fs_exists argv options h,
      tagsort_validate_options]
    rfl
  · refine ⟨pre, e :: post, hsplit, ?_⟩
    rw [read_options_tagsort_usage MAX_THREADS fs_exists argv options pre post e hsplit hpre he]
    exact (help_run_fields _ _ _ _ _ _).2.2

theorem tagsort_check_of_tags (MAX_THREADS : Int) (fs_exists : String → Bool)
    (o : INPUT_OPTIONS_TAGSORT) (h : o.tag_order.length ≠ 3) :
    tagsort_check MAX_THREADS fs_exists o ≠ none ∧
    (check_modes o = none → check_metric_type o = none → check_gtf_required o = none →
      check_gtf_not_gzipped o = none → check_bam_input fs_exists o = none →
      check_temp_folder fs_exists o = none →
      tagsort_check MAX_THREADS fs_exists o = some "ERROR:  Must have three distinct tags\n") := by
  have ht : check_tags o = some "ERROR:  Must have three distinct tags\n" := by
    simp [check_tags, h]
  constructor
  · unfold tagsort_check
    cases check_modes o <;> cases check_metric_type o <;> cases check_gtf_required o <;>
      cases check_gtf_not_gzipped o <;> cases check_bam_input fs_exists o <;>
      cases check_temp_folder fs_exists o <;> simp [ht]
  · intro h1 h2 h3 h4 h5 h6
    simp [tagsort_check, h1, h2, h3, h4, h5, h6, ht]

/-- C17: when each of the three tag flags is supplied exactly once and at least two
of the three values coincide, `tag_order`, started empty, ends with fewer than 3
entries; after parsing without a usage error the call leaves with status 1, and
when the checks 1 to 6 pass the message is the one of the three distinct tags.
With `--barcode-tag X --umi-tag X --gene-tag Y` the map has 2 entries. -/
theorem c17_coinciding_tags_are_rejected :
    (∀ (MAX_THREADS : Int) (fs_exists : String → Bool) (argv : List String)
        (options : INPUT_OPTIONS_TAGSORT) (b u g : String),
      options.tag_order = [] →
      flag_values 'C' (getopt_long argv tagsort_optstring tagsort_long_options) = [b] →
      flag_values 'U' (getopt_long argv tagsort_optstring tagsort_long_options) = [u] →
      flag_values 'G' (getopt_long argv tagsort_optstring tagsort_long_options) = [g] →
      (b = u ∨ b = g ∨ u = g) →
      (read_options_tagsort MAX_THREADS fs_exists argv options).options.tag_order.length < 3 ∧
      ((∀ r ∈ getopt_long argv tagsort_optstring tagsort_long_options, r.c ≠ '?') →
        (read_options_tagsort MAX_THREADS fs_exists argv options).status = Status.exited 1 ∧
        (check_modes (read_options_tagsort MAX_THREADS fs_exists argv options).options = none →
          check_metric_type
            (read_options_tagsort MAX_THREADS fs_exists argv options).options = none →
          check_gtf_required
            (read_options_tagsort MAX_THREADS fs_exists argv options).options = none →
          check_gtf_not_gzipped
            (read_options_tagsort MAX_THREADS fs_exists argv options).options = none →
          check_bam_input fs_exists
            (read_options_tagsort MAX_THREADS fs_exists argv options).options = none →
          check_temp_folder fs_exists
            (read_options_tagsort MAX_THREADS fs_exists argv options).options = none →
          (read_options_tagsort MAX_THREADS fs_exists argv options).stdout =
            [Output.text "ERROR:  Must have three distinct tags\n"]))) ∧
    ((read_options_tagsort 30 all_exist coinciding_tag_argv
        INPUT_OPTIONS_TAGSORT.defaults).options.tag_order.length = 2 ∧
      (read_options_tagsort 30 all_exist coinciding_tag_argv
        INPUT_OPTIONS_TAGSORT.defaults).status = Status.exited 1 ∧
      (read_options_tagsort 30 all_exist coinciding_tag_argv
        INPUT_OPTIONS_TAGSORT.defaults).stdout =
          [Output.text "ERROR:  Must have three distinct tags\n"]) := by
  refine ⟨?_, by decide⟩
  intro MAX_THREADS fs_exists argv options b u g h0 hC hU hG hdup
  have hlen : (read_options_tagsort MAX_THREADS fs_exists argv options).options.tag_order.length
      < 3 := by
    obtain ⟨pre, rest, hsplit, hopt⟩ :=
      read_options_tagsort_prefix MAX_THREADS fs_exists argv options
    rw [hopt, tagsort_assign_all_fields]
    simp only [tagsort_last_wins, h0]
    obtain ⟨hnd, hsub⟩ := fold_record_tag_keys (tag_values pre) [] List.nodup_nil
    have hkey : ∀ k ∈ ((tag_values pre).foldl record_tag []).map Prod.fst,
        k = b ∨ k = u ∨ k = g := by
      intro k hk
      rcases hsub k hk with h | h
      · simp at h
      · have hmem := tag_values_mem _ k (hsplit ▸ tag_values_prefix pre rest k h)
        rw [hC, hU, hG] at hmem
        simpa using hmem
    have hle : ∀ l2 : List String, l2.length = 2 →
        (∀ k ∈ ((tag_values pre).foldl record_tag []).map Prod.fst, k ∈ l2) →
        ((tag_values pre).foldl record_tag []).length < 3 := by
      intro l2 hl2 hin
      have := (hnd.subperm hin).length_le
      rw [List.length_map] at this
      omega
    rcases hdup with h | h | h
    · refine hle [u, g] rfl (fun k hk => ?_)
      rcases hkey k hk with e | e | e <;> simp [e, h]
    · refine hle [u, g] rfl (fun k hk => ?_)
      rcases hkey k hk with e | e | e <;> simp [e, h]
    · refine hle [b, g] rfl (fun k hk => ?_)
      rcases hkey k hk with e | e | e <;> simp [e, h]
  refine ⟨hlen, fun hne => ?_⟩
  have hrun := read_options_tagsort_parsed MAX_THREADS fs_exists argv options hne
  rw [hrun, tagsort_validate_options] at hlen
  have hne3 : (World.start (assign_all tagsort_assign options
      (getopt_long argv tagsort_optstring tagsort_long_options))).options.tag_order.length ≠ 3 :=
    by omega
  obtain ⟨hfail, hmsg⟩ := tagsort_check_of_tags MAX_THREADS fs_exists _ hne3
  rw [hrun]
  refine ⟨(tagsort_validate_status _ _ _).2.mpr hfail, ?_⟩
  rw [tagsort_validate_options]
  intro h1 h2 h3 h4 h5 h6
  rw [tagsort_validate_some _ _ _ _ (hmsg h1 h2 h3 h4 h5 h6)]
  rfl

/-- C17 (witness): `--barcode-tag X --umi-tag X --gene-tag Y`: each tag flag is
supplied once, two values coincide, and the map ends with fewer than 3
entries. -/
theorem c17_coinciding_tags_are_rejected_witness :
    (flag_values 'C' (getopt_long coinciding_tag_argv tagsort_optstring tagsort_long_options) =
        ["X"] ∧
      flag_values 'U' (getopt_long coinciding_tag_argv tagsort_optstring tagsort_long_options) =
        ["X"] ∧
      flag_values 'G' (getopt_long coinciding_tag_argv tagsort_optstring tagsort_long_options) =
        ["Y"]) ∧
    (read_options_tagsort 30 all_exist coinciding_tag_argv
      INPUT_OPTIONS_TAGSORT.defaults).options.tag_order.length < 3 :=
  ⟨by decide,
    (c17_coinciding_tags_are_rejected.1 30 all_exist coinciding_tag_argv
      INPUT_OPTIONS_TAGSORT.defaults "X" "X" "Y" rfl (by decide) (by decide) (by decide)
      (Or.inl rfl)).1⟩

/-- C19: after parsing without a usage error, when each of the three tag flags is
supplied exactly once and the three values are pairwise distinct, `tag_order`,
started empty, holds each tag value with the position at which its flag appeared
among the tag flags, and has 3 entries.  The end-to-end example is accepted for
every `MAX_THREADS` of at least 1 when its bam input and temp folder exist, with
`tag_order = {CB:0, UB:1, GX:2}` and `compute_metric` set. -/
theorem c19_tag_order_records_positions :
    (∀ (MAX_THREADS : Int) (fs_exists : String → Bool) (argv : List String)
        (options : INPUT_OPTIONS_TAGSORT) (b u g : String),
      options.tag_order = [] →
      (∀ r ∈ getopt_long argv tagsort_optstring tagsort_long_options, r.c ≠ '?') →
      flag_values 'C' (getopt_long argv tagsort_optstring tagsort_long_options) = [b] →
      flag_values 'U' (getopt_long argv tagsort_optstring tagsort_long_options) = [u] →
      flag_values 'G' (getopt_long argv tagsort_optstring tagsort_long_options) = [g] →
      b ≠ u → b ≠ g → u ≠ g →
      (read_options_tagsort MAX_THREADS fs_exists argv options).options.tag_order =
        (tag_values (getopt_long argv tagsort_optstring tagsort_long_options)).enum.map
          (fun p => (p.2, p.1)) ∧
      List.Perm (tag_values (getopt_long argv tagsort_optstring tagsort_long_options))
        [b, u, g] ∧
      (read_options_tagsort MAX_THREADS fs_exists argv options).options.tag_order.length = 3 ∧
      (read_options_tagsort MAX_THREADS fs_exists argv options).options.barcode_tag = b ∧
      (read_options_tagsort MAX_THREADS fs_exists argv options).options.umi_tag = u ∧
      (read_options_tagsort MAX_THREADS fs_exists argv options).options.gene_tag = g) ∧
    (∀ MAX_THREADS : Int, 1 ≤ MAX_THREADS →
      (read_options_tagsort MAX_THREADS (exist_in ["in.bam", "/scratch"]) tagsort_example_argv
        INPUT_OPTIONS_TAGSORT.defaults).status = Status.returned ∧
      (read_options_tagsort MAX_THREADS (exist_in ["in.bam", "/scratch"]) tagsort_example_argv
        INPUT_OPTIONS_TAGSORT.defaults).options.tag_order = [("CB", 0), ("UB", 1), ("GX", 2)] ∧
      (read_options_tagsort MAX_THREADS (exist_in ["in.bam", "/scratch"]) tagsort_example_argv
        INPUT_OPTIONS_TAGSORT.defaults).options.compute_metric = true ∧
      (read_options_tagsort MAX_THREADS (exist_in ["in.bam", "/scratch"]) tagsort_example_argv
        INPUT_OPTIONS_TAGSORT.defaults).options.alignments_per_thread = 1000000 ∧
      (read_options_tagsort MAX_THREADS (exist_in ["in.bam", "/scratch"]) tagsort_example_argv
        INPUT_OPTIONS_TAGSORT.defaults).options.nthreads = 1) := by
  constructor
  · intro MAX_THREADS fs_exists argv options b u g h0 hne hC hU hG hbu hbg hug
    rw [read_options_tagsort_parsed MAX_THREADS fs_exists argv options hne,
      tagsort_validate_options, World.start, tagsort_assign_all_fields]
    simp only [tagsort_last_wins, h0]
    have hperm : List.Perm (tag_values (getopt_long argv tagsort_optstring tagsort_long_options))
        [b, u, g] := by
      have := tag_values_perm (getopt_long argv tagsort_optstring tagsort_long_options)
      rw [hC, hU, hG] at this
      exact this
    have hnd : (tag_values (getopt_long argv tagsort_optstring tagsort_long_options)).Nodup := by
      rw [hperm.nodup_iff]
      simp [hbu, hbg, hug]
    have hfold := fold_record_tag_nodup
      (tag_values (getopt_long argv tagsort_optstring tagsort_long_options)) []
      (by simpa using hnd)
    refine ⟨?_, hperm, ?_, ?_, ?_, ?_⟩
    · rw [hfold]; simp [List.enum]
    · rw [hfold]; simp [hperm.length_eq]
    · simp [last_or, hC]
    · simp [last_or, hU]
    · simp [last_or, hG]
  · intro MAX_THREADS hM
    have hrun : read_options_tagsort MAX_THREADS (exist_in ["in.bam", "/scratch"])
        tagsort_example_argv INPUT_OPTIONS_TAGSORT.defaults =
        tagsort_validate MAX_THREADS (exist_in ["in.bam", "/scratch"])
          (World.start tagsort_example_options) := by
      rw [read_options_tagsort_parsed _ _ _ _ (by decide)]
      exact congrArg _ (congrArg _ (by decide))
    have hcheck : tagsort_check MAX_THREADS (exist_in ["in.bam", "/scratch"])
        (World.start tagsort_example_options).options = none := by
      have h9 : check_nthreads MAX_THREADS (World.start tagsort_example_options).options
          = none := by
        have hc : ¬ ((World.start tagsort_example_options).options.nthreads > MAX_THREADS ∨
            (World.start tagsort_example_options).options.nthreads < 1) := by
          have : (World.start tagsort_example_options).options.nthreads = 1 := rfl
          omega
        simp only [check_nthreads, if_neg hc]
      have h1 : check_modes (World.start tagsort_example_options).options = none := by decide
      have h2 : check_metric_type (World.start tagsort_example_options).options = none := by
        decide
      have h3 : check_gtf_required (World.start tagsort_example_options).options = none := by
        decide
      have h4 : check_gtf_not_gzipped (World.start tagsort_example_options).options = none := by
        decide
      have h5 : check_bam_input (exist_in ["in.bam", "/scratch"])
          (World.start tagsort_example_options).options = none := by decide
      have h6 : check_temp_folder (exist_in ["in.bam", "/scratch"])
          (World.start tagsort_example_options).options = none := by decide
      have h7 : check_tags (World.start tagsort_example_options).options = none := by decide
      have h8 : check_alignments (World.start tagsort_example_options).options = none := by
        decide
      simp only [tagsort_check, h1, h2, h3, h4, h5, h6, h7, h8, h9]
    rw [hrun, tagsort_validate_none _ _ _ hcheck]
    exact ⟨rfl, rfl, rfl, rfl, rfl⟩

/-- C19 (witness): the end-to-end example supplies the three tag flags once each
with distinct values and has no usage error; its `tag_order` has 3 entries and it
is accepted with `MAX_THREADS = 30`. -/
theorem c19_tag_order_records_positions_witness :
    ((∀ r ∈ getopt_long tagsort_example_argv tagsort_optstring tagsort_long_options,
        r.c ≠ '?') ∧
      flag_values 'C' (getopt_long tagsort_example_argv tagsort_optstring
        tagsort_long_options) = ["CB"] ∧
      flag_values 'U' (getopt_long tagsort_example_argv tagsort_optstring
        tagsort_long_options) = ["UB"] ∧
      flag_values 'G' (getopt_long tagsort_example_argv tagsort_optstring
        tagsort_long_options) = ["GX"]) ∧
    (read_options_tagsort 30 (exist_in ["in.bam", "/scratch"]) tagsort_example_argv
      INPUT_OPTIONS_TAGSORT.defaults).options.tag_order.length = 3 ∧
    (read_options_tagsort 30 (exist_in ["in.bam", "/scratch"]) tagsort_example_argv
      INPUT_OPTIONS_TAGSORT.defaults).status = Status.returned :=
  ⟨by decide,
    (c19_tag_order_records_positions.1 30 (exist_in ["in.bam", "/scratch"])
      tagsort_example_argv INPUT_OPTIONS_TAGSORT.defaults "CB" "UB" "GX" rfl (by decide)
      (by decide) (by decide) (by decide) (by decide) (by decide) (by decide)).2.2.1,
    (c19_tag_order_records_positions.2 30 (by decide)).1⟩

/-- C20: after parsing without a usage error the record a reader leaves is the
fold of the flags from left to right: every scalar field holds the value of the
last occurrence of its flag, or its initial value when the flag never occurs;
the lists `I1s`, `R1s`, `R2s` of the two FASTQ readers hold their initial content
followed by the values of all occurrences of their flag in argument order; and
`tag_order` is built from the values of the three tag flags.  Every field
depends on the occurrences of its own flag only. -/
theorem c20_last_occurrence_wins_lists_append :
    (∀ (MAX_THREADS : Int) (fs_exists : String → Bool) (argv : List String)
        (options : INPUT_OPTIONS_TAGSORT),
      (∀ r ∈ getopt_long argv tagsort_optstring tagsort_long_options, r.c ≠ '?') →
      (read_options_tagsort MAX_THREADS fs_exists argv options).options =
        tagsort_last_wins options
          (getopt_long argv tagsort_optstring tagsort_long_options)) ∧
    (∀ (atof : String → double) (argv : List String) (options : INPUT_OPTIONS_FASTQPROCESS),
      (∀ r ∈ getopt_long argv fastqprocess_optstring fastqprocess_long_options, r.c ≠ '?') →
      (read_options_fastqprocess atof argv options).options =
        fastqprocess_last_wins atof options
          (getopt_long argv fastqprocess_optstring fastqprocess_long_options)) ∧
    (∀ (atof : String → double) (argv : List String) (options : INPUT_OPTIONS_FASTQ_READ_STRUCTURE),
      (∀ r ∈ getopt_long argv slideseq_optstring slideseq_long_options, r.c ≠ '?') →
      (read_options_fastq_slideseq atof argv options).options =
        slideseq_last_wins atof options
          (getopt_long argv slideseq_optstring slideseq_long_options)) := by
  refine ⟨?_, ?_, ?_⟩
  · intro MAX_THREADS fs_exists argv options h
    rw [read_options_tagsort_parsed MAX_THREADS fs_exists argv options h,
      tagsort_validate_options]
    exact tagsort_assign_all_fields options _
  · intro atof argv options h
    rw [read_options_fastqprocess_parsed atof argv options h, fastqprocess_validate_options]
    exact fastqprocess_assign_all_fields atof options _
  · intro atof argv options h
    rw [read_options_fastq_slideseq_parsed atof argv options h, slideseq_validate_options]
    exact slideseq_assign_all_fields atof options _

/-- C20 (witness): with `--R1`, `--sample-id` and `--barcode-length` given twice,
`R1s` holds both files in order, and `sample_id` and `barcode_length` hold the
second value. -/
theorem c20_last_occurrence_wins_lists_append_witness :
    (∀ r ∈ getopt_long repeated_flags_argv fastqprocess_optstring fastqprocess_long_options,
      r.c ≠ '?') ∧
    (read_options_fastqprocess atof_unused repeated_flags_argv
      INPUT_OPTIONS_FASTQPROCESS.defaults).options =
      { INPUT_OPTIONS_FASTQPROCESS.defaults with
        R1s := ["a.fastq", "b.fastq"], R2s := ["c.fastq"], sample_id := "S2",
        barcode_length := 16 } :=
  ⟨by decide,
    ((c20_last_occurrence_wins_lists_append.2.1 atof_unused repeated_flags_argv
      INPUT_OPTIONS_FASTQPROCESS.defaults (by decide)).trans (by decide))⟩

/-! ## Tokens that are not numbers -/

/-- C22 (failing input): `-C A -U B -G C -G C` is accepted with 3 entries in
`tag_order`, and the order stored for `C` is 3, which is not less than the size
of the map; `-C A -C A -U B -G C` is accepted with the orders 1, 1, 2, which are
not distinct and do not include 0. -/
theorem c22_repeated_tag_stores_size_as_order :
    ((read_options_tagsort 30 all_exist same_tag_twice_argv
        INPUT_OPTIONS_TAGSORT.defaults).status = Status.returned ∧
      (read_options_tagsort 30 all_exist same_tag_twice_argv
        INPUT_OPTIONS_TAGSORT.defaults).options.tag_order = [("A", 0), ("B", 1), ("C", 3)] ∧
      (read_options_tagsort 30 all_exist same_tag_twice_argv
        INPUT_OPTIONS_TAGSORT.defaults).options.tag_order.length = 3 ∧
      ¬ (∀ p ∈ (read_options_tagsort 30 all_exist same_tag_twice_argv
          INPUT_OPTIONS_TAGSORT.defaults).options.tag_order,
        p.2 < (read_options_tagsort 30 all_exist same_tag_twice_argv
          INPUT_OPTIONS_TAGSORT.defaults).options.tag_order.length)) ∧
    ((read_options_tagsort 30 all_exist first_tag_twice_argv
        INPUT_OPTIONS_TAGSORT.defaults).status = Status.returned ∧
      (read_options_tagsort 30 all_exist first_tag_twice_argv
        INPUT_OPTIONS_TAGSORT.defaults).options.tag_order = [("A", 1), ("B", 1), ("C", 2)]) := by
  decide

end InputOptions
